import Mathlib

/-!
# Don't Forget: the public booking flow

A shallow embedding of `src/components/PublicBooking.jsx` (and of the slot grid of
`src/components/Booking.jsx`): the component state is a record, every event handler is a
function from the state of the render it closes over to a `Run` (the state after its
`setState` calls, the session storage, the list of effects in the order they happen, and the
exception that escaped, if any).  The answers of the outside world (backend, Stripe, the JSON
codec of the browser) are inputs of the handlers.

Also embedded: the request that `api.createBooking` of `src/utils/api.js` sends and what
`apiRequest` does with the answer, the validators of `src/utils/auth/validation.js`, whose
regular expressions are values of `Rx`, run by a derivative matcher, the token store of
`src/utils/auth/token.js`, `formatAuthError` and `getUserInitials` of
`src/utils/auth/helpers.js`, and the memos `filteredTasks` and `counts` of
`src/components/Dashboard.jsx`.

Conventions of the embedding:

* a handler reads the state of the render it closes over (`c`) and writes through `Run.set`;
* an awaited call is one entry of the trace, placed where its `await` completes;
* `try`/`catch`/`finally` is a `...Try` function for the `try` block, whose `thrown` field the
  enclosing function inspects;
* the query parameters the component asks for (`link`, `userId`, `token`, `packageId`,
  `payment`, `pkgs`) are fields of `Url`;
* `step` and `paymentMethod` range over the literals the component assigns to them, and the text
  slots of the state (`date`, `selectedSlot`, the guest fields) hold strings;
* `length` of a string is `jsLength`, the number of UTF-16 code units;
* the methods of the engine that depend on Unicode tables or on the calendar (`toUpperCase`,
  `toLowerCase`, `Date`) are arguments of the functions that call them.
-/

namespace DontForget

/-! ## JavaScript values -/

/-- The primitive JavaScript values that flow through the booking component.  Numbers are the
integers (ids, amounts in minor units). -/
inductive JsVal where
  | undefined
  | null
  | bool (b : Bool)
  | num (n : Int)
  | str (s : String)
  deriving DecidableEq

namespace JsVal

/-- Truthiness: what `if (v)`, `!v`, `v && ..` and `v || ..` test. -/
def truthy : JsVal → Bool
  | undefined => false
  | null => false
  | bool b => b
  | num n => n != 0
  | str s => s != ""

/-- The conversion `String(v)`, also applied by `sessionStorage.setItem`. -/
def toStr : JsVal → String
  | undefined => "undefined"
  | null => "null"
  | bool true => "true"
  | bool false => "false"
  | num n => toString n
  | str s => s

/-- The operator `a || b`. -/
def or (a b : JsVal) : JsVal := if a.truthy then a else b

/-- A value put into a state slot that holds text (`date`, `selectedSlot`, the guest fields):
a string is kept as it is, any other value is kept through its `String` image. -/
def asText : JsVal → String
  | str s => s
  | v => v.toStr

end JsVal

/-- A flat object literal: its own properties in insertion order. -/
abbrev JsObj := List (String × JsVal)

/-- Property read `o.k`: `undefined` when the property is absent. -/
def objGet (o : JsObj) (k : String) : JsVal :=
  match o.find? (fun kv => kv.1 == k) with
  | some kv => kv.2
  | none => JsVal.undefined

/-- Property write `o[k] = v`: overwrite in place, or append. -/
def objSet : JsObj → String → JsVal → JsObj
  | [], k, v => [(k, v)]
  | (k', v') :: rest, k, v => if k' == k then (k', v) :: rest else (k', v') :: objSet rest k v

/-- Object spread `{ ...base, ...ext }`. -/
def objSpread (base ext : JsObj) : JsObj :=
  ext.foldl (fun acc kv => objSet acc kv.1 kv.2) base

/-- The expression `msg || fallback` on strings, as in `err.message || '...'`. -/
def orElse (msg fallback : String) : String := if msg != "" then msg else fallback

/-! ## `String.prototype.trim` -/

/-- White space and line terminators removed by `trim`. -/
def isJsWhitespace (c : Char) : Bool :=
  c.toNat == 0x09 || c.toNat == 0x0A || c.toNat == 0x0B || c.toNat == 0x0C || c.toNat == 0x0D ||
  c.toNat == 0x20 || c.toNat == 0xA0 || c.toNat == 0x1680 ||
  (0x2000 ≤ c.toNat && c.toNat ≤ 0x200A) ||
  c.toNat == 0x2028 || c.toNat == 0x2029 || c.toNat == 0x202F || c.toNat == 0x205F ||
  c.toNat == 0x3000 || c.toNat == 0xFEFF

/-- The method `s.trim()`. -/
def jsTrim (s : String) : String :=
  String.mk ((s.data.dropWhile isJsWhitespace).reverse.dropWhile isJsWhitespace).reverse

/-! ## Session storage -/

/-- The contents of `sessionStorage`: key/value pairs, at most one per key. -/
abbrev Storage := List (String × String)

/-- The call `sessionStorage.getItem(k)`: `none` is `null`. -/
def getItem (st : Storage) (k : String) : Option String :=
  (st.find? (fun kv => kv.1 == k)).map (fun kv => kv.2)

/-- The call `sessionStorage.removeItem(k)`. -/
def removeItem (st : Storage) (k : String) : Storage :=
  st.filter (fun kv => !(kv.1 == k))

/-- The call `sessionStorage.setItem(k, v)`. -/
def setItem (st : Storage) (k v : String) : Storage :=
  removeItem st k ++ [(k, v)]

/-- The value of `getItem` as a JavaScript value. -/
def itemVal : Option String → JsVal
  | some s => JsVal.str s
  | none => JsVal.null

/-! ## Component state -/

/-- The values of `step`: `'select'`, `'payment'`, `'confirm'`. -/
inductive Step where
  | select
  | payment
  | confirm
  deriving DecidableEq

/-- The values of `paymentMethod`: `'stripe'`, `'paypal'`. -/
inductive PaymentMethod where
  | stripe
  | paypal
  deriving DecidableEq

/-- The `guest` state object. -/
structure Guest where
  name : String
  email : String
  phone : String
  comment : String
  deriving DecidableEq

/-- A package: `price` is the value of `Number(p.price) || 0` in minor units. -/
structure Package where
  id : JsVal
  name : String
  price : Int
  deriving DecidableEq

/-- What the component reads from `linkInfo`: `user_id`, `link?.is_full`, `link?.redirect_url`
and `package` (`none` when the link leaves the choice to the guest). -/
structure LinkInfo where
  user_id : JsVal
  is_full : JsVal
  redirect_url : JsVal
  package : Option Package := none
  deriving DecidableEq

/-- The `useState` slots of `PublicBooking` (and the random token memoised in `meetingLink`). -/
structure State where
  date : String
  selectedSlot : String
  guest : Guest
  step : Step
  paymentMethod : PaymentMethod
  requirePayment : Bool
  payNow : Bool
  currentBookingId : JsVal
  stripeKey : String
  paypalKey : String
  packages : List Package
  selectedPackageId : JsVal
  isPackagePreSelected : Bool
  loading : Bool
  error : String
  bookedSlots : List String
  loadingAvailability : Bool
  linkInfo : Option LinkInfo
  meetToken : String
  ownerName : String := "us"
  isSharedLink : Bool := true
  stripeLoaded : Bool := false
  paypalLoaded : Bool := false
  deriving DecidableEq

/-- The page address as the component reads it: `window.location` and the query parameters it
asks `searchParams` for (`null` when absent); `pkgs` is the decoded and normalized package list
of the `pkgs` parameter, `none` when the parameter is absent or does not decode. -/
structure Url where
  origin : String
  pathname : String
  search : String
  link : JsVal
  userId : JsVal
  token : JsVal
  packageId : JsVal := JsVal.null
  payment : JsVal := JsVal.null
  pkgs : Option (List Package) := none
  deriving DecidableEq

/-- The slots offered by `PublicBooking`. -/
def defaultSlots : List String :=
  ["00:00", "00:30", "01:00", "01:30", "02:00", "02:30", "03:00", "03:30", "04:00", "04:30",
   "05:00", "05:30", "06:00", "06:30", "07:00", "07:30", "08:00", "08:30", "09:00", "09:30",
   "10:00", "10:30", "11:00", "11:30", "12:00", "12:30", "13:00", "13:30", "14:00", "14:30",
   "15:00", "15:30", "16:00", "16:30", "17:00", "17:30", "18:00", "18:30", "19:00", "19:30",
   "20:00", "20:30", "21:00", "21:30", "22:00", "22:30", "23:00", "23:30"]

/-! ## Derived values of a render -/

/-- The value `linkInfo?.user_id || searchParams.get('userId')`. -/
def bookingUserId (c : State) (url : Url) : JsVal :=
  match c.linkInfo with
  | some li => li.user_id.or url.userId
  | none => url.userId

/-- The memoised `meetingLink`. -/
def meetingLink (c : State) : String :=
  if c.selectedSlot == "" then ""
  else "https://dontforget.app/meet/" ++ c.date ++ "-" ++ c.selectedSlot ++ "-" ++ c.meetToken

/-- Truthiness of `guest.name.trim() && guest.email.trim() && guest.phone.trim()`. -/
def isGuestValid (c : State) : Bool :=
  jsTrim c.guest.name != "" && jsTrim c.guest.email != "" && jsTrim c.guest.phone != ""

/-- The value `packages.find(p => String(p.id) === String(selectedPackageId))`. -/
def selectedPackage (c : State) : Option Package :=
  c.packages.find? (fun p => p.id.toStr == c.selectedPackageId.toStr)

/-- The value `(requirePayment || payNow) && !!selectedPackage`. -/
def needsPayment (c : State) : Bool :=
  (c.requirePayment || c.payNow) && (selectedPackage c).isSome

/-- Truthiness of `isGuestValid && selectedSlot && selectedPackageId`. -/
def isFormValid (c : State) : Bool :=
  isGuestValid c && c.selectedSlot != "" && c.selectedPackageId.truthy

/-- Truthiness of `linkInfo?.link?.is_full`. -/
def isLinkFull (c : State) : Bool :=
  match c.linkInfo with
  | some li => li.is_full.truthy
  | none => false

/-- The payment decision in the words of the specification:
`(linkRequiresPayment OR userOptedPayNow) AND selectedPackage exists AND selectedPackage.price > 0`. -/
def needsPaymentSpec (c : State) : Bool :=
  (c.requirePayment || c.payNow) &&
    (match selectedPackage c with
     | some p => decide (0 < p.price)
     | none => false)

/-! ## The outside world -/

/-- The result of an awaited call: the promise rejects with an error carrying `message`, or
resolves with a value. -/
inductive Outcome (α : Type) where
  | rejected (message : String)
  | resolved (value : α)
  deriving DecidableEq

/-- A parsed response body of which the component reads one property (`booking?.id`,
`client_secret`): the body is `null`, or it is an object and the property has the given value
(`undefined` when absent). -/
inductive Body where
  | nullBody
  | obj (field : JsVal)
  deriving DecidableEq

/-- The response body of `api.createPayPalOrder`. -/
inductive OrderBody where
  | nullBody
  | obj (approval_url order_id : JsVal)
  deriving DecidableEq

/-- The `paymentIntent` of a card confirmation. -/
structure PaymentIntent where
  status : String
  id : JsVal
  deriving DecidableEq

/-- The object `stripe.confirmCardPayment` resolves with: `error` is `some message` when the
`error` property is set, `paymentIntent` is `none` when that property is missing. -/
structure ConfirmResult where
  error : Option String
  paymentIntent : Option PaymentIntent
  deriving DecidableEq

/-- The browser's JSON codec, restricted to flat objects.  `parse` answers `none` when
`JSON.parse` throws, `some none` for the value `null`, and `some (some o)` for a value whose own
enumerable properties are `o`. -/
structure Json where
  stringify : JsObj → String
  parse : String → Option (Option JsObj)

/-- What the outside world answers during one run of a handler.  `stripeInstance` and
`cardElement` say whether `stripeInstanceRef.current` and the mounted card element are there,
`cardErrorsElement` whether the `stripe-card-errors` node is; `typeErrorMessage` and
`syntaxErrorMessage` are the messages the engine gives to a property read on `null` and to a
failed `JSON.parse`. -/
structure Env where
  json : Json
  createBooking : Outcome Body
  confirmStripePayment : Outcome Unit
  createStripeIntent : Outcome Body
  stripeInstance : Bool
  cardElement : Bool
  cardErrorsElement : Bool
  confirmCardPayment : Outcome ConfirmResult
  createPayPalOrder : Outcome OrderBody
  capturePayPalPayment : Outcome Body
  typeErrorMessage : String
  syntaxErrorMessage : String

/-- The effects a handler has on the outside world.  An awaited call is recorded once, at the
point where its `await` completes; the effects after it in a trace happen after it has
completed. -/
inductive Effect where
  | apiCreateBooking (data : JsObj)
  | apiConfirmStripePayment (data : JsObj)
  | apiCreateStripeIntent (data : JsObj)
  | stripeConfirmCardPayment (clientSecret : JsVal) (name email : String)
      (result : Outcome ConfirmResult)
  | apiCreatePayPalOrder (data : JsObj)
  | apiCapturePayPalPayment (data : JsObj)
  | storageSetItem (key value : String)
  | storageRemoveItem (key : String)
  | navigate (url : String)
  | redirectLater (url : String) (ms : Nat)
  | replaceState (url : String)
  | cardErrorsText (message : String)
  | consoleError (label : String)
  deriving DecidableEq

namespace Effect

/-- The call `api.createBooking`. -/
def isCreateBooking : Effect → Bool
  | apiCreateBooking _ => true
  | _ => false

/-- The call `api.capturePayPalPayment`. -/
def isCapture : Effect → Bool
  | apiCapturePayPalPayment _ => true
  | _ => false

/-- A call to the backend or to a payment provider. -/
def isNetworkCall : Effect → Bool
  | apiCreateBooking _ => true
  | apiConfirmStripePayment _ => true
  | apiCreateStripeIntent _ => true
  | stripeConfirmCardPayment _ _ _ _ => true
  | apiCreatePayPalOrder _ => true
  | apiCapturePayPalPayment _ => true
  | _ => false

/-- A card confirmation that returned with no error and a `paymentIntent` of status
`'succeeded'`. -/
def isSuccessfulConfirmation : Effect → Bool
  | stripeConfirmCardPayment _ _ _ (Outcome.resolved res) =>
      res.error.isNone &&
        (match res.paymentIntent with
         | some pi => pi.status == "succeeded"
         | none => false)
  | _ => false

/-- Removal of a session-storage key. -/
def isRemoval (k : String) : Effect → Bool
  | storageRemoveItem k' => k' == k
  | _ => false

end Effect

/-- The progress of a handler: the state after the `setState` calls made so far, the session
storage, the effects so far (oldest first), and the message of the exception in flight. -/
structure Run where
  state : State
  storage : Storage
  trace : List Effect
  thrown : Option String

namespace Run

/-- A handler starts on the state it was rendered with. -/
def start (c : State) (st : Storage) : Run :=
  { state := c, storage := st, trace := [], thrown := none }

/-- A `setState` call. -/
def set (r : Run) (f : State → State) : Run := { r with state := f r.state }

/-- An effect on the outside world. -/
def emit (r : Run) (e : Effect) : Run := { r with trace := r.trace ++ [e] }

/-- The statement `throw new Error(msg)` (or a rejected `await`). -/
def raise (r : Run) (msg : String) : Run := { r with thrown := some msg }

/-- The call `sessionStorage.setItem(k, v)`. -/
def store (r : Run) (k v : String) : Run :=
  { r with storage := setItem r.storage k v, trace := r.trace ++ [Effect.storageSetItem k v] }

/-- The call `sessionStorage.removeItem(k)`. -/
def unstore (r : Run) (k : String) : Run :=
  { r with storage := removeItem r.storage k, trace := r.trace ++ [Effect.storageRemoveItem k] }

end Run

/-! ## The booking committer -/

/-- The `bookingData` literal of `createBooking`. -/
def bookingData (c : State) (url : Url) (userId : JsVal) : JsObj :=
  [("user_id", userId),
   ("package_id", c.selectedPackageId.or JsVal.null),
   ("guest_name", JsVal.str c.guest.name),
   ("guest_email", JsVal.str c.guest.email),
   ("guest_phone", JsVal.str c.guest.phone),
   ("guest_comment", (JsVal.str c.guest.comment).or JsVal.null),
   ("date", JsVal.str c.date),
   ("time_slot", JsVal.str c.selectedSlot),
   ("meeting_link", JsVal.str (meetingLink c)),
   ("link_slug", url.link.or JsVal.null)]

/-- Truthiness of `linkInfo?.link?.redirect_url`, with the address. -/
def redirectUrl (c : State) : Option String :=
  match c.linkInfo with
  | some li => if li.redirect_url.truthy then some li.redirect_url.toStr else none
  | none => none

/-- The `try` block of `createBooking`. -/
def createBookingTry (c : State) (url : Url) (env : Env) (userId : JsVal)
    (paymentStatus : String) (paymentIntentId : JsVal) (r : Run) : Run :=
  let r := r.set (fun s => { s with loading := true })
  let r := r.set (fun s => { s with error := "" })
  let r := r.emit (Effect.apiCreateBooking (bookingData c url userId))
  match env.createBooking with
  | Outcome.rejected msg => r.raise msg
  | Outcome.resolved Body.nullBody => r.raise env.typeErrorMessage
  | Outcome.resolved (Body.obj bookingId) =>
    let r :=
      if bookingId.truthy && paymentStatus == "paid" && paymentIntentId.truthy then
        let r := r.emit (Effect.apiConfirmStripePayment
          [("payment_intent_id", paymentIntentId), ("booking_id", bookingId)])
        match env.confirmStripePayment with
        | Outcome.rejected _ => r.emit (Effect.consoleError "Error confirming payment status:")
        | Outcome.resolved _ => r
      else r
    let r := r.set (fun s => { s with currentBookingId := bookingId })
    let r := r.set (fun s => { s with step := Step.confirm })
    match redirectUrl c with
    | some target => r.emit (Effect.redirectLater target 2000)
    | none => r

/-- The function `createBooking(userId, paymentStatus = 'pending', paymentIntentId = null)`. -/
def createBooking (c : State) (url : Url) (env : Env) (userId : JsVal)
    (paymentStatus : String) (paymentIntentId : JsVal) (r : Run) : Run :=
  let r := createBookingTry c url env userId paymentStatus paymentIntentId r
  let r :=
    match r.thrown with
    | some msg =>
      let r := r.set (fun s =>
        { s with error := orElse msg "Failed to create booking. Please try again." })
      r.emit (Effect.consoleError "Error creating booking:")
    | none => r
  r.set (fun s => { s with loading := false })

/-! ## The payment sub-flows -/

/-- The `try` block of `processStripePayment`. -/
def processStripePaymentTry (c : State) (url : Url) (env : Env) (userId : JsVal) (amount : Int)
    (r : Run) : Run :=
  let r := r.emit (Effect.apiCreateStripeIntent
    [("package_id", c.selectedPackageId), ("user_id", userId), ("amount", JsVal.num amount)])
  match env.createStripeIntent with
  | Outcome.rejected msg => r.raise msg
  | Outcome.resolved intentResponse =>
    if !env.stripeInstance then
      r.raise "Stripe is not initialized. Please wait a moment and try again."
    else if !env.cardElement then
      r.raise "Card input is not ready. Please wait a moment and try again."
    else
      match intentResponse with
      | Body.nullBody => r.raise env.typeErrorMessage
      | Body.obj clientSecret =>
        let r := r.emit (Effect.stripeConfirmCardPayment clientSecret c.guest.name c.guest.email
          env.confirmCardPayment)
        match env.confirmCardPayment with
        | Outcome.rejected msg => r.raise msg
        | Outcome.resolved res =>
          match res.error with
          | some message =>
            let r := if env.cardErrorsElement then r.emit (Effect.cardErrorsText message) else r
            r.raise message
          | none =>
            match res.paymentIntent with
            | some pi =>
              if pi.status == "succeeded" then createBooking c url env userId "paid" pi.id r
              else r.raise "Payment not completed. Please try again."
            | none => r.raise "Payment not completed. Please try again."

/-- The function `processStripePayment(userId, amount)`. -/
def processStripePayment (c : State) (url : Url) (env : Env) (userId : JsVal) (amount : Int)
    (r : Run) : Run :=
  let r := processStripePaymentTry c url env userId amount r
  let r :=
    match r.thrown with
    | some msg => r.set (fun s => { s with error := orElse msg "Stripe payment failed. Please try again." })
    | none => r
  r.set (fun s => { s with loading := false })

/-- The `currentUrl` of `processPayPalPayment`. -/
def currentUrl (url : Url) : String :=
  url.origin ++ url.pathname ++ (if url.link.truthy then "?link=" ++ url.link.toStr else "")

/-- The `bookingData` literal of `processPayPalPayment`. -/
def pendingBookingData (c : State) (url : Url) (userId : JsVal) : JsObj :=
  [("user_id", userId),
   ("package_id", c.selectedPackageId),
   ("guest_name", JsVal.str c.guest.name),
   ("guest_email", JsVal.str c.guest.email),
   ("guest_phone", JsVal.str c.guest.phone),
   ("guest_comment", (JsVal.str c.guest.comment).or JsVal.null),
   ("date", JsVal.str c.date),
   ("time_slot", JsVal.str c.selectedSlot),
   ("meeting_link", JsVal.str (meetingLink c)),
   ("link_slug", url.link.or JsVal.null)]

/-- The `try` block of `processPayPalPayment`. -/
def processPayPalPaymentTry (c : State) (url : Url) (env : Env) (userId : JsVal) (amount : Int)
    (r : Run) : Run :=
  let r := r.emit (Effect.apiCreatePayPalOrder
    [("package_id", c.selectedPackageId), ("user_id", userId), ("amount", JsVal.num amount),
     ("return_url", JsVal.str (currentUrl url)), ("cancel_url", JsVal.str (currentUrl url)),
     ("link_slug", url.link.or JsVal.null)])
  match env.createPayPalOrder with
  | Outcome.rejected msg => r.raise msg
  | Outcome.resolved OrderBody.nullBody => r.raise env.typeErrorMessage
  | Outcome.resolved (OrderBody.obj approvalUrl orderId) =>
    if approvalUrl.truthy then
      let r := r.store "pending_booking_data" (env.json.stringify (pendingBookingData c url userId))
      let r := r.store "pending_paypal_order_id" orderId.toStr
      let r := r.store "pending_paypal_user_id" userId.toStr
      r.emit (Effect.navigate approvalUrl.toStr)
    else r.raise "Failed to get PayPal approval URL."

/-- The function `processPayPalPayment(userId, amount)`. -/
def processPayPalPayment (c : State) (url : Url) (env : Env) (userId : JsVal) (amount : Int)
    (r : Run) : Run :=
  let r := processPayPalPaymentTry c url env userId amount r
  let r :=
    match r.thrown with
    | some msg => r.set (fun s => { s with error := orElse msg "PayPal payment failed. Please try again." })
    | none => r
  r.set (fun s => { s with loading := false })

/-- The function `processPayment(userId)`: its `catch` swallows the exception. -/
def processPayment (c : State) (url : Url) (env : Env) (userId : JsVal) (r : Run) : Run :=
  match selectedPackage c with
  | none => r.set (fun s => { s with error := "Please select a package to continue." })
  | some pkg =>
    let amount := pkg.price
    if amount ≤ 0 then r.set (fun s => { s with error := "Invalid package price." })
    else
      let r := r.set (fun s => { s with loading := true })
      let r := r.set (fun s => { s with error := "" })
      let r :=
        match c.paymentMethod with
        | PaymentMethod.stripe => processStripePayment c url env userId amount r
        | PaymentMethod.paypal => processPayPalPayment c url env userId amount r
      match r.thrown with
      | some msg =>
        let r := r.set (fun s =>
          { s with error := orElse msg "Payment processing failed. Please try again." })
        let r := r.emit (Effect.consoleError "Error processing payment:")
        let r := r.set (fun s => { s with loading := false })
        { r with thrown := none }
      | none => r

/-! ## Submit -/

/-- The handler `handleConfirm`, run on the render state `c`. -/
def handleConfirm (c : State) (url : Url) (env : Env) (st : Storage) : Run :=
  let r := Run.start c st
  if !c.selectedPackageId.truthy then
    r.set (fun s => { s with error := "Please select a package to continue." })
  else if !isGuestValid c || c.selectedSlot == "" then
    r.set (fun s => { s with error := "Please fill in all required fields." })
  else
    let userId := bookingUserId c url
    if !userId.truthy then
      r.set (fun s => { s with error := "Invalid booking link. Missing user ID." })
    else if isLinkFull c then
      r.set (fun s => { s with error := "This booking link has reached its booking limit." })
    else
      match c.step with
      | Step.select =>
        if needsPayment c then r.set (fun s => { s with step := Step.payment })
        else createBooking c url env userId "pending" JsVal.null r
      | Step.payment => processPayment c url env userId r
      | Step.confirm => r

/-! ## Return from PayPal -/

/-- The replacement `s.replace(/[?&]key=[^&]*/g, '')` on the characters of `s`, for a `key`
without `&`: `skipping` says that a match is being consumed. -/
def stripParam (key : List Char) : Bool → List Char → List Char
  | _, [] => []
  | skipping, c :: cs =>
    if (c == '?' || c == '&') && (key ++ ['=']).isPrefixOf cs then stripParam key true cs
    else if skipping && c != '&' then stripParam key true cs
    else c :: stripParam key false cs

/-- The address written by `handlePayPalReturn`:
`pathname + search.replace(/[?&]token=[^&]*/g, '').replace(/[?&]PayerID=[^&]*/g, '')`. -/
def strippedUrl (url : Url) : String :=
  url.pathname ++
    String.mk (stripParam "PayerID".data false (stripParam "token".data false url.search.data))

/-- The three `sessionStorage.removeItem` calls of `handlePayPalReturn`. -/
def clearPending (r : Run) : Run :=
  let r := r.unstore "pending_booking_data"
  let r := r.unstore "pending_paypal_order_id"
  r.unstore "pending_paypal_user_id"

/-- The `try` block of `handlePayPalReturn`. -/
def handlePayPalReturnTry (url : Url) (env : Env) (paypalOrderId : JsVal) (pending : String)
    (r : Run) : Run :=
  let r := r.set (fun s => { s with loading := true })
  let r := r.set (fun s => { s with error := "" })
  match env.json.parse pending with
  | none => r.raise env.syntaxErrorMessage
  | some parsed =>
    let r := r.emit (Effect.apiCapturePayPalPayment
      (objSpread [("order_id", paypalOrderId)] (parsed.getD [])))
    match env.capturePayPalPayment with
    | Outcome.rejected msg => r.raise msg
    | Outcome.resolved response =>
      let r := clearPending r
      match parsed with
      | none => r.raise env.typeErrorMessage
      | some data =>
        let r := r.set (fun s => { s with selectedPackageId := objGet data "package_id" })
        let r := r.set (fun s => { s with guest :=
          { name := (objGet data "guest_name").asText,
            email := (objGet data "guest_email").asText,
            phone := (objGet data "guest_phone").asText,
            comment := ((objGet data "guest_comment").or (JsVal.str "")).asText } })
        let r := r.set (fun s => { s with date := (objGet data "date").asText })
        let r := r.set (fun s => { s with selectedSlot := (objGet data "time_slot").asText })
        match response with
        | Body.nullBody => r.raise env.typeErrorMessage
        | Body.obj bookingId =>
          let r := r.set (fun s => { s with currentBookingId := bookingId })
          let r := r.set (fun s => { s with step := Step.confirm })
          r.emit (Effect.replaceState (strippedUrl url))

/-- The effect `handlePayPalReturn`, run on mount and whenever `searchParams` changes. -/
def handlePayPalReturn (c : State) (url : Url) (env : Env) (st : Storage) : Run :=
  let r := Run.start c st
  let paypalOrderId := url.token.or (itemVal (getItem st "pending_paypal_order_id"))
  let pendingBookingData := getItem st "pending_booking_data"
  if paypalOrderId.truthy && (itemVal pendingBookingData).truthy then
    let r := handlePayPalReturnTry url env paypalOrderId (pendingBookingData.getD "") r
    let r :=
      match r.thrown with
      | some msg =>
        let r := r.set (fun s =>
          { s with error := orElse msg "Failed to complete PayPal payment. Please try again." })
        let r := r.emit (Effect.consoleError "Error completing PayPal payment:")
        let r := clearPending r
        { r with thrown := none }
      | none => r
    r.set (fun s => { s with loading := false })
  else r

/-! ## Availability and the slot grid -/

/-- The response body of `api.getAvailability`: `booked_slots` is `none` when it is absent or
falsy. -/
inductive AvailabilityBody where
  | nullBody
  | obj (booked_slots : Option (List String))
  deriving DecidableEq

/-- The effect that fetches availability, with the answer of `api.getAvailability`. -/
def fetchAvailability (c : State) (url : Url) (answer : Outcome AvailabilityBody) : State :=
  if (bookingUserId c url).truthy && c.date != "" then
    let s := { c with loadingAvailability := true }
    let s :=
      match answer with
      | Outcome.resolved (AvailabilityBody.obj slots) => { s with bookedSlots := slots.getD [] }
      | Outcome.resolved AvailabilityBody.nullBody => { s with bookedSlots := [] }
      | Outcome.rejected _ => { s with bookedSlots := [] }
    { s with loadingAvailability := false }
  else { c with bookedSlots := [] }

/-- A button of the slot grid. -/
structure SlotButton where
  label : String
  selected : Bool
  booked : Bool
  disabled : Bool
  deriving DecidableEq

/-- The children of `<div className="slots-grid">`. -/
def slotsGrid (c : State) : List SlotButton :=
  defaultSlots.map (fun t =>
    let isBooked := c.bookedSlots.contains t
    { label := t, selected := c.selectedSlot == t, booked := isBooked, disabled := isBooked })

/-- The `onClick` of the button of slot `t`: `!isBooked && setSelectedSlot(t)`. -/
def clickSlot (c : State) (t : String) : State :=
  if !c.bookedSlots.contains t then { c with selectedSlot := t } else c

/-! ## The owner's booking form (`Booking.jsx`) -/

namespace Booking

/-- The slots offered by `Booking`. -/
def defaultSlots : List String :=
  ["09:00", "09:30", "10:00", "10:30", "11:00",
   "11:30", "12:00", "14:00", "14:30", "15:00",
   "15:30", "16:00"]

/-- The state `Booking` uses for availability and slot selection; `userId` is `user?.id`. -/
structure State where
  userId : JsVal
  date : String
  selectedSlot : String
  bookedSlots : List String
  loadingAvailability : Bool
  deriving DecidableEq

/-- The effect that fetches availability, with the answer of `api.getAvailability`. -/
def fetchAvailability (c : State) (answer : Outcome AvailabilityBody) : State :=
  if c.userId.truthy && c.date != "" then
    let s := { c with loadingAvailability := true }
    let s :=
      match answer with
      | Outcome.resolved (AvailabilityBody.obj slots) => { s with bookedSlots := slots.getD [] }
      | Outcome.resolved AvailabilityBody.nullBody => { s with bookedSlots := [] }
      | Outcome.rejected _ => { s with bookedSlots := [] }
    { s with loadingAvailability := false }
  else { c with bookedSlots := [] }

/-- The children of `<div className="slots-grid">`. -/
def slotsGrid (c : State) : List SlotButton :=
  defaultSlots.map (fun t =>
    let isBooked := c.bookedSlots.contains t
    { label := t, selected := c.selectedSlot == t, booked := isBooked, disabled := isBooked })

/-- The `onClick` of the button of slot `t`. -/
def clickSlot (c : State) (t : String) : State :=
  if !c.bookedSlots.contains t then { c with selectedSlot := t } else c

end Booking

/-! ## Mount effects, inputs and events of `PublicBooking` -/

/-- The state of the first render; `today` is `new Date().toISOString().slice(0, 10)`. -/
def initialState (today meetToken : String) : State :=
  { date := today, selectedSlot := "",
    guest := { name := "", email := "", phone := "", comment := "" },
    step := Step.select, paymentMethod := PaymentMethod.stripe, requirePayment := false,
    payNow := false, currentBookingId := JsVal.null, stripeKey := "", paypalKey := "",
    packages := [], selectedPackageId := JsVal.str "", isPackagePreSelected := false,
    loading := false, error := "", bookedSlots := [], loadingAvailability := false,
    linkInfo := none, meetToken := meetToken, ownerName := "us", isSharedLink := true,
    stripeLoaded := false, paypalLoaded := false }

/-- The effect that reads the `payment`, `packageId` and `pkgs` parameters. -/
def urlParamsEffect (c : State) (url : Url) : State :=
  let s :=
    if url.payment = JsVal.str "optional" then { c with requirePayment := false }
    else if url.payment = JsVal.str "required" then { c with requirePayment := true }
    else c
  if !url.link.truthy then
    match url.pkgs with
    | some normalized =>
      if normalized.length > 0 then
        let s := { s with packages := normalized }
        if url.packageId.truthy then
          match normalized.find? (fun p => p.id.toStr == url.packageId.toStr) with
          | some _ => { s with selectedPackageId := url.packageId, isPackagePreSelected := true }
          | none => s
        else s
      else s
    | none => s
  else s

/-- The response body of `api.getPublicLink`: what becomes `linkInfo`, and the properties
`branding?.display_name`, `link?.name`, `stripe` and `paypal`. -/
structure LinkBody where
  info : LinkInfo
  displayName : JsVal
  linkName : JsVal
  stripe : JsVal
  paypal : JsVal
  deriving DecidableEq

/-- The effect `fetchLink`, with the answer of `api.getPublicLink` (`resolved none` is a `null`
body) and the message of the engine's `TypeError`. -/
def fetchLink (c : State) (url : Url) (typeErrorMessage : String)
    (answer : Outcome (Option LinkBody)) : State :=
  if !url.link.truthy then c
  else
    match answer with
    | Outcome.resolved (some response) =>
      let s := { c with linkInfo := some response.info }
      let s := { s with ownerName :=
        ((response.displayName.or response.linkName).or (JsVal.str "the account owner")).asText }
      let s := { s with stripeKey := (response.stripe.or (JsVal.str "")).asText }
      let s := { s with paypalKey := (response.paypal.or (JsVal.str "")).asText }
      match response.info.package with
      | some pkg =>
        { s with packages := [pkg], selectedPackageId := pkg.id, isPackagePreSelected := true }
      | none => { s with isPackagePreSelected := false }
    | Outcome.resolved none =>
      { c with linkInfo := none,
               error := orElse typeErrorMessage "Invalid or expired booking link." }
    | Outcome.rejected msg => { c with error := orElse msg "Invalid or expired booking link." }

/-- Truthiness of `linkInfo?.package`. -/
def linkHasPackage (c : State) : Bool :=
  match c.linkInfo with
  | some li => li.package.isSome
  | none => false

/-- The effect `fetchPackages`, with the answer of `api.getUserPackages`: `resolved (some l)`
when `response.packages` is the list `l`, `resolved none` when the property is missing. -/
def fetchPackages (c : State) (url : Url) (answer : Outcome (Option (List Package))) : State :=
  if !(bookingUserId c url).truthy || linkHasPackage c then c
  else
    match answer with
    | Outcome.resolved (some packages) =>
      if packages.length > 0 then
        let s := { c with packages := packages }
        if url.packageId.truthy then
          match packages.find? (fun p => p.id.toStr == url.packageId.toStr) with
          | some _ => { s with selectedPackageId := url.packageId, isPackagePreSelected := true }
          | none => s
        else s
      else c
    | Outcome.resolved none => c
    | Outcome.rejected _ => c

/-- The effect `loadStripe`, run when `step` or `paymentMethod` changes; `scriptLoads` says
whether `window.Stripe` is there or its script loads. -/
def loadStripe (c : State) (scriptLoads : Bool) : State :=
  if c.step = Step.payment ∧ c.paymentMethod = PaymentMethod.stripe then
    if !scriptLoads then
      { c with error := "Failed to load payment processor. Please refresh the page." }
    else if c.stripeKey == "" then
      { c with error := "Stripe is not configured. Please contact the booking owner." }
    else { c with stripeLoaded := true }
  else c

/-- The effect `loadPayPal`. -/
def loadPayPal (c : State) (scriptLoads : Bool) : State :=
  if c.step = Step.payment ∧ c.paymentMethod = PaymentMethod.paypal then
    if !scriptLoads then
      { c with error := "Failed to load payment processor. Please refresh the page." }
    else { c with paypalLoaded := true }
  else c

/-- The function `resetBooking` ("Book Another"). -/
def resetBooking (c : State) : State :=
  let s := { c with selectedSlot := "" }
  let s := { s with guest := { name := "", email := "", phone := "", comment := "" } }
  let s := { s with paymentMethod := PaymentMethod.stripe }
  let s := { s with step := Step.select }
  let s := { s with payNow := false }
  let s := { s with error := "" }
  if !c.isPackagePreSelected then { s with selectedPackageId := JsVal.str "" } else s

/-- What happens to the mounted component: an input of the guest, or the completion of one of
the component's own fetches and loaders.  The events are not restricted to the controls that
the current step renders. -/
inductive Event where
  | changeDate (value : String)
  | pickSlot (t : String)
  | selectPackage (value : String)
  | editName (value : String)
  | editEmail (value : String)
  | editPhone (value : String)
  | editComment (value : String)
  | togglePayNow (checked : Bool)
  | choosePaymentMethod (m : PaymentMethod)
  | back
  | submit (env : Env)
  | bookAnother
  | packagesFetched (answer : Outcome (Option (List Package)))
  | availabilityFetched (answer : Outcome AvailabilityBody)
  | stripeLoader (scriptLoads : Bool)
  | paypalLoader (scriptLoads : Bool)

/-- The component between two events: its state, the session storage and all effects so far. -/
structure Session where
  state : State
  storage : Storage
  trace : List Effect

/-- One event. -/
def applyEvent (url : Url) (x : Session) : Event → Session
  | Event.changeDate value =>
    { x with state := { x.state with date := value, selectedSlot := "" } }
  | Event.pickSlot t => { x with state := clickSlot x.state t }
  | Event.selectPackage value =>
    { x with state := { x.state with selectedPackageId := JsVal.str value } }
  | Event.editName value =>
    { x with state := { x.state with guest := { x.state.guest with name := value } } }
  | Event.editEmail value =>
    { x with state := { x.state with guest := { x.state.guest with email := value } } }
  | Event.editPhone value =>
    { x with state := { x.state with guest := { x.state.guest with phone := value } } }
  | Event.editComment value =>
    { x with state := { x.state with guest := { x.state.guest with comment := value } } }
  | Event.togglePayNow checked => { x with state := { x.state with payNow := checked } }
  | Event.choosePaymentMethod m => { x with state := { x.state with paymentMethod := m } }
  | Event.back => { x with state := { x.state with step := Step.select } }
  | Event.submit env =>
    { state := (handleConfirm x.state url env x.storage).state,
      storage := (handleConfirm x.state url env x.storage).storage,
      trace := x.trace ++ (handleConfirm x.state url env x.storage).trace }
  | Event.bookAnother => { x with state := resetBooking x.state }
  | Event.packagesFetched answer => { x with state := fetchPackages x.state url answer }
  | Event.availabilityFetched answer => { x with state := fetchAvailability x.state url answer }
  | Event.stripeLoader scriptLoads => { x with state := loadStripe x.state scriptLoads }
  | Event.paypalLoader scriptLoads => { x with state := loadPayPal x.state scriptLoads }

/-- A sequence of events. -/
def runEvents (url : Url) (x : Session) (events : List Event) : Session :=
  events.foldl (applyEvent url) x

/-- The event is the guest picking a payment method. -/
def Event.isMethodChoice : Event → Bool
  | Event.choosePaymentMethod _ => true
  | _ => false

/-! ## The request of `api.createBooking` (`utils/api.js`) -/

/-- The browser's `localStorage`: its items, whether every access to it throws (storage
disabled), and whether `setItem` throws (quota exceeded). -/
structure LocalStorage where
  items : Storage
  throws : Bool
  quotaExceeded : Bool := false
  deriving DecidableEq

/-- The function `getToken` of `utils/auth/token.js`. -/
def getToken (ls : LocalStorage) : Option String :=
  if ls.throws then none else getItem ls.items "auth_token"

/-- The `options` argument of `apiRequest`. -/
structure RequestOptions where
  method : Option String
  body : Option String
  headers : List (String × String)
  deriving DecidableEq

/-- The arguments of the `fetch` call of `apiRequest`. -/
structure Request where
  url : String
  method : Option String
  body : Option String
  headers : List (String × String)
  deriving DecidableEq

/-- The constant `API_BASE_URL`. -/
def API_BASE_URL : String := "https://getdontforget.net/api"

/-- Header write `headers[k] = v`: overwrite in place, or append. -/
def headerSet : List (String × String) → String → String → List (String × String)
  | [], k, v => [(k, v)]
  | (k', v') :: rest, k, v =>
    if k' == k then (k', v) :: rest else (k', v') :: headerSet rest k v

/-- Header read: `none` when the header is absent. -/
def headerGet (headers : List (String × String)) (k : String) : Option String :=
  (headers.find? (fun kv => kv.1 == k)).map (fun kv => kv.2)

/-- The request `apiRequest(endpoint, options)` sends. -/
def apiRequest (ls : LocalStorage) (endpoint : String) (options : RequestOptions) : Request :=
  let token := getToken ls
  let headers := options.headers.foldl (fun acc kv => headerSet acc kv.1 kv.2)
    [("Content-Type", "application/json"), ("Accept", "application/json")]
  let headers :=
    match token with
    | some t => if t != "" then headerSet headers "Authorization" ("Bearer " ++ t) else headers
    | none => headers
  { url := API_BASE_URL ++ endpoint, method := options.method, body := options.body,
    headers := headers }

/-- The request `api.createBooking(bookingData)` sends. -/
def api.createBooking (ls : LocalStorage) (json : Json) (bookingData : JsObj) : Request :=
  apiRequest ls "/bookings"
    { method := some "POST", body := some (json.stringify bookingData), headers := [] }

/-! ## Regular expressions (`utils/auth/validation.js`) -/

/-- The regular expressions the validators use: character classes, sequence, alternative and
repetition; `never` and `eps` arise in derivatives. -/
inductive Rx where
  | never
  | eps
  | cls (p : Char → Bool)
  | seq (a b : Rx)
  | alt (a b : Rx)
  | star (a : Rx)

namespace Rx

/-- The expression `a+`. -/
def plus (a : Rx) : Rx := seq a (star a)

/-- The literal character `c`. -/
def chr (c : Char) : Rx := cls (fun x => x == c)

/-- Any character. -/
def any : Rx := cls (fun _ => true)

/-- The expression matches the empty string. -/
def nullable : Rx → Bool
  | never => false
  | eps => true
  | cls _ => false
  | seq a b => a.nullable && b.nullable
  | alt a b => a.nullable || b.nullable
  | star _ => true

/-- The derivative: what remains to be matched after the character `c`. -/
def deriv (c : Char) : Rx → Rx
  | never => never
  | eps => never
  | cls p => if p c then eps else never
  | seq a b => if a.nullable then alt (seq (a.deriv c) b) (b.deriv c) else seq (a.deriv c) b
  | alt a b => alt (a.deriv c) (b.deriv c)
  | star a => seq (a.deriv c) (star a)

/-- The test `/^r$/.test(s)` on the characters of `s`. -/
def matchesAll (r : Rx) : List Char → Bool
  | [] => r.nullable
  | c :: cs => (r.deriv c).matchesAll cs

/-- The test `/r/.test(s)`: some part of `s` matches `r`. -/
def test (r : Rx) (s : String) : Bool :=
  (seq (star any) (seq r (star any))).matchesAll s.data

/-- The strings an expression matches as a whole. -/
inductive Matches : Rx → List Char → Prop
  | eps : Matches Rx.eps []
  | cls (p : Char → Bool) (c : Char) (h : p c = true) : Matches (Rx.cls p) [c]
  | seq {a b : Rx} {u v : List Char} (ha : Matches a u) (hb : Matches b v) :
      Matches (Rx.seq a b) (u ++ v)
  | altLeft {a : Rx} (b : Rx) {u : List Char} (ha : Matches a u) : Matches (Rx.alt a b) u
  | altRight (a : Rx) {b : Rx} {u : List Char} (hb : Matches b u) : Matches (Rx.alt a b) u
  | starNil (a : Rx) : Matches (Rx.star a) []
  | starCons {a : Rx} {u v : List Char} (ha : Matches a u) (hs : Matches (Rx.star a) v) :
      Matches (Rx.star a) (u ++ v)

end Rx

/-- The class `\d`. -/
def isDigit (c : Char) : Bool := '0' ≤ c && c ≤ '9'

/-- The class `[A-Z]`. -/
def isUpper (c : Char) : Bool := 'A' ≤ c && c ≤ 'Z'

/-- The class `[a-z]`. -/
def isLower (c : Char) : Bool := 'a' ≤ c && c ≤ 'z'

/-- The class `[!@#$%^&*(),.?":{}|<>]`. -/
def isSpecial (c : Char) : Bool := "!@#$%^&*(),.?\":\x7b\x7d|<>".data.contains c

/-- The class `[^\s@]`. -/
def isEmailChar (c : Char) : Bool := !(isJsWhitespace c || c == '@')

/-- The class `[\d\s\-+()]`. -/
def isPhoneChar (c : Char) : Bool :=
  isDigit c || isJsWhitespace c || c == '-' || c == '+' || c == '(' || c == ')'

/-- The property `s.length`: the number of UTF-16 code units. -/
def jsLength (s : String) : Nat :=
  (s.data.map (fun c => if c.toNat < 0x10000 then 1 else 2)).sum

/-- The expression `/^[^\s@]+@[^\s@]+\.[^\s@]+$/`, without its anchors. -/
def emailRegex : Rx :=
  Rx.seq (Rx.plus (Rx.cls isEmailChar))
    (Rx.seq (Rx.chr '@')
      (Rx.seq (Rx.plus (Rx.cls isEmailChar))
        (Rx.seq (Rx.chr '.') (Rx.plus (Rx.cls isEmailChar)))))

/-- The function `isValidEmail`. -/
def isValidEmail (email : JsVal) : Bool :=
  match email with
  | JsVal.str s => if s == "" then false else emailRegex.matchesAll s.data
  | _ => false

/-- The `options` of `validatePassword`, with their defaults. -/
structure PasswordOptions where
  minLength : Int := 8
  requireUppercase : Bool := false
  requireLowercase : Bool := false
  requireNumber : Bool := false
  requireSpecialChar : Bool := false
  deriving DecidableEq

/-- The result of `validatePassword`. -/
structure PasswordResult where
  isValid : Bool
  errors : List String
  deriving DecidableEq

/-- The function `validatePassword`. -/
def validatePassword (password : JsVal) (options : PasswordOptions) : PasswordResult :=
  match password with
  | JsVal.str s =>
    if s == "" then { isValid := false, errors := ["Password is required"] }
    else
      let errors : List String := []
      let errors :=
        if (jsLength s : Int) < options.minLength then
          errors ++ ["Password must be at least " ++ toString options.minLength ++
            " characters long"]
        else errors
      let errors :=
        if options.requireUppercase && !(Rx.cls isUpper).test s then
          errors ++ ["Password must contain at least one uppercase letter"]
        else errors
      let errors :=
        if options.requireLowercase && !(Rx.cls isLower).test s then
          errors ++ ["Password must contain at least one lowercase letter"]
        else errors
      let errors :=
        if options.requireNumber && !(Rx.cls isDigit).test s then
          errors ++ ["Password must contain at least one number"]
        else errors
      let errors :=
        if options.requireSpecialChar && !(Rx.cls isSpecial).test s then
          errors ++ ["Password must contain at least one special character"]
        else errors
      { isValid := errors.length == 0, errors := errors }
  | _ => { isValid := false, errors := ["Password is required"] }

/-- The expression `/^[\d\s\-+()]+$/`, without its anchors. -/
def phoneRegex : Rx := Rx.plus (Rx.cls isPhoneChar)

/-- The replacement `s.replace(/\D/g, '')`. -/
def removeNonDigits (s : String) : String := String.mk (s.data.filter isDigit)

/-- The function `isValidPhoneNumber`. -/
def isValidPhoneNumber (phoneNumber : JsVal) : Bool :=
  match phoneNumber with
  | JsVal.str s =>
    if s == "" then false
    else phoneRegex.matchesAll s.data && decide (10 ≤ jsLength (removeNonDigits s))
  | _ => false

/-- The `formData` of `validateRegistration`. -/
structure RegistrationForm where
  full_name : JsVal
  email : JsVal
  password : JsVal
  password_confirmation : JsVal
  role_title : JsVal
  phone_number : JsVal
  timezone : JsVal
  deriving DecidableEq

/-- The result of `validateRegistration`: `errors` lists the keys of the object in insertion
order. -/
structure RegistrationResult where
  isValid : Bool
  errors : List (String × String)
  deriving DecidableEq

/-- The test `!v || v.trim().length < 2`; `none` when `v` is truthy and not a string, so that
`v.trim` throws a `TypeError`. -/
def tooShort (v : JsVal) : Option Bool :=
  if !v.truthy then some true
  else
    match v with
    | JsVal.str s => some (decide (jsLength (jsTrim s) < 2))
    | _ => none

/-- The function `validateRegistration`; `none` when it throws.  Each `if` block of the source
adds at most one key to `errors`: the keys are listed block by block, in the order of the
source. -/
def validateRegistration (formData : RegistrationForm) : Option RegistrationResult := do
  let nameTooShort ← tooShort formData.full_name
  let fullName : List (String × String) :=
    if nameTooShort then [("full_name", "Full name must be at least 2 characters")] else []
  let email : List (String × String) :=
    if !formData.email.truthy then [("email", "Email is required")]
    else if !isValidEmail formData.email then [("email", "Please enter a valid email address")]
    else []
  let passwordValidation := validatePassword formData.password { minLength := 8 }
  let password : List (String × String) :=
    if !passwordValidation.isValid then
      [("password", passwordValidation.errors.headD "undefined")]
    else []
  let confirmation : List (String × String) :=
    if formData.password ≠ formData.password_confirmation then
      [("password_confirmation", "Passwords do not match")]
    else []
  let roleTooShort ← tooShort formData.role_title
  let roleTitle : List (String × String) :=
    if roleTooShort then [("role_title", "Role/Title is required")] else []
  let phone : List (String × String) :=
    if !formData.phone_number.truthy then [("phone_number", "Phone number is required")]
    else if !isValidPhoneNumber formData.phone_number then
      [("phone_number", "Please enter a valid phone number")]
    else []
  let timezone : List (String × String) :=
    if !formData.timezone.truthy then [("timezone", "Timezone is required")] else []
  let errors := fullName ++ email ++ password ++ confirmation ++ roleTitle ++ phone ++ timezone
  pure { isValid := errors.length == 0, errors := errors }

/-- The error list of `validatePassword` in the words of its description: one message per
enabled requirement that the password violates, in the order length, uppercase, lowercase,
number, special character. -/
def passwordErrorsSpec (s : String) (options : PasswordOptions) : List String :=
  (if (jsLength s : Int) < options.minLength then
    ["Password must be at least " ++ toString options.minLength ++ " characters long"]
   else []) ++
  (if options.requireUppercase && !s.data.any isUpper then
    ["Password must contain at least one uppercase letter"] else []) ++
  (if options.requireLowercase && !s.data.any isLower then
    ["Password must contain at least one lowercase letter"] else []) ++
  (if options.requireNumber && !s.data.any isDigit then
    ["Password must contain at least one number"] else []) ++
  (if options.requireSpecialChar && !s.data.any isSpecial then
    ["Password must contain at least one special character"] else [])

/-- The value is a string whose trimmed `length` is at least 2. -/
def hasTwoChars (v : JsVal) : Bool :=
  match v with
  | JsVal.str s => decide (2 ≤ jsLength (jsTrim s))
  | _ => false

/-- The value is a string whose `length` is at least 8. -/
def isLongPassword (v : JsVal) : Bool :=
  match v with
  | JsVal.str s => decide (8 ≤ jsLength s)
  | _ => false

/-- The value is a string, or it is falsy. -/
def isTextOrFalsy (v : JsVal) : Bool :=
  match v with
  | JsVal.str _ => true
  | _ => !v.truthy

/-- The fields of a registration form that violate their requirement, in the words of the
description of `validateRegistration`. -/
def violatedFields (formData : RegistrationForm) : List String :=
  (if hasTwoChars formData.full_name then [] else ["full_name"]) ++
  (if isValidEmail formData.email then [] else ["email"]) ++
  (if isLongPassword formData.password then [] else ["password"]) ++
  (if formData.password = formData.password_confirmation then []
   else ["password_confirmation"]) ++
  (if hasTwoChars formData.role_title then [] else ["role_title"]) ++
  (if isValidPhoneNumber formData.phone_number then [] else ["phone_number"]) ++
  (if formData.timezone.truthy then [] else ["timezone"])

/-- A registration form that passes. -/
def goodForm : RegistrationForm :=
  { full_name := JsVal.str "Jane Doe", email := JsVal.str "jane@x.com",
    password := JsVal.str "correct horse", password_confirmation := JsVal.str "correct horse",
    role_title := JsVal.str "Owner", phone_number := JsVal.str "+1 (555) 123-4567",
    timezone := JsVal.str "Europe/Paris" }

/-- A registration form with a short password, a different confirmation and no time zone. -/
def badForm : RegistrationForm :=
  { goodForm with password := JsVal.str "horse", password_confirmation := JsVal.str "hors",
                  timezone := JsVal.str "" }

/-! ## The token store (`utils/auth/token.js`) -/

/-- The function `setToken`: its return value and the storage afterwards.  `setItem` stores the
`String` image of the token; a `setItem` that throws stores nothing. -/
def setToken (ls : LocalStorage) (token : JsVal) : Bool × LocalStorage :=
  if !token.truthy then (false, ls)
  else if ls.throws || ls.quotaExceeded then (false, ls)
  else (true, { ls with items := setItem ls.items "auth_token" token.toStr })

/-- The function `removeToken`: its return value and the storage afterwards. -/
def removeToken (ls : LocalStorage) : Bool × LocalStorage :=
  if ls.throws then (false, ls)
  else (true, { ls with items := removeItem ls.items "auth_token" })

/-- The function `hasToken`: `!!getToken()`. -/
def hasToken (ls : LocalStorage) : Bool :=
  (itemVal (getToken ls)).truthy

/-- The function `clearAuthData`. -/
def clearAuthData (ls : LocalStorage) : Bool × LocalStorage := removeToken ls

/-! ## The answer of `apiRequest` (`utils/api.js`) -/

/-- What `apiRequest` reads of the response of `fetch`: the status, the `content-type` header
(`none` when absent) and the result of `response.json()` (a parsed body, `none` for `null`). -/
structure Response where
  status : Nat
  contentType : Option String
  json : Outcome (Option JsObj)
  deriving DecidableEq

/-- The property `response.ok`: the status is in the range 200 to 299. -/
def Response.ok (response : Response) : Bool :=
  200 ≤ response.status && response.status ≤ 299

/-- The method `s.includes(part)`. -/
def includes (s part : String) : Bool := decide (part.data <:+: s.data)

/-- The test `!contentType || !contentType.includes('application/json')`. -/
def Response.notJson (response : Response) : Bool :=
  match response.contentType with
  | none => true
  | some t => t == "" || !includes t "application/json"

/-- What `apiRequest` resolves with: the response itself, or the parsed body. -/
inductive ApiValue where
  | response (r : Response)
  | data (d : Option JsObj)
  deriving DecidableEq

/-- A run of `apiRequest` after its `fetch`: how its promise settles, the local storage
afterwards, and the address assigned to `window.location.href`, if any. -/
structure ApiRun where
  result : Outcome ApiValue
  storage : LocalStorage
  location : Option String
  deriving DecidableEq

/-- The function `apiRequest` from the answer of its `fetch` on: the `try` block, whose errors
the `catch` logs and throws again.  `typeErrorMessage` is the message of the engine for a
property read on `null`. -/
def apiRequestResult (ls : LocalStorage) (typeErrorMessage : String)
    (answer : Outcome Response) : ApiRun :=
  match answer with
  | Outcome.rejected m => { result := Outcome.rejected m, storage := ls, location := none }
  | Outcome.resolved response =>
    if response.notJson then
      if !response.ok then
        { result := Outcome.rejected ("HTTP error! status: " ++ toString response.status),
          storage := ls, location := none }
      else
        { result := Outcome.resolved (ApiValue.response response), storage := ls,
          location := none }
    else
      match response.json with
      | Outcome.rejected m => { result := Outcome.rejected m, storage := ls, location := none }
      | Outcome.resolved data =>
        if response.status == 401 then
          { result := Outcome.rejected "Unauthorized", storage := (removeToken ls).2,
            location := some "/login" }
        else if !response.ok then
          match data with
          | none =>
            { result := Outcome.rejected typeErrorMessage, storage := ls, location := none }
          | some d =>
            { result := Outcome.rejected
                ((objGet d "message").or (JsVal.str "An error occurred")).toStr,
              storage := ls, location := none }
        else
          { result := Outcome.resolved (ApiValue.data data), storage := ls, location := none }

/-! ## Error messages (`formatAuthError` of `utils/auth/helpers.js`) -/

/-- A value of which `formatAuthError` looks at no more than the type: a primitive, or an object
(an array or a function included). -/
inductive JsAny where
  | prim (v : JsVal)
  | object
  deriving DecidableEq

/-- Truthiness of a value: every object is truthy. -/
def JsAny.truthy : JsAny → Bool
  | JsAny.prim v => v.truthy
  | JsAny.object => true

/-- One value of the `errors` object: an array with its elements, or any other value. -/
inductive ValidationEntry where
  | array (items : List JsAny)
  | other (v : JsAny)
  deriving DecidableEq

/-- The `errors` property of an error: a primitive, a function, or an object (an array included)
with its values in the order of `Object.values`. -/
inductive ErrorsField where
  | prim (v : JsVal)
  | func
  | object (values : List ValidationEntry)
  deriving DecidableEq

/-- What `formatAuthError` reads of an object: `message`, `error` and `errors`, each
`undefined` when absent. -/
structure ErrorObject where
  message : JsAny := JsAny.prim JsVal.undefined
  error : JsAny := JsAny.prim JsVal.undefined
  errors : ErrorsField := ErrorsField.prim JsVal.undefined
  deriving DecidableEq

/-- The argument of `formatAuthError`: a primitive or an object. -/
inductive AuthError where
  | prim (v : JsVal)
  | object (o : ErrorObject)
  deriving DecidableEq

/-- The function `formatAuthError`.  A property read on a truthy primitive that is not a string
gives `undefined`. -/
def formatAuthError (error : AuthError) : JsAny :=
  match error with
  | AuthError.prim v =>
    if !v.truthy then JsAny.prim (JsVal.str "An unexpected error occurred")
    else
      match v with
      | JsVal.str s => JsAny.prim (JsVal.str s)
      | _ => JsAny.prim (JsVal.str "An unexpected error occurred")
  | AuthError.object o =>
    if o.message.truthy then o.message
    else if o.error.truthy then
      match o.error with
      | JsAny.prim (JsVal.str s) => JsAny.prim (JsVal.str s)
      | _ => JsAny.prim (JsVal.str "An error occurred")
    else
      match o.errors with
      | ErrorsField.object values =>
        match values.head? with
        | none => JsAny.prim JsVal.undefined
        | some (ValidationEntry.array items) => items.head?.getD (JsAny.prim JsVal.undefined)
        | some (ValidationEntry.other v) => v
      | _ => JsAny.prim (JsVal.str "An unexpected error occurred")

/-- The value is a string. -/
def JsAny.isString : JsAny → Bool
  | JsAny.prim (JsVal.str _) => true
  | _ => false

/-! ## Initials (`getUserInitials` of `utils/auth/helpers.js`)

Strings are taken apart here by index, so they are lists of UTF-16 code units. -/

/-- The UTF-16 code units of a string. -/
def toUnits (s : String) : List Nat :=
  s.data.flatMap (fun c =>
    if c.toNat < 0x10000 then [c.toNat]
    else [0xD800 + (c.toNat - 0x10000) / 0x400, 0xDC00 + (c.toNat - 0x10000) % 0x400])

/-- White space and line terminators, as code units: the class `\s`, which is also what `trim`
removes. -/
def isSpaceUnit (n : Nat) : Bool :=
  n == 0x09 || n == 0x0A || n == 0x0B || n == 0x0C || n == 0x0D ||
  n == 0x20 || n == 0xA0 || n == 0x1680 ||
  (0x2000 ≤ n && n ≤ 0x200A) ||
  n == 0x2028 || n == 0x2029 || n == 0x202F || n == 0x205F ||
  n == 0x3000 || n == 0xFEFF

/-- The method `s.trim()` on code units. -/
def trimUnits (u : List Nat) : List Nat :=
  ((u.dropWhile isSpaceUnit).reverse.dropWhile isSpaceUnit).reverse

/-- The scan of `s.split(/\s+/)`: `cur` is the part being read, the flag says that the unit
before was white space (the separator is a longest run of white space). -/
def splitSpacesFrom : List Nat → Bool → List Nat → List (List Nat)
  | cur, _, [] => [cur]
  | cur, inRun, c :: cs =>
    if isSpaceUnit c then
      if inRun then splitSpacesFrom cur true cs else cur :: splitSpacesFrom [] true cs
    else splitSpacesFrom (cur ++ [c]) false cs

/-- The method `s.split(/\s+/)` on code units. -/
def splitSpaces (u : List Nat) : List (List Nat) := splitSpacesFrom [] false u

/-- The operand `part[0]` of `+`, as a string: the first code unit, or the `String` image of
`undefined`. -/
def firstUnitText (part : List Nat) : List Nat :=
  match part with
  | c :: _ => [c]
  | [] => toUnits "undefined"

/-- The `user` object: what `getUserInitials` reads of it. -/
structure User where
  full_name : JsVal := JsVal.undefined
  username : JsVal := JsVal.undefined
  email : JsVal := JsVal.undefined
  deriving DecidableEq

/-- The function `getUserInitials`; `toUpperCase` is the method of the engine, `user` is `none`
for a falsy argument.  The answer is `none` when a `TypeError` is thrown: `.trim` or
`.substring` on a value that is not a string, `.toUpperCase` on the `NaN` that the sum of two
`undefined` is. -/
def getUserInitials (toUpperCase : List Nat → List Nat) (user : Option User) :
    Option (List Nat) :=
  match user with
  | none => some (toUnits "?")
  | some user =>
    match ((user.full_name.or user.username).or user.email).or (JsVal.str "") with
    | JsVal.str name =>
      let parts := splitSpaces (trimUnits (toUnits name))
      if 2 ≤ parts.length then
        match parts.head?, parts.getLast? with
        | some [], some [] => none
        | some first, some last => some (toUpperCase (firstUnitText first ++ firstUnitText last))
        | _, _ => none
      else if parts.length == 1 && decide (2 ≤ (parts.headD []).length) then
        some (toUpperCase ((parts.headD []).take 2))
      else if user.email.truthy then
        match user.email with
        | JsVal.str email => some (toUpperCase ((toUnits email).take 2))
        | _ => none
      else some (toUnits "?")
    | _ => none

/-- The white-space separated words of a text: the longest runs of units that are not white
space. -/
def wordsOf (u : List Nat) : List (List Nat) :=
  (u.splitOnP isSpaceUnit).filter (fun w => !w.isEmpty)

/-- The name `getUserInitials` works with: `full_name`, else `username`, else `email`. -/
def User.name (user : User) : JsVal :=
  (user.full_name.or user.username).or user.email

/-! ## The dashboard (`components/Dashboard.jsx`) -/

/-- What the dashboard reads of a task.  `followUps` is the value after the default `[]` of
the destructuring: `some texts` for an array, with the `text` of each entry, and `none` for a
value that is not an array. -/
structure Task where
  status : JsVal := JsVal.undefined
  dateTime : JsVal := JsVal.undefined
  priority : JsVal := JsVal.undefined
  followUps : Option (List JsVal) := some []
  taskType : JsVal := JsVal.undefined
  name : JsVal := JsVal.undefined
  title : JsVal := JsVal.undefined
  description : JsVal := JsVal.undefined
  invitee : JsVal := JsVal.undefined
  tags : JsVal := JsVal.undefined
  platform : JsVal := JsVal.undefined
  keyPoints : JsVal := JsVal.undefined
  deriving DecidableEq

/-- The `Date` of the engine: `parse v` is the time value of `new Date(v)` in milliseconds,
`none` when it is `NaN`; `isoDay t` is `toISOString().slice(0, 10)` of the date with time value
`t`. -/
structure DateEngine where
  parse : JsVal → Option Int
  isoDay : Int → String

/-- The constant `isCompleted` of a task. -/
def Task.isCompleted (task : Task) : Bool := task.status == JsVal.str "completed"

/-- The date the date filters and the date statistics work with: the time value of `parsed`,
reached when `dateTime && !isCompleted` holds and the date is valid. -/
def Task.parsed (dates : DateEngine) (task : Task) : Option Int :=
  if task.dateTime.truthy && !task.isCompleted then dates.parse task.dateTime else none

/-- The test `taskType === 'Follow-up' || (Array.isArray(followUps) && followUps.length > 0)`. -/
def Task.hasFollowUp (task : Task) : Bool :=
  task.taskType == JsVal.str "Follow-up" ||
    (match task.followUps with
     | some texts => decide (0 < texts.length)
     | none => false)

/-- The test `priority === 'high' || priority === 'urgent'`. -/
def Task.isHighPriority (task : Task) : Bool :=
  task.priority == JsVal.str "high" || task.priority == JsVal.str "urgent"

/-- The variable `matchesFilter` of the callback of `filteredTasks`, after the chain of tests
on `filterPriority`. -/
def matchesFilter (dates : DateEngine) (now : Int) (filterPriority : String) (task : Task) :
    Bool :=
  if filterPriority == "due-today" then
    match task.parsed dates with
    | some t => dates.isoDay t == dates.isoDay now
    | none => false
  else if filterPriority == "follow-up" then task.hasFollowUp
  else if filterPriority == "late" then
    match task.parsed dates with
    | some t => decide (t < now)
    | none => false
  else if filterPriority == "upcoming" then
    match task.parsed dates with
    | some t => decide (t > now)
    | none => false
  else if filterPriority == "low-priority" then task.priority == JsVal.str "low"
  else if filterPriority == "medium-priority" then task.priority == JsVal.str "medium"
  else if filterPriority == "high-priority" then task.isHighPriority
  else true

/-- The text a search term is looked up in: the truthy ones of the fields and of the follow-up
texts, joined by a blank, in lower case. -/
def haystack (toLowerCase : String → String) (task : Task) : String :=
  let parts := [task.name, task.title, task.description, task.invitee, task.tags, task.taskType,
    task.platform, task.keyPoints]
  let parts :=
    match task.followUps with
    | some texts => parts ++ texts.map (fun (text : JsVal) => text.or (JsVal.str ""))
    | none => parts
  toLowerCase (" ".intercalate ((parts.filter JsVal.truthy).map JsVal.toStr))

/-- The memo `filteredTasks`: `toLowerCase` is the method of the engine, `now` the time value
of `new Date()`. -/
def filteredTasks (dates : DateEngine) (toLowerCase : String → String) (now : Int)
    (tasks : List Task) (searchTerm filterPriority : String) : List Task :=
  let term := toLowerCase (jsTrim searchTerm)
  tasks.filter (fun task =>
    if task.status == JsVal.str "archived" then false
    else if !matchesFilter dates now filterPriority task then false
    else if term == "" then true
    else includes (haystack toLowerCase task) term)

/-- The object `counts`. -/
structure Counts where
  total : Nat
  dueToday : Nat
  followUp : Nat
  late : Nat
  highPriority : Nat
  upcoming : Nat
  deriving DecidableEq

/-- The body of the `forEach` of `counts`: the counters after one more task. -/
def countTask (dates : DateEngine) (now : Int) (c : Counts) (task : Task) : Counts :=
  let c := if task.isHighPriority then { c with highPriority := c.highPriority + 1 } else c
  let c := if task.hasFollowUp then { c with followUp := c.followUp + 1 } else c
  match task.parsed dates with
  | some t =>
    if dates.isoDay t == dates.isoDay now then { c with dueToday := c.dueToday + 1 }
    else if t < now then { c with late := c.late + 1 }
    else if t > now then { c with upcoming := c.upcoming + 1 }
    else c
  | none => c

/-- The counters before the first task, which is also the object returned for an empty task
list. -/
def noCounts : Counts :=
  { total := 0, dueToday := 0, followUp := 0, late := 0, highPriority := 0, upcoming := 0 }

/-- The memo `counts`, for a task list that is an array. -/
def counts (dates : DateEngine) (now : Int) (tasks : List Task) : Counts :=
  if tasks.length == 0 then noCounts
  else { tasks.foldl (countTask dates now) noCounts with total := tasks.length }

/-- The tasks that are not archived. -/
def liveTasks (tasks : List Task) : List Task :=
  tasks.filter (fun task => !(task.status == JsVal.str "archived"))

/-! ## Sample inputs -/

/-- A guest who filled in the form. -/
def janeDoe : Guest :=
  { name := "Jane Doe", email := "jane@x.com", phone := "555-1000", comment := "" }

/-- A complete form in step `select`: one package priced 5000, "pay now" ticked. -/
def paidState : State :=
  { date := "2025-03-10", selectedSlot := "09:00", guest := janeDoe, step := Step.select,
    paymentMethod := PaymentMethod.stripe, requirePayment := false, payNow := true,
    currentBookingId := JsVal.null, stripeKey := "pk_test", paypalKey := "client",
    packages := [{ id := JsVal.num 1, name := "Consultation", price := 5000 }],
    selectedPackageId := JsVal.str "1", isPackagePreSelected := false, loading := false,
    error := "", bookedSlots := [], loadingAvailability := false,
    linkInfo := some { user_id := JsVal.num 7, is_full := JsVal.bool false,
                       redirect_url := JsVal.null },
    meetToken := "AB12CD" }

/-- The same form with a package that costs nothing. -/
def freeState : State :=
  { paidState with packages := [{ id := JsVal.num 1, name := "Intro call", price := 0 }] }

/-- The page address of a shared link. -/
def linkUrl : Url :=
  { origin := "https://app.example", pathname := "/book", search := "?link=abc",
    link := JsVal.str "abc", userId := JsVal.null, token := JsVal.null }

/-- A codec that only knows the empty object. -/
def emptyJson : Json :=
  { stringify := fun _ => "{}", parse := fun s => if s == "{}" then some (some []) else none }

/-- A world in which every call succeeds. -/
def happyEnv : Env :=
  { json := emptyJson,
    createBooking := Outcome.resolved (Body.obj (JsVal.num 42)),
    confirmStripePayment := Outcome.resolved (),
    createStripeIntent := Outcome.resolved (Body.obj (JsVal.str "secret")),
    stripeInstance := true, cardElement := true, cardErrorsElement := true,
    confirmCardPayment := Outcome.resolved
      { error := none, paymentIntent := some { status := "succeeded", id := JsVal.str "pi_123" } },
    createPayPalOrder := Outcome.resolved
      (OrderBody.obj (JsVal.str "https://paypal.example/1") (JsVal.str "EC-1")),
    capturePayPalPayment := Outcome.resolved (Body.obj (JsVal.num 42)),
    typeErrorMessage := "Cannot read properties of null",
    syntaxErrorMessage := "Unexpected token" }

/-- The form of `paidState` in step `payment` with PayPal chosen. -/
def paypalState : State :=
  { paidState with step := Step.payment, paymentMethod := PaymentMethod.paypal }

/-- The payload `paypalState` hands over to the return from PayPal. -/
def samplePayload : JsObj := pendingBookingData paypalState linkUrl (JsVal.num 7)

/-- A codec that knows `samplePayload` only. -/
def sampleJson : Json :=
  { stringify := fun _ => "payload",
    parse := fun s => if s == "payload" then some (some samplePayload) else none }

/-- The world of `happyEnv` with the codec `sampleJson`. -/
def sampleEnv : Env := { happyEnv with json := sampleJson }

/-- The session storage after "Pay and Confirm" with PayPal. -/
def pendingStorage : Storage := (handleConfirm paypalState linkUrl sampleEnv []).storage

/-- The address PayPal sends the guest back to. -/
def returnUrl : Url :=
  { linkUrl with search := "?link=abc&token=EC-1&PayerID=P1", token := JsVal.str "EC-1" }

/-- The form of `paidState` without "pay now". -/
def unpaidState : State := { paidState with payNow := false }

/-- The form of `paidState` in step `payment` with Stripe chosen. -/
def stripeState : State := { paidState with step := Step.payment }

/-- The answer of Stripe for a declined card. -/
def declined : ConfirmResult :=
  { error := some "Your card was declined.", paymentIntent := none }

/-- The world of `happyEnv` in which the card is declined. -/
def declinedEnv : Env := { happyEnv with confirmCardPayment := Outcome.resolved declined }

/-- The capture call of the sample return from PayPal. -/
def sampleCapture : Effect :=
  Effect.apiCapturePayPalPayment (("order_id", JsVal.str "EC-1") :: samplePayload)

/-- The effects that follow the capture call in the sample return from PayPal. -/
def sampleAfterCapture : List Effect :=
  [Effect.storageRemoveItem "pending_booking_data",
   Effect.storageRemoveItem "pending_paypal_order_id",
   Effect.storageRemoveItem "pending_paypal_user_id",
   Effect.replaceState "/book?link=abc"]

/-- The owner's form on a day with a known user. -/
def ownerState : Booking.State :=
  { userId := JsVal.num 7, date := "2025-03-10", selectedSlot := "", bookedSlots := ["09:00"],
    loadingAvailability := false }

/-- A return address on which `token` and `PayerID` come before `link`. -/
def tokenFirstUrl : Url :=
  { linkUrl with search := "?token=EC-1&PayerID=P1&link=abc", token := JsVal.str "EC-1" }

/-- The world of `happyEnv` in which the backend refuses the booking. -/
def rejectingEnv : Env :=
  { happyEnv with createBooking := Outcome.rejected "This time slot is no longer available." }

/-- The form of `unpaidState` with no package chosen. -/
def noPackageState : State := { unpaidState with selectedPackageId := JsVal.str "" }

/-- A browser in which somebody is logged in. -/
def loggedIn : LocalStorage := { items := [("auth_token", "abc")], throws := false }

/-- A browser in which nobody is logged in. -/
def loggedOut : LocalStorage := { items := [], throws := false }

/-- An address that carries a link slug and a `userId` parameter. -/
def userIdUrl : Url :=
  { linkUrl with search := "?link=bad&userId=5", link := JsVal.str "bad",
                 userId := JsVal.str "5" }

/-- The guest fills in the form, picks the slot `09:00` and the package `1`, and submits. -/
def fillAndSubmit : List Event :=
  [Event.packagesFetched (Outcome.resolved
     (some [{ id := JsVal.num 1, name := "Consultation", price := 5000 }])),
   Event.editName "Jane Doe", Event.editEmail "jane@x.com", Event.editPhone "555-1000",
   Event.pickSlot "09:00", Event.selectPackage "1", Event.submit happyEnv]

/-- The answer of `api.getPublicLink` for a link with a PayPal client id and no Stripe key. -/
def paypalOnlyLink : LinkBody :=
  { info := { user_id := JsVal.num 7, is_full := JsVal.bool false, redirect_url := JsVal.null },
    displayName := JsVal.str "Dr. Who", linkName := JsVal.str "Intro", stripe := JsVal.null,
    paypal := JsVal.str "client-id" }

/-- The guest fills in the form, ticks "pay now", submits, and the Stripe loader runs. -/
def fillPayAndSubmit : List Event :=
  [Event.packagesFetched (Outcome.resolved
     (some [{ id := JsVal.num 1, name := "Consultation", price := 5000 }])),
   Event.editName "Jane Doe", Event.editEmail "jane@x.com", Event.editPhone "555-1000",
   Event.pickSlot "09:00", Event.selectPackage "1", Event.togglePayNow true,
   Event.submit happyEnv, Event.stripeLoader true]

/-- A local storage every access to which throws. -/
def disabledStorage : LocalStorage := { items := [("auth_token", "abc")], throws := true }

/-- A local storage that is full: `setItem` throws. -/
def fullStorage : LocalStorage :=
  { items := [("auth_token", "abc")], throws := false, quotaExceeded := true }

/-- A 401 answer of a proxy: an HTML page. -/
def htmlUnauthorized : Response :=
  { status := 401, contentType := some "text/html; charset=utf-8",
    json := Outcome.rejected "Unexpected token '<'" }

/-- A 401 answer declared as JSON whose body is not JSON. -/
def brokenUnauthorized : Response :=
  { status := 401, contentType := some "application/json",
    json := Outcome.rejected "Unexpected end of JSON input" }

/-- A 401 answer of the backend: a JSON body. -/
def jsonUnauthorized : Response :=
  { status := 401, contentType := some "application/json",
    json := Outcome.resolved (some [("message", JsVal.str "Unauthenticated.")]) }

/-- A sample `toUpperCase`: the method of the engine on ASCII text. -/
def asciiUpper (u : List Nat) : List Nat :=
  u.map (fun n => if 97 ≤ n ∧ n ≤ 122 then n - 32 else n)

/-- A user with a name of two words. -/
def johnDoe : User :=
  { full_name := JsVal.str "John Doe", email := JsVal.str "john@example.com" }

/-- A user known by a username of one word. -/
def alice : User := { username := JsVal.str "alice" }

/-- An error whose `errors` object has no entry: `\x7b errors: \x7b\x7d \x7d`. -/
def noValidationEntry : AuthError :=
  AuthError.object { errors := ErrorsField.object [] }

/-- An error whose first validation entry is an empty array: `\x7b errors: \x7b email: [] \x7d \x7d`. -/
def emptyValidationEntry : AuthError :=
  AuthError.object { errors := ErrorsField.object [ValidationEntry.array []] }

/-- A Laravel validation error: `\x7b errors: \x7b email: ['The email has already been taken.'] \x7d \x7d`. -/
def emailTaken : ErrorObject :=
  { errors := ErrorsField.object
      [ValidationEntry.array [JsAny.prim (JsVal.str "The email has already been taken.")]] }

/-- An error with a message, as an `Error` has. -/
def networkError : ErrorObject :=
  { message := JsAny.prim (JsVal.str "Failed to fetch") }

/-- An error with an `error` field that is not a string. -/
def codedError : ErrorObject := { error := JsAny.prim (JsVal.num 500) }

/-- An error whose first validation entry is a string and no array. -/
def tooManyAttempts : ErrorObject :=
  { errors := ErrorsField.object
      [ValidationEntry.other (JsAny.prim (JsVal.str "Too many attempts"))] }

/-- A sample of the `Date` of the engine, right on the dates of the examples: a number is its
own time value, two times of 10 March 2025 (UTC) are parsed, and the day of a time value is
told for that day. -/
def sampleDates : DateEngine :=
  { parse := fun v =>
      match v with
      | JsVal.num n => some n
      | JsVal.str s =>
        if s = "2025-03-10T08:00:00Z" then some 1741593600000
        else if s = "2025-03-10T18:00:00Z" then some 1741629600000
        else none
      | _ => none,
    isoDay := fun t =>
      if 1741564800000 ≤ t ∧ t < 1741651200000 then "2025-03-10" else "another day" }

/-- A sample `toLowerCase`: the method of the engine on ASCII text. -/
def asciiLower (s : String) : String := String.mk (s.data.map Char.toLower)

/-- The time value of 10 March 2025, 12:00 UTC. -/
def noon : Int := 1741608000000

/-- An archived task of urgent priority. -/
def archivedUrgent : Task :=
  { status := JsVal.str "archived", priority := JsVal.str "urgent",
    name := JsVal.str "Renew the contract" }

/-- An open task of high priority, due on the morning of 10 March 2025. -/
def morningTask : Task :=
  { status := JsVal.str "pending", priority := JsVal.str "high",
    dateTime := JsVal.str "2025-03-10T08:00:00Z", name := JsVal.str "Call the supplier" }

/-- An open task due on the evening of 10 March 2025. -/
def eveningTask : Task :=
  { status := JsVal.str "pending", priority := JsVal.str "low",
    dateTime := JsVal.str "2025-03-10T18:00:00Z", name := JsVal.str "Send the report" }

/-- An open task due on 9 March 2025, 12:00 UTC. -/
def yesterdayTask : Task :=
  { status := JsVal.str "pending", priority := JsVal.str "urgent",
    dateTime := JsVal.num 1741521600000, name := JsVal.str "Pay the invoice" }

/-- A task list with an archived task, two tasks of today and a task of the day before. -/
def sampleTasks : List Task := [archivedUrgent, morningTask, eveningTask, yesterdayTask]

/-! ## Order of effects -/

/-- Checks that every effect of the trace that satisfies `target` comes after one that satisfies
`good`; `seen` says that a `good` effect has already happened. -/
def precededBy (good target : Effect → Bool) : Bool → List Effect → Bool
  | _, [] => true
  | seen, e :: es => (!target e || seen) && precededBy good target (seen || good e) es

/-- Every effect of `t` that satisfies `target` comes after an effect that satisfies `good`. -/
def PrecededBy (good target : Effect → Bool) (t : List Effect) : Prop :=
  ∀ pre e post, t = pre ++ e :: post → target e = true → ∃ p ∈ pre, good p = true

/-- The card confirmation "carries an error, or its `paymentIntent` is missing or has a status
other than `'succeeded'`". -/
def ConfirmResult.failed (res : ConfirmResult) : Bool :=
  res.error.isSome ||
    (match res.paymentIntent with
     | some pi => pi.status != "succeeded"
     | none => true)

/-- The message of the error thrown for a failed card confirmation: the provider's message, or
the component's own when the provider reports no error. -/
def failureMessage (res : ConfirmResult) : String :=
  match res.error with
  | some message => message
  | none => "Payment not completed. Please try again."

/-- The call `stripe.confirmCardPayment`. -/
def Effect.isCardConfirmation : Effect → Bool
  | Effect.stripeConfirmCardPayment _ _ _ _ => true
  | _ => false

/-- The three session-storage keys of the PayPal hand-off. -/
def pendingKeys : List String :=
  ["pending_booking_data", "pending_paypal_order_id", "pending_paypal_user_id"]

/-- Checks that a capture call can only be the first effect of the trace, and that it is then
followed by the removal of each of the `pendingKeys`. -/
def captureFirst : List Effect → Bool
  | [] => true
  | e :: es =>
    (if e.isCapture then pendingKeys.all (fun k => es.any (Effect.isRemoval k)) else true) &&
      es.all (fun x => !x.isCapture)

/-! ## General facts about the handlers -/

theorem createBooking_step (c : State) (url : Url) (env : Env) (userId : JsVal)
    (paymentStatus : String) (paymentIntentId : JsVal) (r : Run) :
    (createBooking c url env userId paymentStatus paymentIntentId r).state.step = r.state.step ∨
    (createBooking c url env userId paymentStatus paymentIntentId r).state.step = Step.confirm := by
  unfold createBooking createBookingTry
  rcases hcb : env.createBooking with msg | body
  · simp [Run.set, Run.emit, Run.raise]
  · cases body with
    | nullBody => simp [Run.set, Run.emit, Run.raise]
    | obj bookingId =>
      right
      cases redirectUrl c <;> simp [Run.set, Run.emit, Run.raise] <;> split <;> simp

theorem selectedPackage_isSome_iff (c : State) :
    (selectedPackage c).isSome = true ↔
      ∃ p ∈ c.packages, p.id.toStr = c.selectedPackageId.toStr := by
  simp [selectedPackage, List.find?_isSome]

/-! ## C1: the payment decision -/

/-- C1, as stated, fails: with "pay now" ticked and the selected package priced 0, `needsPayment`
is true although the specification's formula is false, and a valid submit in step `select`
moves the step to `payment`. -/
theorem needsPayment_price_zero_counterexample :
    (selectedPackage freeState).map Package.price = some 0 ∧
    needsPayment freeState = true ∧ needsPaymentSpec freeState = false ∧
    isFormValid freeState = true ∧ freeState.step = Step.select ∧
    (handleConfirm freeState linkUrl happyEnv []).state.step = Step.payment := by
  decide

/-- C1, amended: `needsPayment` is true exactly when `requirePayment` or `payNow` holds and a
package matching the selected id exists (the price is not consulted); a submit in step `select`
moves the step to `payment` exactly when the form is valid, the user id is known, the link is
not full and `needsPayment` is true. -/
theorem needsPayment_iff_selected (c : State) (url : Url) (env : Env) (st : Storage)
    (hstep : c.step = Step.select) :
    (needsPayment c = true ↔
      ((c.requirePayment = true ∨ c.payNow = true) ∧
        ∃ p ∈ c.packages, p.id.toStr = c.selectedPackageId.toStr)) ∧
    ((handleConfirm c url env st).state.step = Step.payment ↔
      (isFormValid c = true ∧ (bookingUserId c url).truthy = true ∧ isLinkFull c = false ∧
        needsPayment c = true)) := by
  constructor
  · simp [needsPayment, selectedPackage_isSome_iff]
  · unfold handleConfirm
    by_cases hp : c.selectedPackageId.truthy = true
    · by_cases hg : isGuestValid c = true
      · by_cases hs : c.selectedSlot = ""
        · simp [hp, hg, hs, isFormValid, Run.set, Run.start, hstep]
        · by_cases hu : (bookingUserId c url).truthy = true
          · by_cases hf : isLinkFull c = true
            · simp [hp, hg, hs, hu, hf, isFormValid, Run.set, Run.start, hstep]
            · by_cases hn : needsPayment c = true
              · simp [hp, hg, hs, hu, hf, hn, isFormValid, Run.set, Run.start, hstep]
              · have hcb := createBooking_step c url env (bookingUserId c url) "pending" JsVal.null
                  (Run.start c st)
                simp only [Run.start, hstep] at hcb
                simp [hp, hg, hs, hu, hf, hn, isFormValid, hstep, Run.start]
                rcases hcb with h | h <;> simp [h]
          · simp [hp, hg, hs, hu, isFormValid, Run.set, Run.start, hstep]
      · simp [hp, hg, isFormValid, Run.set, Run.start, hstep]
    · simp [hp, isFormValid, Run.set, Run.start, hstep]

/-- Witness of C1 (amended): the complete form with a priced package and "pay now". -/
theorem needsPayment_iff_selected_witness :
    paidState.step = Step.select ∧
    (needsPayment paidState = true ↔
      ((paidState.requirePayment = true ∨ paidState.payNow = true) ∧
        ∃ p ∈ paidState.packages, p.id.toStr = paidState.selectedPackageId.toStr)) ∧
    ((handleConfirm paidState linkUrl happyEnv []).state.step = Step.payment ↔
      (isFormValid paidState = true ∧ (bookingUserId paidState linkUrl).truthy = true ∧
        isLinkFull paidState = false ∧ needsPayment paidState = true)) :=
  ⟨rfl, needsPayment_iff_selected paidState linkUrl happyEnv [] rfl⟩

/-! ## C2: form gating -/

/-- C2: when the trimmed name, email or phone, the slot or the package id is empty,
`handleConfirm` has no effect at all (so no API call), leaves the step and the session storage
as they are, and does not throw; when the package id is the missing field the error is
`'Please select a package to continue.'`. -/
theorem handleConfirm_gated (c : State) (url : Url) (env : Env) (st : Storage)
    (hmissing : jsTrim c.guest.name = "" ∨ jsTrim c.guest.email = "" ∨ jsTrim c.guest.phone = "" ∨
      c.selectedSlot = "" ∨ c.selectedPackageId.truthy = false) :
    (handleConfirm c url env st).trace = [] ∧
    (handleConfirm c url env st).state.step = c.step ∧
    (handleConfirm c url env st).storage = st ∧
    (handleConfirm c url env st).thrown = none ∧
    (c.selectedPackageId.truthy = false →
      (handleConfirm c url env st).state.error = "Please select a package to continue.") := by
  unfold handleConfirm
  by_cases hp : c.selectedPackageId.truthy = true
  · have hbad : (!isGuestValid c || c.selectedSlot == "") = true := by
      rcases hmissing with h | h | h | h | h
      · simp [isGuestValid, h]
      · simp [isGuestValid, h]
      · simp [isGuestValid, h]
      · simp [h]
      · simp [hp] at h
    simp [hp, hbad, Run.set, Run.start]
  · simp [hp, Run.set, Run.start]

/-- Witness of C2: the complete form with the slot cleared. -/
theorem handleConfirm_gated_witness :
    (handleConfirm { paidState with selectedSlot := "" } linkUrl happyEnv []).trace = [] ∧
    (handleConfirm { paidState with selectedSlot := "" } linkUrl happyEnv []).state.step =
      Step.select :=
  have h := handleConfirm_gated { paidState with selectedSlot := "" } linkUrl happyEnv []
    (Or.inr (Or.inr (Or.inr (Or.inl rfl))))
  ⟨h.1, h.2.1⟩

/-! ## How often the handlers call `api.createBooking` -/

theorem createBooking_count (c : State) (url : Url) (env : Env) (userId : JsVal)
    (paymentStatus : String) (paymentIntentId : JsVal) (r : Run) :
    (createBooking c url env userId paymentStatus paymentIntentId r).trace.countP
        Effect.isCreateBooking = r.trace.countP Effect.isCreateBooking + 1 := by
  unfold createBooking createBookingTry
  rcases hcb : env.createBooking with msg | body
  · simp [Run.set, Run.emit, Run.raise, Effect.isCreateBooking]
  · cases body with
    | nullBody => simp [Run.set, Run.emit, Run.raise, Effect.isCreateBooking]
    | obj bookingId =>
      rcases hth : r.thrown with _ | m <;>
      rcases hru : redirectUrl c with _ | target <;>
      rcases hcs : env.confirmStripePayment with m2 | u <;>
      by_cases hif : (bookingId.truthy && paymentStatus == "paid" && paymentIntentId.truthy) = true <;>
      simp [Run.set, Run.emit, Run.raise, Effect.isCreateBooking, hth, hif]

theorem processStripePayment_trace (c : State) (url : Url) (env : Env) (userId : JsVal)
    (amount : Int) (r : Run) :
    (processStripePayment c url env userId amount r).trace =
      (processStripePaymentTry c url env userId amount r).trace := by
  unfold processStripePayment
  generalize processStripePaymentTry c url env userId amount r = q
  rcases q with ⟨s, st, t, _ | m⟩ <;> rfl

theorem processStripePayment_step (c : State) (url : Url) (env : Env) (userId : JsVal)
    (amount : Int) (r : Run) :
    (processStripePayment c url env userId amount r).state.step =
      (processStripePaymentTry c url env userId amount r).state.step := by
  unfold processStripePayment
  generalize processStripePaymentTry c url env userId amount r = q
  rcases q with ⟨s, st, t, _ | m⟩ <;> rfl

theorem processStripePayment_thrown (c : State) (url : Url) (env : Env) (userId : JsVal)
    (amount : Int) (r : Run) :
    (processStripePayment c url env userId amount r).thrown =
      (processStripePaymentTry c url env userId amount r).thrown := by
  unfold processStripePayment
  generalize processStripePaymentTry c url env userId amount r = q
  rcases q with ⟨s, st, t, _ | m⟩ <;> rfl

theorem processStripePaymentTry_count (c : State) (url : Url) (env : Env) (userId : JsVal)
    (amount : Int) (r : Run) :
    ((processStripePaymentTry c url env userId amount r).state.step = r.state.step ∧
      (processStripePaymentTry c url env userId amount r).trace.countP Effect.isCreateBooking =
        r.trace.countP Effect.isCreateBooking) ∨
    (processStripePaymentTry c url env userId amount r).trace.countP Effect.isCreateBooking =
        r.trace.countP Effect.isCreateBooking + 1 := by
  unfold processStripePaymentTry
  rcases hi : env.createStripeIntent with msg | body
  · left; simp [Run.emit, Run.raise, Effect.isCreateBooking]
  · by_cases hsi : env.stripeInstance = true
    · by_cases hce : env.cardElement = true
      · cases body with
        | nullBody => left; simp [Run.emit, Run.raise, Effect.isCreateBooking, hsi, hce]
        | obj clientSecret =>
          rcases hcc : env.confirmCardPayment with msg | res
          · left; simp [Run.emit, Run.raise, Effect.isCreateBooking, hsi, hce]
          · rcases he : res.error with _ | message
            · rcases hpi : res.paymentIntent with _ | pi
              · left; simp [Run.emit, Run.raise, Effect.isCreateBooking, hsi, hce, he, hpi]
              · by_cases hst : pi.status = "succeeded"
                · right
                  simp [hsi, hce, he, hpi, hst, createBooking_count, Run.emit,
                    Effect.isCreateBooking]
                · left; simp [Run.emit, Run.raise, Effect.isCreateBooking, hsi, hce, he, hpi, hst]
            · left
              by_cases hee : env.cardErrorsElement = true <;>
                simp [Run.emit, Run.raise, Effect.isCreateBooking, hsi, hce, he, hee]
      · left; simp [Run.emit, Run.raise, Effect.isCreateBooking, hsi, hce]
    · left; simp [Run.emit, Run.raise, Effect.isCreateBooking, hsi]

theorem processPayPalPayment_trace (c : State) (url : Url) (env : Env) (userId : JsVal)
    (amount : Int) (r : Run) :
    (processPayPalPayment c url env userId amount r).trace =
      (processPayPalPaymentTry c url env userId amount r).trace := by
  unfold processPayPalPayment
  generalize processPayPalPaymentTry c url env userId amount r = q
  rcases q with ⟨s, st, t, _ | m⟩ <;> rfl

theorem processPayPalPayment_step (c : State) (url : Url) (env : Env) (userId : JsVal)
    (amount : Int) (r : Run) :
    (processPayPalPayment c url env userId amount r).state.step =
      (processPayPalPaymentTry c url env userId amount r).state.step := by
  unfold processPayPalPayment
  generalize processPayPalPaymentTry c url env userId amount r = q
  rcases q with ⟨s, st, t, _ | m⟩ <;> rfl

theorem processPayPalPaymentTry_count (c : State) (url : Url) (env : Env) (userId : JsVal)
    (amount : Int) (r : Run) :
    (processPayPalPaymentTry c url env userId amount r).state.step = r.state.step ∧
    (processPayPalPaymentTry c url env userId amount r).trace.countP Effect.isCreateBooking =
      r.trace.countP Effect.isCreateBooking := by
  unfold processPayPalPaymentTry
  rcases ho : env.createPayPalOrder with msg | body
  · simp [Run.emit, Run.raise, Effect.isCreateBooking]
  · cases body with
    | nullBody => simp [Run.emit, Run.raise, Effect.isCreateBooking]
    | obj approvalUrl orderId =>
      by_cases ha : approvalUrl.truthy = true <;>
        simp [Run.emit, Run.raise, Run.store, Effect.isCreateBooking, ha]

theorem processPayment_count (c : State) (url : Url) (env : Env) (userId : JsVal) (r : Run) :
    ((processPayment c url env userId r).state.step = r.state.step ∧
      (processPayment c url env userId r).trace.countP Effect.isCreateBooking =
        r.trace.countP Effect.isCreateBooking) ∨
    (processPayment c url env userId r).trace.countP Effect.isCreateBooking =
        r.trace.countP Effect.isCreateBooking + 1 := by
  unfold processPayment
  rcases hsel : selectedPackage c with _ | pkg
  · left; simp [Run.set]
  · by_cases hamt : pkg.price ≤ 0
    · left; simp [Run.set, hamt]
    · simp only [hamt, if_false]
      cases c.paymentMethod with
      | stripe =>
        simp only []
        generalize hr0 : ((r.set fun s => { s with loading := true }).set
          fun s => { s with error := "" }) = r0
        have hstep0 : r0.state.step = r.state.step := by rw [← hr0]; rfl
        have htr0 : r0.trace = r.trace := by rw [← hr0]; rfl
        have h1 := processStripePaymentTry_count c url env userId pkg.price r0
        have h2 := processStripePayment_trace c url env userId pkg.price r0
        have h3 := processStripePayment_step c url env userId pkg.price r0
        rw [← h2, ← h3, hstep0, htr0] at h1
        generalize processStripePayment c url env userId pkg.price r0 = q at h1
        rcases q with ⟨s, st, t, _ | m⟩ <;> simpa [Run.set, Run.emit, Effect.isCreateBooking] using h1
      | paypal =>
        simp only []
        generalize hr0 : ((r.set fun s => { s with loading := true }).set
          fun s => { s with error := "" }) = r0
        have hstep0 : r0.state.step = r.state.step := by rw [← hr0]; rfl
        have htr0 : r0.trace = r.trace := by rw [← hr0]; rfl
        have h1 := processPayPalPaymentTry_count c url env userId pkg.price r0
        have h2 := processPayPalPayment_trace c url env userId pkg.price r0
        have h3 := processPayPalPayment_step c url env userId pkg.price r0
        rw [← h2, ← h3, hstep0, htr0] at h1
        left
        generalize processPayPalPayment c url env userId pkg.price r0 = q at h1
        rcases q with ⟨s, st, t, _ | m⟩ <;> simpa [Run.set, Run.emit, Effect.isCreateBooking] using h1

theorem handlePayPalReturn_counts (c : State) (url : Url) (env : Env) (st : Storage) :
    (handlePayPalReturn c url env st).trace.countP Effect.isCreateBooking = 0 ∧
    ((handlePayPalReturn c url env st).state.step = c.step ∨
      ((handlePayPalReturn c url env st).state.step = Step.confirm ∧
       (handlePayPalReturn c url env st).trace.countP Effect.isCapture = 1)) := by
  unfold handlePayPalReturn
  by_cases hgo : ((url.token.or (itemVal (getItem st "pending_paypal_order_id"))).truthy &&
      (itemVal (getItem st "pending_booking_data")).truthy) = true
  · simp only [hgo, if_true]
    unfold handlePayPalReturnTry
    rcases hparse : env.json.parse ((getItem st "pending_booking_data").getD "") with _ | parsed
    · simp [Run.start, Run.set, Run.emit, Run.raise, Run.unstore, clearPending,
        Effect.isCreateBooking, Effect.isCapture]
    · rcases hcap : env.capturePayPalPayment with msg | response
      · simp [Run.start, Run.set, Run.emit, Run.raise, Run.unstore, clearPending,
          Effect.isCreateBooking, Effect.isCapture]
      · cases parsed with
        | none =>
          simp [Run.start, Run.set, Run.emit, Run.raise, Run.unstore, clearPending,
            Effect.isCreateBooking, Effect.isCapture]
        | some data =>
          cases response with
          | nullBody =>
            simp [Run.start, Run.set, Run.emit, Run.raise, Run.unstore, clearPending,
              Effect.isCreateBooking, Effect.isCapture]
          | obj bookingId =>
            simp [Run.start, Run.set, Run.emit, Run.raise, Run.unstore, clearPending,
              Effect.isCreateBooking, Effect.isCapture]
  · simp [hgo, Run.start]

/-! ## C3: how often the booking is created -/

/-- C3, as stated, fails on the PayPal resumption path: the run that captures order `EC-1` ends in
step `confirm` without any `api.createBooking` call. -/
theorem paypal_return_no_createBooking_counterexample :
    paidState.step = Step.select ∧
    (handlePayPalReturn paidState returnUrl sampleEnv pendingStorage).state.step = Step.confirm ∧
    (handlePayPalReturn paidState returnUrl sampleEnv pendingStorage).trace.countP
      Effect.isCreateBooking = 0 := by
  decide

/-- C3, amended: a run of `handleConfirm` that ends in step `confirm` (the no-payment path and
the Stripe success path) issues `api.createBooking` exactly once; a run of `handlePayPalReturn`
that ends in step `confirm` issues `api.capturePayPalPayment` exactly once and
`api.createBooking` not at all. -/
theorem createBooking_once (c : State) (url : Url) (env : Env) (st : Storage)
    (hstep : c.step ≠ Step.confirm) :
    ((handleConfirm c url env st).state.step = Step.confirm →
      (handleConfirm c url env st).trace.countP Effect.isCreateBooking = 1) ∧
    ((handlePayPalReturn c url env st).state.step = Step.confirm →
      (handlePayPalReturn c url env st).trace.countP Effect.isCapture = 1 ∧
      (handlePayPalReturn c url env st).trace.countP Effect.isCreateBooking = 0) := by
  constructor
  · unfold handleConfirm
    by_cases hp : c.selectedPackageId.truthy = true
    · by_cases hg : (!isGuestValid c || c.selectedSlot == "") = true
      · simp [hp, hg, Run.set, Run.start, hstep]
      · by_cases hu : (bookingUserId c url).truthy = true
        · by_cases hf : isLinkFull c = true
          · simp [hp, hg, hu, hf, Run.set, Run.start, hstep]
          · simp only [hp, hg, hu, hf]
            rcases hs : c.step with _ | _ | _
            · by_cases hn : needsPayment c = true
              · simp [hn, Run.set, Run.start, hs]
              · have h := createBooking_count c url env (bookingUserId c url) "pending"
                  JsVal.null (Run.start c st)
                intro _
                simpa [hn, Run.start] using h
            · have h := processPayment_count c url env (bookingUserId c url) (Run.start c st)
              intro hc
              simp only [Bool.not_true, Bool.false_eq_true, if_false] at hc ⊢
              rcases h with ⟨h1, _⟩ | h2
              · rw [h1] at hc
                simp [Run.start, hs] at hc
              · simpa [Run.start] using h2
            · exact absurd hs hstep
        · simp [hp, hg, hu, Run.set, Run.start, hstep]
    · simp [hp, Run.set, Run.start, hstep]
  · intro hc
    have h := handlePayPalReturn_counts c url env st
    rcases h with ⟨h0, h1 | ⟨_, h2⟩⟩
    · rw [h1] at hc; exact absurd hc hstep
    · exact ⟨h2, h0⟩

/-- Witness of C3 (amended): the no-payment submit and the return from PayPal. -/
theorem createBooking_once_witness :
    unpaidState.step ≠ Step.confirm ∧
    (handleConfirm unpaidState returnUrl sampleEnv pendingStorage).state.step = Step.confirm ∧
    (handleConfirm unpaidState returnUrl sampleEnv pendingStorage).trace.countP
      Effect.isCreateBooking = 1 ∧
    (handlePayPalReturn unpaidState returnUrl sampleEnv pendingStorage).state.step =
      Step.confirm ∧
    (handlePayPalReturn unpaidState returnUrl sampleEnv pendingStorage).trace.countP
      Effect.isCapture = 1 ∧
    (handlePayPalReturn unpaidState returnUrl sampleEnv pendingStorage).trace.countP
      Effect.isCreateBooking = 0 :=
  ⟨by decide, by decide,
   (createBooking_once unpaidState returnUrl sampleEnv pendingStorage (by decide)).1 (by decide),
   by decide,
   (createBooking_once unpaidState returnUrl sampleEnv pendingStorage (by decide)).2 (by decide)⟩

/-! ## C4: payment before booking -/

theorem precededBy_iff (good target : Effect → Bool) (t : List Effect) (seen : Bool) :
    precededBy good target seen t = true ↔
      ∀ pre e post, t = pre ++ e :: post → target e = true →
        seen = true ∨ ∃ p ∈ pre, good p = true := by
  induction t generalizing seen with
  | nil => simp [precededBy]
  | cons a as ih =>
    simp only [precededBy, Bool.and_eq_true, Bool.or_eq_true, Bool.not_eq_true', ih]
    constructor
    · rintro ⟨h1, h2⟩ pre e post heq he
      cases pre with
      | nil =>
        simp only [List.nil_append, List.cons.injEq] at heq
        obtain ⟨rfl, -⟩ := heq
        rcases h1 with h1 | h1
        · rw [he] at h1; cases h1
        · exact Or.inl h1
      | cons b pre' =>
        simp only [List.cons_append, List.cons.injEq] at heq
        obtain ⟨rfl, rfl⟩ := heq
        rcases h2 pre' e post rfl he with (h | h) | ⟨p, hp, hg⟩
        · exact Or.inl h
        · exact Or.inr ⟨a, by simp, h⟩
        · exact Or.inr ⟨p, by simp [hp], hg⟩
    · intro h
      constructor
      · cases hta : target a with
        | false => exact Or.inl rfl
        | true =>
          rcases h [] a as rfl hta with h | ⟨p, hp, _⟩
          · exact Or.inr h
          · cases hp
      · intro pre e post heq he
        rcases h (a :: pre) e post (by simp [heq]) he with h | ⟨p, hp, hg⟩
        · exact Or.inl (Or.inl h)
        · rcases List.mem_cons.1 hp with rfl | hp
          · exact Or.inl (Or.inr hg)
          · exact Or.inr ⟨p, hp, hg⟩

theorem precededBy_append (good target : Effect → Bool) (a b : List Effect) (seen : Bool) :
    precededBy good target seen (a ++ b) =
      (precededBy good target seen a && precededBy good target (seen || a.any good) b) := by
  induction a generalizing seen with
  | nil => simp [precededBy]
  | cons x xs ih => simp [precededBy, ih, Bool.and_assoc, Bool.or_assoc]

theorem createBooking_precededBy (c : State) (url : Url) (env : Env) (userId : JsVal)
    (paymentStatus : String) (paymentIntentId : JsVal) (r : Run) (seen : Bool) :
    precededBy Effect.isSuccessfulConfirmation Effect.isCreateBooking seen
        (createBooking c url env userId paymentStatus paymentIntentId r).trace =
      (precededBy Effect.isSuccessfulConfirmation Effect.isCreateBooking seen r.trace &&
        (seen || r.trace.any Effect.isSuccessfulConfirmation)) := by
  unfold createBooking createBookingTry
  rcases hcb : env.createBooking with msg | body
  · simp [Run.set, Run.emit, Run.raise, Effect.isCreateBooking, precededBy_append, precededBy]
  · cases body with
    | nullBody =>
      simp [Run.set, Run.emit, Run.raise, Effect.isCreateBooking, precededBy_append, precededBy]
    | obj bookingId =>
      rcases hth : r.thrown with _ | m <;>
      rcases hru : redirectUrl c with _ | target <;>
      rcases hcs : env.confirmStripePayment with m2 | u <;>
      by_cases hif : (bookingId.truthy && paymentStatus == "paid" && paymentIntentId.truthy) = true <;>
      simp [Run.set, Run.emit, Run.raise, Effect.isCreateBooking, hth, hif, precededBy_append,
        precededBy]

theorem processStripePaymentTry_precededBy (c : State) (url : Url) (env : Env) (userId : JsVal)
    (amount : Int) (r : Run) (seen : Bool) :
    precededBy Effect.isSuccessfulConfirmation Effect.isCreateBooking seen
        (processStripePaymentTry c url env userId amount r).trace =
      precededBy Effect.isSuccessfulConfirmation Effect.isCreateBooking seen r.trace := by
  unfold processStripePaymentTry
  rcases hi : env.createStripeIntent with msg | body
  · simp [Run.emit, Run.raise, Effect.isCreateBooking, precededBy_append, precededBy]
  · by_cases hsi : env.stripeInstance = true
    · by_cases hce : env.cardElement = true
      · cases body with
        | nullBody =>
          simp [Run.emit, Run.raise, Effect.isCreateBooking, hsi, hce, precededBy_append,
            precededBy]
        | obj clientSecret =>
          rcases hcc : env.confirmCardPayment with msg | res
          · simp [Run.emit, Run.raise, Effect.isCreateBooking, hsi, hce, precededBy_append,
              precededBy]
          · rcases he : res.error with _ | message
            · rcases hpi : res.paymentIntent with _ | pi
              · simp [Run.emit, Run.raise, Effect.isCreateBooking, hsi, hce, he, hpi,
                  precededBy_append, precededBy]
              · by_cases hst : pi.status = "succeeded"
                · simp [hsi, hce, he, hpi, hst, createBooking_precededBy, Run.emit,
                    Effect.isCreateBooking, Effect.isSuccessfulConfirmation, precededBy_append,
                    precededBy]
                · simp [Run.emit, Run.raise, Effect.isCreateBooking, hsi, hce, he, hpi, hst,
                    precededBy_append, precededBy]
            · by_cases hee : env.cardErrorsElement = true <;>
                simp [Run.emit, Run.raise, Effect.isCreateBooking, hsi, hce, he, hee,
                  precededBy_append, precededBy]
      · simp [Run.emit, Run.raise, Effect.isCreateBooking, hsi, hce, precededBy_append,
          precededBy]
    · simp [Run.emit, Run.raise, Effect.isCreateBooking, hsi, precededBy_append, precededBy]

theorem processPayPalPaymentTry_precededBy (c : State) (url : Url) (env : Env) (userId : JsVal)
    (amount : Int) (r : Run) (seen : Bool) :
    precededBy Effect.isSuccessfulConfirmation Effect.isCreateBooking seen
        (processPayPalPaymentTry c url env userId amount r).trace =
      precededBy Effect.isSuccessfulConfirmation Effect.isCreateBooking seen r.trace := by
  unfold processPayPalPaymentTry
  rcases ho : env.createPayPalOrder with msg | body
  · simp [Run.emit, Run.raise, Effect.isCreateBooking, precededBy_append, precededBy]
  · cases body with
    | nullBody =>
      simp [Run.emit, Run.raise, Effect.isCreateBooking, precededBy_append, precededBy]
    | obj approvalUrl orderId =>
      by_cases ha : approvalUrl.truthy = true <;>
        simp [Run.emit, Run.raise, Run.store, Effect.isCreateBooking, ha, precededBy_append,
          precededBy]

theorem processPayment_precededBy (c : State) (url : Url) (env : Env) (userId : JsVal)
    (r : Run) (seen : Bool) :
    precededBy Effect.isSuccessfulConfirmation Effect.isCreateBooking seen
        (processPayment c url env userId r).trace =
      precededBy Effect.isSuccessfulConfirmation Effect.isCreateBooking seen r.trace := by
  unfold processPayment
  rcases hsel : selectedPackage c with _ | pkg
  · simp [Run.set]
  · by_cases hamt : pkg.price ≤ 0
    · simp [Run.set, hamt]
    · simp only [hamt, if_false]
      cases c.paymentMethod with
      | stripe =>
        simp only []
        generalize hr0 : ((r.set fun s => { s with loading := true }).set
          fun s => { s with error := "" }) = r0
        have htr0 : r0.trace = r.trace := by rw [← hr0]; rfl
        have h1 := processStripePaymentTry_precededBy c url env userId pkg.price r0 seen
        have h2 := processStripePayment_trace c url env userId pkg.price r0
        rw [← h2, htr0] at h1
        generalize processStripePayment c url env userId pkg.price r0 = q at h1
        rcases q with ⟨s, st, t, _ | m⟩ <;>
          simpa [Run.set, Run.emit, Effect.isCreateBooking, precededBy_append, precededBy]
            using h1
      | paypal =>
        simp only []
        generalize hr0 : ((r.set fun s => { s with loading := true }).set
          fun s => { s with error := "" }) = r0
        have htr0 : r0.trace = r.trace := by rw [← hr0]; rfl
        have h1 := processPayPalPaymentTry_precededBy c url env userId pkg.price r0 seen
        have h2 := processPayPalPayment_trace c url env userId pkg.price r0
        rw [← h2, htr0] at h1
        generalize processPayPalPayment c url env userId pkg.price r0 = q at h1
        rcases q with ⟨s, st, t, _ | m⟩ <;>
          simpa [Run.set, Run.emit, Effect.isCreateBooking, precededBy_append, precededBy]
            using h1

/-- C4: when `needsPayment` is true at submit time, every `api.createBooking` call in the trace of
`handleConfirm` comes after a card confirmation that returned with no error and a payment intent
of status `'succeeded'`; in step `select` the handler issues no `api.createBooking` call. -/
theorem payment_before_booking (c : State) (url : Url) (env : Env) (st : Storage)
    (hneeds : needsPayment c = true) :
    PrecededBy Effect.isSuccessfulConfirmation Effect.isCreateBooking
      (handleConfirm c url env st).trace ∧
    (c.step = Step.select → ∀ e ∈ (handleConfirm c url env st).trace,
      e.isCreateBooking = false) := by
  have key : precededBy Effect.isSuccessfulConfirmation Effect.isCreateBooking false
      (handleConfirm c url env st).trace = true ∧
      (c.step = Step.select → (handleConfirm c url env st).trace = []) := by
    unfold handleConfirm
    by_cases hp : c.selectedPackageId.truthy = true
    · by_cases hg : (!isGuestValid c || c.selectedSlot == "") = true
      · simp [hp, hg, Run.set, Run.start, precededBy]
      · by_cases hu : (bookingUserId c url).truthy = true
        · by_cases hf : isLinkFull c = true
          · simp [hp, hg, hu, hf, Run.set, Run.start, precededBy]
          · simp only [hp, hg, hu, hf]
            rcases hs : c.step with _ | _ | _
            · simp [hneeds, Run.set, Run.start, precededBy]
            · simp [processPayment_precededBy, Run.start, precededBy]
            · simp [Run.start, precededBy]
        · simp [hp, hg, hu, Run.set, Run.start, precededBy]
    · simp [hp, Run.set, Run.start, precededBy]
  constructor
  · intro pre e post heq he
    have h := (precededBy_iff _ _ _ false).1 key.1 pre e post heq he
    simpa using h
  · intro hs e he
    rw [key.2 hs] at he
    cases he

/-- Witness of C4: the Stripe success run. -/
theorem payment_before_booking_witness :
    needsPayment stripeState = true ∧
    (handleConfirm stripeState linkUrl happyEnv []).trace.countP Effect.isCreateBooking = 1 ∧
    PrecededBy Effect.isSuccessfulConfirmation Effect.isCreateBooking
      (handleConfirm stripeState linkUrl happyEnv []).trace :=
  ⟨by decide, by decide, (payment_before_booking stripeState linkUrl happyEnv [] (by decide)).1⟩

/-! ## C5 and C6: the session storage after a return from PayPal -/

theorem getItem_removeItem (st : Storage) (k k' : String) :
    getItem (removeItem st k) k' = if k' = k then none else getItem st k' := by
  induction st with
  | nil => simp [getItem, removeItem]
  | cons kv rest ih =>
    simp only [getItem, removeItem] at ih ⊢
    by_cases h1 : kv.1 = k <;> by_cases h3 : kv.1 = k' <;> by_cases h2 : k' = k <;>
      simp_all [List.filter_cons, List.find?_cons]

theorem clearPending_storage (r : Run) (k : String)
    (hk : k = "pending_booking_data" ∨ k = "pending_paypal_order_id" ∨
      k = "pending_paypal_user_id") :
    getItem (clearPending r).storage k = none := by
  rcases hk with rfl | rfl | rfl <;>
    simp [clearPending, Run.unstore, getItem_removeItem]

theorem handlePayPalReturn_attempt_storage (c : State) (url : Url) (env : Env) (st : Storage)
    (hgo : ((url.token.or (itemVal (getItem st "pending_paypal_order_id"))).truthy &&
      (itemVal (getItem st "pending_booking_data")).truthy) = true) :
    ∃ r : Run, (handlePayPalReturn c url env st).storage = (clearPending r).storage := by
  unfold handlePayPalReturn
  simp only [hgo, if_true]
  unfold handlePayPalReturnTry
  rcases hparse : env.json.parse ((getItem st "pending_booking_data").getD "") with _ | parsed
  · exact ⟨_, by simp [Run.set, Run.raise, Run.emit]; rfl⟩
  · rcases hcap : env.capturePayPalPayment with msg | response
    · exact ⟨_, by simp [Run.set, Run.raise, Run.emit]; rfl⟩
    · cases parsed with
      | none => exact ⟨_, by simp [Run.set, Run.raise, Run.emit]; rfl⟩
      | some data =>
        cases response with
        | nullBody => exact ⟨_, by simp [Run.set, Run.raise, Run.emit]; rfl⟩
        | obj bookingId => exact ⟨_, by simp [Run.set, Run.raise, Run.emit]; rfl⟩

theorem handlePayPalReturn_idle (c : State) (url : Url) (env : Env) (st : Storage)
    (hnone : getItem st "pending_booking_data" = none) :
    handlePayPalReturn c url env st = Run.start c st := by
  unfold handlePayPalReturn
  simp [hnone, itemVal, JsVal.truthy]

theorem pending_data_absent_after_attempt (c : State) (url : Url) (env : Env) (st : Storage)
    (hid : (url.token.or (itemVal (getItem st "pending_paypal_order_id"))).truthy = true)
    (hdata : (itemVal (getItem st "pending_booking_data")).truthy = true) :
    getItem (handlePayPalReturn c url env st).storage "pending_booking_data" = none := by
  obtain ⟨r, hr⟩ := handlePayPalReturn_attempt_storage c url env st (by simp [hid, hdata])
  rw [hr]
  exact clearPending_storage r _ (Or.inl rfl)

/-- C5: after `handlePayPalReturn` has attempted a resumption (an order id from the URL token or
the session storage, and pending booking data, are both present), the session-storage keys
`pending_booking_data`, `pending_paypal_order_id` and `pending_paypal_user_id` are all absent,
whatever the codec and the capture call answer. -/
theorem paypal_return_clears_storage (c : State) (url : Url) (env : Env) (st : Storage)
    (hid : (url.token.or (itemVal (getItem st "pending_paypal_order_id"))).truthy = true)
    (hdata : (itemVal (getItem st "pending_booking_data")).truthy = true) :
    getItem (handlePayPalReturn c url env st).storage "pending_booking_data" = none ∧
    getItem (handlePayPalReturn c url env st).storage "pending_paypal_order_id" = none ∧
    getItem (handlePayPalReturn c url env st).storage "pending_paypal_user_id" = none := by
  obtain ⟨r, hr⟩ := handlePayPalReturn_attempt_storage c url env st (by simp [hid, hdata])
  rw [hr]
  exact ⟨clearPending_storage r _ (Or.inl rfl), clearPending_storage r _ (Or.inr (Or.inl rfl)),
    clearPending_storage r _ (Or.inr (Or.inr rfl))⟩

/-- Witness of C5: the return from PayPal with order `EC-1`, the three keys being set before. -/
theorem paypal_return_clears_storage_witness :
    getItem pendingStorage "pending_booking_data" = some "payload" ∧
    getItem pendingStorage "pending_paypal_order_id" = some "EC-1" ∧
    getItem pendingStorage "pending_paypal_user_id" = some "7" ∧
    getItem (handlePayPalReturn paidState returnUrl sampleEnv pendingStorage).storage
      "pending_booking_data" = none ∧
    getItem (handlePayPalReturn paidState returnUrl sampleEnv pendingStorage).storage
      "pending_paypal_order_id" = none ∧
    getItem (handlePayPalReturn paidState returnUrl sampleEnv pendingStorage).storage
      "pending_paypal_user_id" = none :=
  ⟨by decide, by decide, by decide,
   paypal_return_clears_storage paidState returnUrl sampleEnv pendingStorage (by decide)
     (by decide)⟩

/-- C6: a second run of `handlePayPalReturn` after an attempted resumption, with any URL and any
answers of the outside world, has no effect (no capture call, no booking-creation call), leaves
the component state and the session storage as they are, and does not throw. -/
theorem paypal_return_reentry (c : State) (url : Url) (env : Env) (st : Storage)
    (hid : (url.token.or (itemVal (getItem st "pending_paypal_order_id"))).truthy = true)
    (hdata : (itemVal (getItem st "pending_booking_data")).truthy = true)
    (url' : Url) (env' : Env) :
    (handlePayPalReturn (handlePayPalReturn c url env st).state url' env'
        (handlePayPalReturn c url env st).storage).trace = [] ∧
    (handlePayPalReturn (handlePayPalReturn c url env st).state url' env'
        (handlePayPalReturn c url env st).storage).state =
      (handlePayPalReturn c url env st).state ∧
    (handlePayPalReturn (handlePayPalReturn c url env st).state url' env'
        (handlePayPalReturn c url env st).storage).storage =
      (handlePayPalReturn c url env st).storage ∧
    (handlePayPalReturn (handlePayPalReturn c url env st).state url' env'
        (handlePayPalReturn c url env st).storage).thrown = none := by
  have h := (pending_data_absent_after_attempt c url env st hid hdata)
  rw [handlePayPalReturn_idle _ url' env' _ h]
  exact ⟨rfl, rfl, rfl, rfl⟩

/-- Witness of C6: the page is loaded again with the same `token` after the return from PayPal
was handled. -/
theorem paypal_return_reentry_witness :
    (handlePayPalReturn paidState returnUrl sampleEnv pendingStorage).trace.countP
      Effect.isCapture = 1 ∧
    (handlePayPalReturn (handlePayPalReturn paidState returnUrl sampleEnv pendingStorage).state
        returnUrl sampleEnv
        (handlePayPalReturn paidState returnUrl sampleEnv pendingStorage).storage).trace = [] ∧
    (handlePayPalReturn (handlePayPalReturn paidState returnUrl sampleEnv pendingStorage).state
        returnUrl sampleEnv
        (handlePayPalReturn paidState returnUrl sampleEnv pendingStorage).storage).state =
      (handlePayPalReturn paidState returnUrl sampleEnv pendingStorage).state :=
  have h := paypal_return_reentry paidState returnUrl sampleEnv pendingStorage (by decide)
    (by decide) returnUrl sampleEnv
  ⟨by decide, h.1, h.2.1⟩

/-! ## C7: a failed card confirmation -/

theorem processStripePaymentTry_failed (c : State) (url : Url) (env : Env) (userId : JsVal)
    (amount : Int) (r : Run) (res : ConfirmResult)
    (hres : env.confirmCardPayment = Outcome.resolved res) (hfail : res.failed = true) :
    (processStripePaymentTry c url env userId amount r).state = r.state ∧
    (processStripePaymentTry c url env userId amount r).trace.countP Effect.isCreateBooking =
      r.trace.countP Effect.isCreateBooking ∧
    ((processStripePaymentTry c url env userId amount r).trace.countP Effect.isCardConfirmation =
        r.trace.countP Effect.isCardConfirmation ∨
      (processStripePaymentTry c url env userId amount r).thrown = some (failureMessage res)) := by
  unfold processStripePaymentTry
  rcases hi : env.createStripeIntent with msg | body
  · simp [Run.emit, Run.raise, Effect.isCreateBooking, Effect.isCardConfirmation]
  · by_cases hsi : env.stripeInstance = true
    · by_cases hce : env.cardElement = true
      · cases body with
        | nullBody =>
          simp [Run.emit, Run.raise, Effect.isCreateBooking, Effect.isCardConfirmation, hsi, hce]
        | obj clientSecret =>
          rcases he : res.error with _ | message
          · rcases hpi : res.paymentIntent with _ | pi
            · simp [Run.emit, Run.raise, Effect.isCreateBooking, hsi, hce, hres, he, hpi,
                failureMessage]
            · have hst : ¬ pi.status = "succeeded" := by
                simpa [ConfirmResult.failed, he, hpi] using hfail
              simp [Run.emit, Run.raise, Effect.isCreateBooking, hsi, hce, hres, he, hpi, hst,
                failureMessage]
          · by_cases hee : env.cardErrorsElement = true <;>
              simp [Run.emit, Run.raise, Effect.isCreateBooking, hsi, hce, hres, he, hee,
                failureMessage]
      · simp [Run.emit, Run.raise, Effect.isCreateBooking, Effect.isCardConfirmation, hsi, hce]
    · simp [Run.emit, Run.raise, Effect.isCreateBooking, Effect.isCardConfirmation, hsi]

theorem processPayPalPaymentTry_noCard (c : State) (url : Url) (env : Env) (userId : JsVal)
    (amount : Int) (r : Run) :
    (processPayPalPaymentTry c url env userId amount r).trace.countP Effect.isCardConfirmation =
      r.trace.countP Effect.isCardConfirmation := by
  unfold processPayPalPaymentTry
  rcases ho : env.createPayPalOrder with msg | body
  · simp [Run.emit, Run.raise, Effect.isCardConfirmation]
  · cases body with
    | nullBody => simp [Run.emit, Run.raise, Effect.isCardConfirmation]
    | obj approvalUrl orderId =>
      by_cases ha : approvalUrl.truthy = true <;>
        simp [Run.emit, Run.raise, Run.store, Effect.isCardConfirmation, ha]

theorem processPayment_failed (c : State) (url : Url) (env : Env) (userId : JsVal) (r : Run)
    (res : ConfirmResult) (hres : env.confirmCardPayment = Outcome.resolved res)
    (hfail : res.failed = true) (hr : r.trace = [])
    (hreached : ∃ e ∈ (processPayment c url env userId r).trace, e.isCardConfirmation = true) :
    (processPayment c url env userId r).trace.countP Effect.isCreateBooking = 0 ∧
    (processPayment c url env userId r).state.step = r.state.step ∧
    (processPayment c url env userId r).state.error =
      orElse (failureMessage res) "Payment processing failed. Please try again." := by
  have hpos : 0 < (processPayment c url env userId r).trace.countP Effect.isCardConfirmation :=
    List.countP_pos_iff.2 hreached
  clear hreached
  revert hpos
  unfold processPayment
  rcases hsel : selectedPackage c with _ | pkg
  · simp [Run.set, hr]
  · by_cases hamt : pkg.price ≤ 0
    · simp [Run.set, hamt, hr]
    · simp only [hamt, if_false]
      cases c.paymentMethod with
      | stripe =>
        simp only []
        generalize hr0 : ((r.set fun s => { s with loading := true }).set
          fun s => { s with error := "" }) = r0
        have hstep0 : r0.state.step = r.state.step := by rw [← hr0]; rfl
        have htr0 : r0.trace = [] := by rw [← hr0]; exact hr
        have h1 := processStripePaymentTry_failed c url env userId pkg.price r0 res hres hfail
        unfold processStripePayment
        generalize processStripePaymentTry c url env userId pkg.price r0 = q at h1
        rcases q with ⟨s, st, t, _ | m⟩
        · simp only [htr0] at h1
          rcases h1 with ⟨-, -, h | h⟩
          · intro hpos
            simp [Run.set] at hpos h
            exact absurd hpos (by simpa using h)
          · simp at h
        · simp only [htr0] at h1
          rcases h1 with ⟨hs, hc, h | h⟩
          · intro hpos
            simp [Run.set, Run.emit, Effect.isCardConfirmation] at hpos h
            exact absurd hpos (by simpa using h)
          · intro _
            simp only [Option.some.injEq] at h
            subst h
            simp only [List.countP_nil] at hc
            subst hs
            simp [Run.set, Run.emit, Effect.isCreateBooking, hstep0, hc]
      | paypal =>
        simp only []
        generalize hr0 : ((r.set fun s => { s with loading := true }).set
          fun s => { s with error := "" }) = r0
        have htr0 : r0.trace = [] := by rw [← hr0]; exact hr
        have h1 := processPayPalPaymentTry_noCard c url env userId pkg.price r0
        have h2 := processPayPalPayment_trace c url env userId pkg.price r0
        rw [← h2, htr0] at h1
        generalize processPayPalPayment c url env userId pkg.price r0 = q at h1
        intro hpos
        rcases q with ⟨s, st, t, _ | m⟩ <;>
          simp [Run.set, Run.emit, Effect.isCardConfirmation] at hpos h1 <;>
          exact absurd hpos (by simpa using h1)

theorem createBooking_noCard (c : State) (url : Url) (env : Env) (userId : JsVal)
    (paymentStatus : String) (paymentIntentId : JsVal) (r : Run) :
    (createBooking c url env userId paymentStatus paymentIntentId r).trace.countP
        Effect.isCardConfirmation = r.trace.countP Effect.isCardConfirmation := by
  unfold createBooking createBookingTry
  rcases hcb : env.createBooking with msg | body
  · simp [Run.set, Run.emit, Run.raise, Effect.isCardConfirmation]
  · cases body with
    | nullBody => simp [Run.set, Run.emit, Run.raise, Effect.isCardConfirmation]
    | obj bookingId =>
      rcases hth : r.thrown with _ | m <;>
      rcases hru : redirectUrl c with _ | target <;>
      rcases hcs : env.confirmStripePayment with m2 | u <;>
      by_cases hif : (bookingId.truthy && paymentStatus == "paid" && paymentIntentId.truthy) = true <;>
      simp [Run.set, Run.emit, Run.raise, Effect.isCardConfirmation, hth, hif]

/-- C7: when `stripe.confirmCardPayment` was called and its result carries an error, or its
`paymentIntent` is missing or has a status other than `'succeeded'`, then `api.createBooking` is
not called, the step was and remains `payment`, the displayed error is the provider's error
message when that message is non-empty, and it is `'Payment not completed. Please try again.'`
when the provider reports no error. -/
theorem stripe_failure_no_booking (c : State) (url : Url) (env : Env) (st : Storage)
    (res : ConfirmResult) (hres : env.confirmCardPayment = Outcome.resolved res)
    (hfail : res.failed = true)
    (hreached : ∃ e ∈ (handleConfirm c url env st).trace, e.isCardConfirmation = true) :
    c.step = Step.payment ∧
    (∀ e ∈ (handleConfirm c url env st).trace, e.isCreateBooking = false) ∧
    (handleConfirm c url env st).state.step = Step.payment ∧
    (∀ msg, res.error = some msg → msg ≠ "" → (handleConfirm c url env st).state.error = msg) ∧
    (res.error = none →
      (handleConfirm c url env st).state.error = "Payment not completed. Please try again.") := by
  have key : c.step = Step.payment ∧
      (handleConfirm c url env st).trace.countP Effect.isCreateBooking = 0 ∧
      (handleConfirm c url env st).state.step = Step.payment ∧
      (handleConfirm c url env st).state.error =
        orElse (failureMessage res) "Payment processing failed. Please try again." := by
    revert hreached
    unfold handleConfirm
    by_cases hp : c.selectedPackageId.truthy = true
    · by_cases hg : (!isGuestValid c || c.selectedSlot == "") = true
      · simp [hp, hg, Run.set, Run.start]
      · by_cases hu : (bookingUserId c url).truthy = true
        · by_cases hf : isLinkFull c = true
          · simp [hp, hg, hu, hf, Run.set, Run.start]
          · simp only [hp, hg, hu, hf]
            rcases hs : c.step with _ | _ | _
            · by_cases hn : needsPayment c = true
              · simp [hn, Run.set, Run.start]
              · intro hreached
                have hpos := List.countP_pos_iff.2 hreached
                simp [hn, createBooking_noCard, Run.start] at hpos
            · intro hreached
              have h := processPayment_failed c url env (bookingUserId c url) (Run.start c st)
                res hres hfail rfl (by simpa using hreached)
              simpa [Run.start, hs] using h
            · simp [Run.start]
        · simp [hp, hg, hu, Run.set, Run.start]
    · simp [hp, Run.set, Run.start]
  obtain ⟨k1, k2, k3, k4⟩ := key
  refine ⟨k1, ?_, k3, ?_, ?_⟩
  · intro e he
    have := List.countP_eq_zero.1 k2 e he
    simpa using this
  · intro msg hmsg hne
    rw [k4]
    simp [failureMessage, hmsg, orElse, hne]
  · intro hnone
    rw [k4]
    simp [failureMessage, hnone, orElse]

/-- Witness of C7: the card is declined. -/
theorem stripe_failure_no_booking_witness :
    (handleConfirm stripeState linkUrl declinedEnv []).trace.countP Effect.isCardConfirmation = 1 ∧
    (∀ e ∈ (handleConfirm stripeState linkUrl declinedEnv []).trace, e.isCreateBooking = false) ∧
    (handleConfirm stripeState linkUrl declinedEnv []).state.step = Step.payment ∧
    (handleConfirm stripeState linkUrl declinedEnv []).state.error = "Your card was declined." :=
  have h := stripe_failure_no_booking stripeState linkUrl declinedEnv [] declined rfl
    (by decide) (by decide)
  ⟨by decide, h.2.1, h.2.2.1, h.2.2.2.1 "Your card was declined." rfl (by decide)⟩

/-! ## C8: fail-open availability -/

/-- C8: when the availability fetch rejects, `bookedSlots` becomes the empty list, the slot grid
has one button per slot of `defaultSlots`, none of them disabled or marked booked, and a click on
any slot sets `selectedSlot` to it; this holds in `PublicBooking` and in `Booking`. -/
theorem availability_fail_open (c : State) (url : Url) (b : Booking.State) (msg : String) :
    ((fetchAvailability c url (Outcome.rejected msg)).bookedSlots = [] ∧
      (slotsGrid (fetchAvailability c url (Outcome.rejected msg))).map SlotButton.label =
        defaultSlots ∧
      (∀ btn ∈ slotsGrid (fetchAvailability c url (Outcome.rejected msg)),
        btn.disabled = false ∧ btn.booked = false) ∧
      (∀ t ∈ defaultSlots,
        (clickSlot (fetchAvailability c url (Outcome.rejected msg)) t).selectedSlot = t)) ∧
    ((Booking.fetchAvailability b (Outcome.rejected msg)).bookedSlots = [] ∧
      (Booking.slotsGrid (Booking.fetchAvailability b (Outcome.rejected msg))).map
        SlotButton.label = Booking.defaultSlots ∧
      (∀ btn ∈ Booking.slotsGrid (Booking.fetchAvailability b (Outcome.rejected msg)),
        btn.disabled = false ∧ btn.booked = false) ∧
      (∀ t ∈ Booking.defaultSlots,
        (Booking.clickSlot (Booking.fetchAvailability b (Outcome.rejected msg)) t).selectedSlot
          = t)) := by
  have h1 : (fetchAvailability c url (Outcome.rejected msg)).bookedSlots = [] := by
    unfold fetchAvailability
    split <;> rfl
  have h2 : (Booking.fetchAvailability b (Outcome.rejected msg)).bookedSlots = [] := by
    unfold Booking.fetchAvailability
    split <;> rfl
  refine ⟨⟨h1, ?_, ?_, ?_⟩, ⟨h2, ?_, ?_, ?_⟩⟩
  · simp [slotsGrid, Function.comp_def]
  · intro btn hbtn
    simp only [slotsGrid, h1, List.mem_map] at hbtn
    obtain ⟨t, -, rfl⟩ := hbtn
    simp
  · intro t _
    simp [clickSlot, h1]
  · simp [Booking.slotsGrid, Function.comp_def]
  · intro btn hbtn
    simp only [Booking.slotsGrid, h2, List.mem_map] at hbtn
    obtain ⟨t, -, rfl⟩ := hbtn
    simp
  · intro t _
    simp [Booking.clickSlot, h2]

/-- Witness of C8: the fetch fails on a day whose slot `09:00` was shown as booked. -/
theorem availability_fail_open_witness :
    ownerState.bookedSlots = ["09:00"] ∧
    (clickSlot (fetchAvailability { paidState with bookedSlots := ["09:00"] } linkUrl
      (Outcome.rejected "Failed to fetch availability")) "09:00").selectedSlot = "09:00" ∧
    (Booking.clickSlot (Booking.fetchAvailability ownerState
      (Outcome.rejected "Failed to fetch availability")) "09:00").selectedSlot = "09:00" :=
  have h := availability_fail_open { paidState with bookedSlots := ["09:00"] } linkUrl ownerState
    "Failed to fetch availability"
  ⟨rfl, h.1.2.2.2 "09:00" (by decide), h.2.2.2.2 "09:00" (by decide)⟩

/-! ## C9: the hand-off to the return from PayPal -/

theorem getItem_append_singleton (st : Storage) (k v k' : String) :
    getItem (st ++ [(k, v)]) k' =
      match getItem st k' with
      | some x => some x
      | none => if k' = k then some v else none := by
  induction st with
  | nil =>
    by_cases h : k = k'
    · simp [getItem, h]
    · have h' : ¬ k' = k := fun e => h e.symm
      simp [getItem, h, h']
  | cons kv rest ih =>
    simp only [getItem] at ih ⊢
    by_cases h3 : kv.1 = k'
    · simp [List.find?_cons, h3]
    · simpa [List.find?_cons, h3] using ih

theorem getItem_setItem (st : Storage) (k v k' : String) :
    getItem (setItem st k v) k' = if k' = k then some v else getItem st k' := by
  unfold setItem
  rw [getItem_append_singleton, getItem_removeItem]
  by_cases h : k' = k
  · simp [h]
  · simp only [h, if_false]
    cases getItem st k' <;> rfl

theorem objSpread_pending (c : State) (url : Url) (userId id : JsVal) :
    objSpread [("order_id", id)] (pendingBookingData c url userId) =
      ("order_id", id) :: pendingBookingData c url userId := by
  simp [objSpread, objSet, pendingBookingData]

theorem processPayPalPayment_storage (c : State) (url : Url) (env : Env) (userId : JsVal)
    (amount : Int) (r : Run) (approvalUrl orderId : JsVal)
    (horder : env.createPayPalOrder = Outcome.resolved (OrderBody.obj approvalUrl orderId))
    (happroval : approvalUrl.truthy = true) :
    (processPayPalPayment c url env userId amount r).storage =
      setItem (setItem (setItem r.storage "pending_booking_data"
        (env.json.stringify (pendingBookingData c url userId)))
        "pending_paypal_order_id" orderId.toStr) "pending_paypal_user_id" userId.toStr := by
  unfold processPayPalPayment processPayPalPaymentTry
  rcases hth : r.thrown with _ | m <;>
    simp [horder, happroval, Run.emit, Run.store, Run.set, hth]

theorem handlePayPalReturn_head (c : State) (url : Url) (env : Env) (st : Storage)
    (pending : String) (data : JsObj)
    (hpending : getItem st "pending_booking_data" = some pending)
    (hne : pending ≠ "")
    (hid : (url.token.or (itemVal (getItem st "pending_paypal_order_id"))).truthy = true)
    (hparse : env.json.parse pending = some (some data)) :
    (handlePayPalReturn c url env st).trace.head? =
      some (Effect.apiCapturePayPalPayment
        (objSpread [("order_id", url.token.or (itemVal (getItem st "pending_paypal_order_id")))]
          data)) := by
  unfold handlePayPalReturn
  have hgo : ((url.token.or (itemVal (getItem st "pending_paypal_order_id"))).truthy &&
      (itemVal (getItem st "pending_booking_data")).truthy) = true := by
    rw [Bool.and_eq_true]
    exact ⟨hid, by simp [hpending, itemVal, JsVal.truthy, hne]⟩
  simp only [hgo, if_true]
  unfold handlePayPalReturnTry
  simp only [hpending, Option.getD_some, hparse]
  rcases hcap : env.capturePayPalPayment with msg | response
  · simp [Run.start, Run.set, Run.emit, Run.raise, Run.unstore, clearPending]
  · cases response with
    | nullBody => simp [Run.start, Run.set, Run.emit, Run.raise, Run.unstore, clearPending]
    | obj bookingId =>
      simp [Run.start, Run.set, Run.emit, Run.raise, Run.unstore, clearPending]

/-- C9: when `processPayPalPayment` receives an order response with an approval URL, the session
storage holds the serialized booking payload (user id, package id, guest name, email, phone and
comment, date, time slot, meeting link, link slug), the provider order id and the user id; and,
the browser's `JSON.parse` undoing `JSON.stringify` on that payload, the first effect of
`handlePayPalReturn` on the next page load is the capture call whose payload is the order id (the
URL token, else the stored order id) followed by the stored payload, field for field. -/
theorem paypal_handoff_roundtrip (c : State) (url : Url) (env : Env) (userId : JsVal)
    (amount : Int) (r : Run) (approvalUrl orderId : JsVal)
    (horder : env.createPayPalOrder = Outcome.resolved (OrderBody.obj approvalUrl orderId))
    (happroval : approvalUrl.truthy = true)
    (c' : State) (url' : Url) (env' : Env)
    (hnonempty : env.json.stringify (pendingBookingData c url userId) ≠ "")
    (hcodec : env'.json.parse (env.json.stringify (pendingBookingData c url userId)) =
      some (some (pendingBookingData c url userId)))
    (hid : url'.token.truthy = true ∨ orderId.toStr ≠ "") :
    getItem (processPayPalPayment c url env userId amount r).storage "pending_booking_data" =
      some (env.json.stringify (pendingBookingData c url userId)) ∧
    getItem (processPayPalPayment c url env userId amount r).storage "pending_paypal_order_id" =
      some orderId.toStr ∧
    getItem (processPayPalPayment c url env userId amount r).storage "pending_paypal_user_id" =
      some userId.toStr ∧
    pendingBookingData c url userId =
      [("user_id", userId), ("package_id", c.selectedPackageId),
       ("guest_name", JsVal.str c.guest.name), ("guest_email", JsVal.str c.guest.email),
       ("guest_phone", JsVal.str c.guest.phone),
       ("guest_comment", (JsVal.str c.guest.comment).or JsVal.null),
       ("date", JsVal.str c.date), ("time_slot", JsVal.str c.selectedSlot),
       ("meeting_link", JsVal.str (meetingLink c)), ("link_slug", url.link.or JsVal.null)] ∧
    (handlePayPalReturn c' url' env'
        (processPayPalPayment c url env userId amount r).storage).trace.head? =
      some (Effect.apiCapturePayPalPayment
        (("order_id", url'.token.or (JsVal.str orderId.toStr)) ::
          pendingBookingData c url userId)) := by
  have hst := processPayPalPayment_storage c url env userId amount r approvalUrl orderId horder
    happroval
  have h1 : getItem (processPayPalPayment c url env userId amount r).storage
      "pending_booking_data" = some (env.json.stringify (pendingBookingData c url userId)) := by
    rw [hst]; simp [getItem_setItem]
  have h2 : getItem (processPayPalPayment c url env userId amount r).storage
      "pending_paypal_order_id" = some orderId.toStr := by
    rw [hst]; simp [getItem_setItem]
  have h3 : getItem (processPayPalPayment c url env userId amount r).storage
      "pending_paypal_user_id" = some userId.toStr := by
    rw [hst]; simp [getItem_setItem]
  refine ⟨h1, h2, h3, rfl, ?_⟩
  have hid' : (url'.token.or (itemVal (getItem
      (processPayPalPayment c url env userId amount r).storage
      "pending_paypal_order_id"))).truthy = true := by
    rw [h2]
    rcases hid with h | h
    · simp [JsVal.or, h]
    · by_cases ht : url'.token.truthy = true
      · simp [JsVal.or, ht]
      · rw [JsVal.or, if_neg ht]
        simp [itemVal, JsVal.truthy, h]
  have hhead := handlePayPalReturn_head c' url' env' _ _ _ h1 hnonempty hid' hcodec
  rw [hhead, h2, objSpread_pending]
  rfl

/-- Witness of C9: the PayPal round trip of the sample form, order `EC-1`. -/
theorem paypal_handoff_roundtrip_witness :
    getItem (processPayPalPayment paypalState linkUrl sampleEnv (JsVal.num 7) 5000
        (Run.start paypalState [])).storage "pending_paypal_order_id" = some "EC-1" ∧
    (handlePayPalReturn paidState returnUrl sampleEnv
        (processPayPalPayment paypalState linkUrl sampleEnv (JsVal.num 7) 5000
          (Run.start paypalState [])).storage).trace.head? =
      some (Effect.apiCapturePayPalPayment
        (("order_id", JsVal.str "EC-1") :: pendingBookingData paypalState linkUrl (JsVal.num 7))) :=
  have h := paypal_handoff_roundtrip paypalState linkUrl sampleEnv (JsVal.num 7) 5000
    (Run.start paypalState []) (JsVal.str "https://paypal.example/1") (JsVal.str "EC-1") rfl rfl
    paidState returnUrl sampleEnv (by decide) (by decide) (Or.inl rfl)
  ⟨h.2.1, h.2.2.2.2⟩

/-! ## C10: when the hand-off keys are removed -/

theorem captureFirst_spec (t : List Effect) (h : captureFirst t = true) :
    ∀ pre e post, t = pre ++ e :: post → e.isCapture = true →
      pre = [] ∧ ∀ k ∈ pendingKeys, ∃ p ∈ post, p.isRemoval k = true := by
  intro pre e post heq he
  cases t with
  | nil => simp at heq
  | cons a as =>
    simp only [captureFirst, Bool.and_eq_true, List.all_eq_true, Bool.not_eq_true'] at h
    cases pre with
    | nil =>
      simp only [List.nil_append, List.cons.injEq] at heq
      obtain ⟨rfl, rfl⟩ := heq
      refine ⟨rfl, ?_⟩
      intro k hk
      have h1 := h.1
      simp only [he, if_true, List.all_eq_true, List.any_eq_true] at h1
      exact h1 k hk
    | cons b pre' =>
      simp only [List.cons_append, List.cons.injEq] at heq
      obtain ⟨rfl, rfl⟩ := heq
      have := h.2 e (by simp)
      rw [he] at this
      cases this

theorem handlePayPalReturn_captureFirst (c : State) (url : Url) (env : Env) (st : Storage) :
    captureFirst (handlePayPalReturn c url env st).trace = true := by
  unfold handlePayPalReturn
  by_cases hgo : ((url.token.or (itemVal (getItem st "pending_paypal_order_id"))).truthy &&
      (itemVal (getItem st "pending_booking_data")).truthy) = true
  · simp only [hgo, if_true]
    unfold handlePayPalReturnTry
    rcases hparse : env.json.parse ((getItem st "pending_booking_data").getD "") with _ | parsed
    · simp [Run.start, Run.set, Run.emit, Run.raise, Run.unstore, clearPending, captureFirst,
        Effect.isCapture, Effect.isRemoval, pendingKeys]
    · rcases hcap : env.capturePayPalPayment with msg | response
      · simp [Run.start, Run.set, Run.emit, Run.raise, Run.unstore, clearPending, captureFirst,
          Effect.isCapture, Effect.isRemoval, pendingKeys]
      · cases parsed with
        | none =>
          simp [Run.start, Run.set, Run.emit, Run.raise, Run.unstore, clearPending, captureFirst,
            Effect.isCapture, Effect.isRemoval, pendingKeys]
        | some data =>
          cases response with
          | nullBody =>
            simp [Run.start, Run.set, Run.emit, Run.raise, Run.unstore, clearPending,
              captureFirst, Effect.isCapture, Effect.isRemoval, pendingKeys]
          | obj bookingId =>
            simp [Run.start, Run.set, Run.emit, Run.raise, Run.unstore, clearPending,
              captureFirst, Effect.isCapture, Effect.isRemoval, pendingKeys]
  · simp [hgo, Run.start, captureFirst]

/-- C10, as stated, fails: in the run that captures order `EC-1` the capture call is the first
effect, so the removal of `pending_booking_data` (like that of the other two keys) does not
precede it. -/
theorem removal_after_capture_counterexample :
    ¬ PrecededBy (Effect.isRemoval "pending_booking_data") Effect.isCapture
      (handlePayPalReturn paidState returnUrl sampleEnv pendingStorage).trace := by
  intro h
  have hc : precededBy (Effect.isRemoval "pending_booking_data") Effect.isCapture false
      (handlePayPalReturn paidState returnUrl sampleEnv pendingStorage).trace = true :=
    (precededBy_iff _ _ _ false).2 (fun pre e post heq he => Or.inr (h pre e post heq he))
  revert hc
  decide

/-- C10, amended: in every effect trace of `handlePayPalReturn` the `api.capturePayPalPayment`
call, when there is one, is the first effect (no key is removed before it) and it is followed by
the removal of each of the three hand-off keys: the keys are removed after the awaited capture
call has completed. -/
theorem removal_after_capture (c : State) (url : Url) (env : Env) (st : Storage) :
    ∀ pre e post, (handlePayPalReturn c url env st).trace = pre ++ e :: post →
      e.isCapture = true →
      pre = [] ∧
      (∃ p ∈ post, p.isRemoval "pending_booking_data" = true) ∧
      (∃ p ∈ post, p.isRemoval "pending_paypal_order_id" = true) ∧
      (∃ p ∈ post, p.isRemoval "pending_paypal_user_id" = true) := by
  intro pre e post heq he
  have h := captureFirst_spec _ (handlePayPalReturn_captureFirst c url env st) pre e post heq he
  exact ⟨h.1, h.2 _ (by simp [pendingKeys]), h.2 _ (by simp [pendingKeys]),
    h.2 _ (by simp [pendingKeys])⟩

/-- Witness of C10 (amended): the run that captures order `EC-1`. -/
theorem removal_after_capture_witness :
    (handlePayPalReturn paidState returnUrl sampleEnv pendingStorage).trace =
      [] ++ sampleCapture :: sampleAfterCapture ∧
    sampleCapture.isCapture = true ∧
    (∃ p ∈ sampleAfterCapture, p.isRemoval "pending_booking_data" = true) ∧
    (∃ p ∈ sampleAfterCapture, p.isRemoval "pending_paypal_order_id" = true) ∧
    (∃ p ∈ sampleAfterCapture, p.isRemoval "pending_paypal_user_id" = true) :=
  have heq : (handlePayPalReturn paidState returnUrl sampleEnv pendingStorage).trace =
      [] ++ sampleCapture :: sampleAfterCapture := by decide
  ⟨heq, rfl,
   (removal_after_capture paidState returnUrl sampleEnv pendingStorage [] sampleCapture
     sampleAfterCapture heq rfl).2⟩

/-! ## C11: the address written after a return from PayPal -/

/-- C11 fails on the code: for a page loaded with `?token=EC-1&PayerID=P1&link=abc` the handled
return writes the address `/book&link=abc`, in which the remaining parameter `link` no longer
follows a `?`; with `link` first, as in the return address the component builds, the written
address is `/book?link=abc`. -/
theorem strippedUrl_token_first :
    tokenFirstUrl.search = "?token=EC-1&PayerID=P1&link=abc" ∧
    strippedUrl tokenFirstUrl = "/book&link=abc" ∧
    returnUrl.search = "?link=abc&token=EC-1&PayerID=P1" ∧
    strippedUrl returnUrl = "/book?link=abc" ∧
    (handlePayPalReturn paidState tokenFirstUrl sampleEnv pendingStorage).state.step =
      Step.confirm ∧
    (handlePayPalReturn paidState tokenFirstUrl sampleEnv pendingStorage).trace.getLast? =
      some (Effect.replaceState "/book&link=abc") := by
  decide

/-! ## C12: a refused booking on the no-payment path -/

/-- C12 fails on the code: when `api.createBooking` rejects on the no-payment path, the error is
shown and the step stays `select`, but the exception re-thrown by `createBooking` escapes
`handleConfirm`; on the payment path the same rejection is caught by `processPayment`. -/
theorem handleConfirm_lets_rejection_escape :
    needsPayment unpaidState = false ∧
    (handleConfirm unpaidState linkUrl rejectingEnv []).thrown =
      some "This time slot is no longer available." ∧
    (handleConfirm unpaidState linkUrl rejectingEnv []).state.step = Step.select ∧
    (handleConfirm unpaidState linkUrl rejectingEnv []).state.error =
      "This time slot is no longer available." ∧
    (handleConfirm stripeState linkUrl rejectingEnv []).thrown = none := by
  decide

/-! ## C13: a link that does not resolve -/

theorem handleConfirm_without_user (c : State) (url : Url) (env : Env) (st : Storage)
    (huser : (bookingUserId c url).truthy = false) :
    (handleConfirm c url env st).trace = [] ∧
    (handleConfirm c url env st).state.linkInfo = c.linkInfo ∧
    (handleConfirm c url env st).storage = st := by
  unfold handleConfirm
  by_cases hp : c.selectedPackageId.truthy = true
  · by_cases hg : (!isGuestValid c || c.selectedSlot == "") = true
    · simp [hp, hg, Run.set, Run.start]
    · simp [hp, hg, huser, Run.set, Run.start]
  · simp [hp, Run.set, Run.start]

theorem applyEvent_without_user (url : Url) (x : Session) (ev : Event)
    (huser : url.userId.truthy = false) (hinfo : x.state.linkInfo = none)
    (htrace : x.trace = []) :
    (applyEvent url x ev).state.linkInfo = none ∧ (applyEvent url x ev).trace = [] := by
  have hb : ∀ s : State, s.linkInfo = none → (bookingUserId s url).truthy = false := by
    intro s hs
    simp [bookingUserId, hs, huser]
  cases ev with
  | submit env =>
    have h := handleConfirm_without_user x.state url env x.storage (hb _ hinfo)
    simp [applyEvent, h.1, h.2.1, hinfo, htrace]
  | pickSlot t =>
    simp only [applyEvent, clickSlot]
    split <;> simp [hinfo, htrace]
  | bookAnother =>
    simp only [applyEvent, resetBooking]
    split <;> simp [hinfo, htrace]
  | packagesFetched answer =>
    simp [applyEvent, fetchPackages, hb _ hinfo, hinfo, htrace]
  | availabilityFetched answer =>
    simp [applyEvent, fetchAvailability, hb _ hinfo, hinfo, htrace]
  | stripeLoader scriptLoads =>
    simp only [applyEvent, loadStripe]
    split_ifs <;> simp [hinfo, htrace]
  | paypalLoader scriptLoads =>
    simp only [applyEvent, loadPayPal]
    split_ifs <;> simp [hinfo, htrace]
  | _ => simp [applyEvent, hinfo, htrace]

theorem runEvents_without_user (url : Url) (events : List Event) (x : Session)
    (huser : url.userId.truthy = false) (hinfo : x.state.linkInfo = none)
    (htrace : x.trace = []) :
    (runEvents url x events).state.linkInfo = none ∧ (runEvents url x events).trace = [] := by
  induction events generalizing x with
  | nil => exact ⟨hinfo, htrace⟩
  | cons ev rest ih =>
    have h := applyEvent_without_user url x ev huser hinfo htrace
    simpa [runEvents] using ih (applyEvent url x ev) h.1 h.2

/-- C13, as stated, fails: on the address `?link=bad&userId=5` the link does not resolve, and the
guest who fills in the form and submits still gets an `api.createBooking` call. -/
theorem failed_link_still_books_counterexample :
    (fetchLink (initialState "2025-03-10" "AB12CD") userIdUrl "" (Outcome.rejected "")).error =
      "Invalid or expired booking link." ∧
    (runEvents userIdUrl
      { state := fetchLink (initialState "2025-03-10" "AB12CD") userIdUrl ""
          (Outcome.rejected ""),
        storage := [], trace := [] } fillAndSubmit).trace.countP Effect.isCreateBooking = 1 ∧
    (runEvents userIdUrl
      { state := fetchLink (initialState "2025-03-10" "AB12CD") userIdUrl ""
          (Outcome.rejected ""),
        storage := [], trace := [] } fillAndSubmit).state.step = Step.confirm := by
  decide

/-- C13, amended: when a link slug is present and resolving it fails, the component records the
error (the server message, else `'Invalid or expired booking link.'`) and `linkInfo` stays
unset; if the address carries no `userId` parameter then, for every later sequence of inputs of
the guest and completions of the component's fetches, no call to the backend or to a payment
provider is issued. -/
theorem failed_link_blocks_without_userId (c : State) (url : Url) (st : Storage)
    (typeErrorMessage msg : String) (events : List Event)
    (hlink : url.link.truthy = true) (hinfo : c.linkInfo = none)
    (huser : url.userId.truthy = false) :
    (fetchLink c url typeErrorMessage (Outcome.rejected msg)).error =
      orElse msg "Invalid or expired booking link." ∧
    (fetchLink c url typeErrorMessage (Outcome.rejected msg)).linkInfo = none ∧
    (runEvents url
      { state := fetchLink c url typeErrorMessage (Outcome.rejected msg), storage := st,
        trace := [] } events).trace = [] := by
  have h0 : fetchLink c url typeErrorMessage (Outcome.rejected msg) =
      { c with error := orElse msg "Invalid or expired booking link." } := by
    simp [fetchLink, hlink]
  refine ⟨by rw [h0], by rw [h0]; exact hinfo, ?_⟩
  exact (runEvents_without_user url events _ huser (by rw [h0]; exact hinfo) rfl).2

/-- Witness of C13 (amended): the same inputs on an address without `userId`. -/
theorem failed_link_blocks_without_userId_witness :
    (fetchLink (initialState "2025-03-10" "AB12CD") linkUrl "" (Outcome.rejected "")).error =
      "Invalid or expired booking link." ∧
    (runEvents linkUrl
      { state := fetchLink (initialState "2025-03-10" "AB12CD") linkUrl "" (Outcome.rejected ""),
        storage := [], trace := [] } fillAndSubmit).trace = [] :=
  have h := failed_link_blocks_without_userId (initialState "2025-03-10" "AB12CD") linkUrl [] ""
    "" fillAndSubmit rfl rfl rfl
  ⟨by decide, h.2.2⟩

/-! ## C14: the payment method on entering step `payment` -/

theorem createBooking_paymentMethod (c : State) (url : Url) (env : Env) (userId : JsVal)
    (paymentStatus : String) (paymentIntentId : JsVal) (r : Run) :
    (createBooking c url env userId paymentStatus paymentIntentId r).state.paymentMethod =
      r.state.paymentMethod := by
  unfold createBooking createBookingTry
  rcases hcb : env.createBooking with msg | body
  · simp [Run.set, Run.emit, Run.raise]
  · cases body with
    | nullBody => simp [Run.set, Run.emit, Run.raise]
    | obj bookingId =>
      rcases hth : r.thrown with _ | m <;>
      rcases hru : redirectUrl c with _ | target <;>
      rcases hcs : env.confirmStripePayment with m2 | u <;>
      by_cases hif : (bookingId.truthy && paymentStatus == "paid" && paymentIntentId.truthy) = true <;>
      simp [Run.set, Run.emit, Run.raise, hth, hif]

theorem processStripePayment_paymentMethod (c : State) (url : Url) (env : Env) (userId : JsVal)
    (amount : Int) (r : Run) :
    (processStripePayment c url env userId amount r).state.paymentMethod =
      r.state.paymentMethod := by
  have htry : (processStripePaymentTry c url env userId amount r).state.paymentMethod =
      r.state.paymentMethod := by
    unfold processStripePaymentTry
    rcases hi : env.createStripeIntent with msg | body
    · simp [Run.emit, Run.raise]
    · by_cases hsi : env.stripeInstance = true
      · by_cases hce : env.cardElement = true
        · cases body with
          | nullBody => simp [Run.emit, Run.raise, hsi, hce]
          | obj clientSecret =>
            rcases hcc : env.confirmCardPayment with msg | res
            · simp [Run.emit, Run.raise, hsi, hce]
            · rcases he : res.error with _ | message
              · rcases hpi : res.paymentIntent with _ | pi
                · simp [Run.emit, Run.raise, hsi, hce, he, hpi]
                · by_cases hst : pi.status = "succeeded"
                  · simp [hsi, hce, he, hpi, hst, createBooking_paymentMethod, Run.emit]
                  · simp [Run.emit, Run.raise, hsi, hce, he, hpi, hst]
              · by_cases hee : env.cardErrorsElement = true <;>
                  simp [Run.emit, Run.raise, hsi, hce, he, hee]
        · simp [Run.emit, Run.raise, hsi, hce]
      · simp [Run.emit, Run.raise, hsi]
  rw [← htry]
  unfold processStripePayment
  generalize processStripePaymentTry c url env userId amount r = q
  rcases q with ⟨s, st, t, _ | m⟩ <;> rfl

theorem processPayPalPayment_paymentMethod (c : State) (url : Url) (env : Env) (userId : JsVal)
    (amount : Int) (r : Run) :
    (processPayPalPayment c url env userId amount r).state.paymentMethod =
      r.state.paymentMethod := by
  have htry : (processPayPalPaymentTry c url env userId amount r).state.paymentMethod =
      r.state.paymentMethod := by
    unfold processPayPalPaymentTry
    rcases ho : env.createPayPalOrder with msg | body
    · simp [Run.emit, Run.raise]
    · cases body with
      | nullBody => simp [Run.emit, Run.raise]
      | obj approvalUrl orderId =>
        by_cases ha : approvalUrl.truthy = true <;> simp [Run.emit, Run.raise, Run.store, ha]
  rw [← htry]
  unfold processPayPalPayment
  generalize processPayPalPaymentTry c url env userId amount r = q
  rcases q with ⟨s, st, t, _ | m⟩ <;> rfl

theorem processPayment_paymentMethod (c : State) (url : Url) (env : Env) (userId : JsVal)
    (r : Run) :
    (processPayment c url env userId r).state.paymentMethod = r.state.paymentMethod := by
  unfold processPayment
  rcases hsel : selectedPackage c with _ | pkg
  · simp [Run.set]
  · by_cases hamt : pkg.price ≤ 0
    · simp [Run.set, hamt]
    · simp only [hamt, if_false]
      cases c.paymentMethod with
      | stripe =>
        simp only []
        generalize hr0 : ((r.set fun s => { s with loading := true }).set
          fun s => { s with error := "" }) = r0
        have h0 : r0.state.paymentMethod = r.state.paymentMethod := by rw [← hr0]; rfl
        have h1 := processStripePayment_paymentMethod c url env userId pkg.price r0
        rw [h0] at h1
        generalize processStripePayment c url env userId pkg.price r0 = q at h1
        rcases q with ⟨s, st, t, _ | m⟩ <;> simpa [Run.set, Run.emit] using h1
      | paypal =>
        simp only []
        generalize hr0 : ((r.set fun s => { s with loading := true }).set
          fun s => { s with error := "" }) = r0
        have h0 : r0.state.paymentMethod = r.state.paymentMethod := by rw [← hr0]; rfl
        have h1 := processPayPalPayment_paymentMethod c url env userId pkg.price r0
        rw [h0] at h1
        generalize processPayPalPayment c url env userId pkg.price r0 = q at h1
        rcases q with ⟨s, st, t, _ | m⟩ <;> simpa [Run.set, Run.emit] using h1

theorem handleConfirm_paymentMethod (c : State) (url : Url) (env : Env) (st : Storage) :
    (handleConfirm c url env st).state.paymentMethod = c.paymentMethod := by
  unfold handleConfirm
  by_cases hp : c.selectedPackageId.truthy = true
  · by_cases hg : (!isGuestValid c || c.selectedSlot == "") = true
    · simp [hp, hg, Run.set, Run.start]
    · by_cases hu : (bookingUserId c url).truthy = true
      · by_cases hf : isLinkFull c = true
        · simp [hp, hg, hu, hf, Run.set, Run.start]
        · rcases hs : c.step with _ | _ | _
          · by_cases hn : needsPayment c = true
            · simp [hp, hg, hu, hf, hn, Run.set, Run.start]
            · simp [hp, hg, hu, hf, hn, createBooking_paymentMethod, Run.start]
          · simp [hp, hg, hu, hf, processPayment_paymentMethod, Run.start]
          · simp [hp, hg, hu, hf, Run.start]
      · simp [hp, hg, hu, Run.set, Run.start]
  · simp [hp, Run.set, Run.start]

theorem applyEvent_paymentMethod (url : Url) (x : Session) (ev : Event)
    (hev : ev.isMethodChoice = false) :
    (applyEvent url x ev).state.paymentMethod = x.state.paymentMethod ∨
    (applyEvent url x ev).state.paymentMethod = PaymentMethod.stripe := by
  cases ev with
  | choosePaymentMethod m => simp [Event.isMethodChoice] at hev
  | submit env => left; simp [applyEvent, handleConfirm_paymentMethod]
  | pickSlot t =>
    left
    simp only [applyEvent, clickSlot]
    split <;> rfl
  | bookAnother =>
    right
    simp only [applyEvent, resetBooking]
    split <;> rfl
  | packagesFetched answer =>
    left
    simp only [applyEvent, fetchPackages]
    repeat' split
    all_goals rfl
  | availabilityFetched answer =>
    left
    simp only [applyEvent, fetchAvailability]
    repeat' split
    all_goals rfl
  | stripeLoader scriptLoads =>
    left
    simp only [applyEvent, loadStripe]
    split_ifs <;> rfl
  | paypalLoader scriptLoads =>
    left
    simp only [applyEvent, loadPayPal]
    split_ifs <;> rfl
  | _ => left; rfl

theorem runEvents_paymentMethod (url : Url) (events : List Event) (x : Session)
    (hev : ∀ ev ∈ events, ev.isMethodChoice = false)
    (hx : x.state.paymentMethod = PaymentMethod.stripe) :
    (runEvents url x events).state.paymentMethod = PaymentMethod.stripe := by
  induction events generalizing x with
  | nil => exact hx
  | cons ev rest ih =>
    have h := applyEvent_paymentMethod url x ev (hev ev (by simp))
    have hx' : (applyEvent url x ev).state.paymentMethod = PaymentMethod.stripe := by
      rcases h with h | h
      · rw [h, hx]
      · exact h
    simpa [runEvents] using ih (applyEvent url x ev) (fun e he => hev e (by simp [he])) hx'

theorem fetchLink_paymentMethod (c : State) (url : Url) (typeErrorMessage : String)
    (answer : Outcome (Option LinkBody)) :
    (fetchLink c url typeErrorMessage answer).paymentMethod = c.paymentMethod := by
  unfold fetchLink
  repeat' split
  all_goals rfl

theorem urlParamsEffect_paymentMethod (c : State) (url : Url) :
    (urlParamsEffect c url).paymentMethod = c.paymentMethod := by
  unfold urlParamsEffect
  repeat' split
  all_goals rfl

/-- C14, as stated, fails: for a link with a PayPal client id and no Stripe key, the guest who
ticks "pay now" and submits enters step `payment` with the method `stripe` selected, and the
Stripe loader answers that Stripe is not configured. -/
theorem paypal_only_link_selects_stripe_counterexample :
    (runEvents linkUrl
      { state := fetchLink (urlParamsEffect (initialState "2025-03-10" "AB12CD") linkUrl) linkUrl
          "" (Outcome.resolved (some paypalOnlyLink)),
        storage := [], trace := [] } fillPayAndSubmit).state.step = Step.payment ∧
    (runEvents linkUrl
      { state := fetchLink (urlParamsEffect (initialState "2025-03-10" "AB12CD") linkUrl) linkUrl
          "" (Outcome.resolved (some paypalOnlyLink)),
        storage := [], trace := [] } fillPayAndSubmit).state.stripeKey = "" ∧
    (runEvents linkUrl
      { state := fetchLink (urlParamsEffect (initialState "2025-03-10" "AB12CD") linkUrl) linkUrl
          "" (Outcome.resolved (some paypalOnlyLink)),
        storage := [], trace := [] } fillPayAndSubmit).state.paypalKey = "client-id" ∧
    (runEvents linkUrl
      { state := fetchLink (urlParamsEffect (initialState "2025-03-10" "AB12CD") linkUrl) linkUrl
          "" (Outcome.resolved (some paypalOnlyLink)),
        storage := [], trace := [] } fillPayAndSubmit).state.paymentMethod =
      PaymentMethod.stripe ∧
    (runEvents linkUrl
      { state := fetchLink (urlParamsEffect (initialState "2025-03-10" "AB12CD") linkUrl) linkUrl
          "" (Outcome.resolved (some paypalOnlyLink)),
        storage := [], trace := [] } fillPayAndSubmit).state.error =
      "Stripe is not configured. Please contact the booking owner." := by
  decide

/-- C14, amended: the selected payment method does not depend on the keys of the link.  It is
`stripe` on the first render, the submit that enters step `payment` leaves it as it is, and as
long as the guest does not pick a method it is `stripe` after every sequence of events, whatever
the link resolves to; with `stripe` selected in step `payment` and no Stripe key, the Stripe
loader sets the error `'Stripe is not configured. Please contact the booking owner.'`. -/
theorem paymentMethod_default_stripe (today meetToken typeErrorMessage : String) (url : Url)
    (answer : Outcome (Option LinkBody)) (st : Storage) (before later : List Event)
    (c : State) (env : Env)
    (hbefore : ∀ ev ∈ before, ev.isMethodChoice = false)
    (hlater : ∀ ev ∈ later, ev.isMethodChoice = false) :
    (initialState today meetToken).paymentMethod = PaymentMethod.stripe ∧
    (handleConfirm c url env st).state.paymentMethod = c.paymentMethod ∧
    (runEvents url
      { state := fetchLink
          (runEvents url
            { state := urlParamsEffect (initialState today meetToken) url, storage := st,
              trace := [] } before).state url typeErrorMessage answer,
        storage := (runEvents url
            { state := urlParamsEffect (initialState today meetToken) url, storage := st,
              trace := [] } before).storage,
        trace := (runEvents url
            { state := urlParamsEffect (initialState today meetToken) url, storage := st,
              trace := [] } before).trace } later).state.paymentMethod = PaymentMethod.stripe ∧
    (c.step = Step.payment → c.paymentMethod = PaymentMethod.stripe → c.stripeKey = "" →
      (loadStripe c true).error =
        "Stripe is not configured. Please contact the booking owner.") := by
  refine ⟨rfl, handleConfirm_paymentMethod c url env st, ?_, ?_⟩
  · apply runEvents_paymentMethod url later _ hlater
    rw [fetchLink_paymentMethod]
    apply runEvents_paymentMethod url before _ hbefore
    rw [urlParamsEffect_paymentMethod]
    rfl
  · intro h1 h2 h3
    simp [loadStripe, h1, h2, h3]

/-- Witness of C14 (amended): the link with a PayPal client id and no Stripe key. -/
theorem paymentMethod_default_stripe_witness :
    (runEvents linkUrl
      { state := fetchLink (urlParamsEffect (initialState "2025-03-10" "AB12CD") linkUrl) linkUrl
          "" (Outcome.resolved (some paypalOnlyLink)),
        storage := [], trace := [] } fillPayAndSubmit).state.paymentMethod =
      PaymentMethod.stripe ∧
    (loadStripe { stripeState with stripeKey := "" } true).error =
      "Stripe is not configured. Please contact the booking owner." :=
  have h := paymentMethod_default_stripe "2025-03-10" "AB12CD" "" linkUrl
    (Outcome.resolved (some paypalOnlyLink)) [] [] fillPayAndSubmit
    { stripeState with stripeKey := "" } happyEnv (by decide) (by decide)
  ⟨h.2.2.1, h.2.2.2 rfl rfl rfl⟩

/-! ## C15: submitting without a package -/

/-- C15, as stated, fails: with the form complete and no package chosen, `handleConfirm` does not
call `api.createBooking`; it answers `'Please select a package to continue.'`. -/
theorem no_package_no_booking_counterexample :
    isGuestValid noPackageState = true ∧ noPackageState.selectedSlot = "09:00" ∧
    noPackageState.selectedPackageId = JsVal.str "" ∧
    (handleConfirm noPackageState linkUrl happyEnv []).trace.countP Effect.isCreateBooking = 0 ∧
    (handleConfirm noPackageState linkUrl happyEnv []).state.step = Step.select ∧
    (handleConfirm noPackageState linkUrl happyEnv []).state.error =
      "Please select a package to continue." := by
  decide

/-- C15, amended: when no package is chosen, submitting never triggers payment and never creates
a booking: `handleConfirm` has no effect on the outside world, leaves the step as it is, sets the
error `'Please select a package to continue.'` and does not throw. -/
theorem no_package_no_booking (c : State) (url : Url) (env : Env) (st : Storage)
    (hnone : c.selectedPackageId.truthy = false) :
    (handleConfirm c url env st).trace = [] ∧
    (handleConfirm c url env st).state.step = c.step ∧
    (handleConfirm c url env st).state.error = "Please select a package to continue." ∧
    (handleConfirm c url env st).thrown = none := by
  unfold handleConfirm
  simp [hnone, Run.set, Run.start]

/-- Witness of C15 (amended): the complete form with no package chosen. -/
theorem no_package_no_booking_witness :
    noPackageState.selectedPackageId.truthy = false ∧
    (handleConfirm noPackageState linkUrl happyEnv []).trace = [] ∧
    (handleConfirm noPackageState linkUrl happyEnv []).state.error =
      "Please select a package to continue." :=
  have h := no_package_no_booking noPackageState linkUrl happyEnv [] (by decide)
  ⟨by decide, h.1, h.2.2.1⟩

/-! ## C16: the headers of the create-booking request -/

theorem headerGet_headerSet (headers : List (String × String)) (k v k' : String) :
    headerGet (headerSet headers k v) k' =
      if k' = k then some v else headerGet headers k' := by
  induction headers with
  | nil =>
    by_cases h : k = k'
    · simp [headerSet, headerGet, h]
    · have h' : ¬ k' = k := fun e => h e.symm
      simp [headerSet, headerGet, h, h']
  | cons kv rest ih =>
    simp only [headerGet] at ih ⊢
    by_cases h1 : kv.1 = k <;> by_cases h3 : kv.1 = k' <;> by_cases h2 : k' = k <;>
      simp_all [headerSet, List.find?_cons]

/-- C16, as stated, fails: with the token `abc` stored, the request of `api.createBooking` carries
`Authorization: Bearer abc`, and it differs from the request sent with no token stored. -/
theorem createBooking_request_counterexample :
    headerGet (api.createBooking loggedIn sampleJson samplePayload).headers "Authorization" =
      some "Bearer abc" ∧
    api.createBooking loggedIn sampleJson samplePayload ≠
      api.createBooking loggedOut sampleJson samplePayload := by
  decide

/-- C16, amended: the request built by `api.createBooking` is a `POST` to `/bookings` whose body is
the serialized booking data; it carries the header `Authorization: Bearer <token>` exactly when
a non-empty auth token is stored, and no `Authorization` header otherwise; two runs that differ
only in the stored token send requests that agree on the address, the method, the body and every
header other than `Authorization`. -/
theorem createBooking_request_authorization (ls ls' : LocalStorage) (json : Json)
    (bookingData : JsObj) :
    (api.createBooking ls json bookingData).url = "https://getdontforget.net/api/bookings" ∧
    (api.createBooking ls json bookingData).method = some "POST" ∧
    (api.createBooking ls json bookingData).body = some (json.stringify bookingData) ∧
    headerGet (api.createBooking ls json bookingData).headers "Authorization" =
      (match getToken ls with
       | some t => if t = "" then none else some ("Bearer " ++ t)
       | none => none) ∧
    (api.createBooking ls json bookingData).url = (api.createBooking ls' json bookingData).url ∧
    (api.createBooking ls json bookingData).method =
      (api.createBooking ls' json bookingData).method ∧
    (api.createBooking ls json bookingData).body =
      (api.createBooking ls' json bookingData).body ∧
    (∀ k, k ≠ "Authorization" →
      headerGet (api.createBooking ls json bookingData).headers k =
        headerGet (api.createBooking ls' json bookingData).headers k) := by
  have hdr : ∀ (l : LocalStorage) (k : String), k ≠ "Authorization" →
      headerGet (api.createBooking l json bookingData).headers k =
        headerGet [("Content-Type", "application/json"), ("Accept", "application/json")] k := by
    intro l k hk
    unfold api.createBooking apiRequest
    rcases getToken l with _ | t
    · simp
    · by_cases ht : t = ""
      · simp [ht]
      · simp [ht, headerGet_headerSet, hk]
  refine ⟨by simp [api.createBooking, apiRequest, API_BASE_URL], rfl, rfl, ?_, rfl, rfl, rfl, ?_⟩
  · unfold api.createBooking apiRequest
    rcases getToken ls with _ | t
    · simp [headerGet]
    · by_cases ht : t = ""
      · simp [ht, headerGet]
      · simp [ht, headerGet_headerSet]
  · intro k hk
    rw [hdr ls k hk, hdr ls' k hk]

/-- Witness of C16 (amended): the header `Content-Type` with and without a stored token. -/
theorem createBooking_request_authorization_witness :
    headerGet (api.createBooking loggedIn sampleJson samplePayload).headers "Content-Type" =
      headerGet (api.createBooking loggedOut sampleJson samplePayload).headers "Content-Type" ∧
    headerGet (api.createBooking loggedOut sampleJson samplePayload).headers "Authorization" =
      none :=
  have h := createBooking_request_authorization loggedIn loggedOut sampleJson samplePayload
  have h' := createBooking_request_authorization loggedOut loggedIn sampleJson samplePayload
  ⟨h.2.2.2.2.2.2.2 "Content-Type" (by decide), h'.2.2.2.1⟩

/-! ## The regular-expression matcher -/

namespace Rx

theorem never_inv {s : List Char} (h : Matches never s) : False := by
  cases h

theorem eps_inv {s : List Char} (h : Matches eps s) : s = [] := by
  cases h
  rfl

theorem cls_inv {p : Char → Bool} {s : List Char} (h : Matches (cls p) s) :
    ∃ c, p c = true ∧ s = [c] := by
  cases h with
  | cls _ c hc => exact ⟨c, hc, rfl⟩

theorem seq_inv {a b : Rx} {s : List Char} (h : Matches (seq a b) s) :
    ∃ u v, s = u ++ v ∧ Matches a u ∧ Matches b v := by
  cases h with
  | seq ha hb => exact ⟨_, _, rfl, ha, hb⟩

theorem alt_inv {a b : Rx} {s : List Char} (h : Matches (alt a b) s) :
    Matches a s ∨ Matches b s := by
  cases h with
  | altLeft _ ha => exact Or.inl ha
  | altRight _ hb => exact Or.inr hb

theorem star_cons_inv_aux {r : Rx} {w : List Char} (h : Matches r w) :
    ∀ (a : Rx) (c : Char) (s : List Char), r = star a → w = c :: s →
      ∃ u v, s = u ++ v ∧ Matches a (c :: u) ∧ Matches (star a) v := by
  induction h with
  | eps => intro a c s hr; cases hr
  | cls p c' hc => intro a c s hr; cases hr
  | seq ha hb _ _ => intro a c s hr; cases hr
  | altLeft b ha _ => intro a c s hr; cases hr
  | altRight a' hb _ => intro a c s hr; cases hr
  | starNil a' => intro a c s _ hw; cases hw
  | @starCons a' u v ha hs _ ih =>
    intro a c s hr hw
    cases hr
    cases u with
    | nil => exact ih _ c s rfl (by simpa using hw)
    | cons x u' =>
      simp only [List.cons_append, List.cons.injEq] at hw
      obtain ⟨rfl, rfl⟩ := hw
      exact ⟨u', v, rfl, ha, hs⟩

theorem star_cons_inv {a : Rx} {c : Char} {s : List Char} (h : Matches (star a) (c :: s)) :
    ∃ u v, s = u ++ v ∧ Matches a (c :: u) ∧ Matches (star a) v :=
  star_cons_inv_aux h a c s rfl rfl

theorem nullable_iff (r : Rx) : r.nullable = true ↔ Matches r [] := by
  induction r with
  | never => simp only [nullable, Bool.false_eq_true, false_iff]; exact fun h => never_inv h
  | eps => simp only [nullable, true_iff]; exact Matches.eps
  | cls p =>
    simp only [nullable, Bool.false_eq_true, false_iff]
    intro h
    obtain ⟨c, -, hc⟩ := cls_inv h
    cases hc
  | seq a b iha ihb =>
    simp only [nullable, Bool.and_eq_true, iha, ihb]
    constructor
    · rintro ⟨ha, hb⟩
      exact Matches.seq ha hb
    · intro h
      obtain ⟨u, v, huv, ha, hb⟩ := seq_inv h
      have hu : u = [] := by
        cases u with
        | nil => rfl
        | cons x xs => simp at huv
      have hv : v = [] := by
        cases v with
        | nil => rfl
        | cons x xs => simp at huv
      subst hu hv
      exact ⟨ha, hb⟩
  | alt a b iha ihb =>
    simp only [nullable, Bool.or_eq_true, iha, ihb]
    constructor
    · rintro (ha | hb)
      · exact Matches.altLeft b ha
      · exact Matches.altRight a hb
    · exact alt_inv
  | star a _ => simp only [nullable, true_iff]; exact Matches.starNil a

theorem deriv_iff (r : Rx) (c : Char) (s : List Char) :
    Matches (r.deriv c) s ↔ Matches r (c :: s) := by
  induction r generalizing s with
  | never => exact ⟨fun h => (never_inv h).elim, fun h => (never_inv h).elim⟩
  | eps =>
    constructor
    · exact fun h => (never_inv h).elim
    · intro h
      have := eps_inv h
      cases this
  | cls p =>
    simp only [deriv]
    constructor
    · intro h
      by_cases hp : p c = true
      · rw [if_pos hp] at h
        rw [eps_inv h]
        exact Matches.cls p c hp
      · rw [if_neg hp] at h
        exact (never_inv h).elim
    · intro h
      obtain ⟨c', hc', heq⟩ := cls_inv h
      simp only [List.cons.injEq] at heq
      obtain ⟨rfl, rfl⟩ := heq
      rw [if_pos hc']
      exact Matches.eps
  | seq a b iha ihb =>
    simp only [deriv]
    constructor
    · intro h
      have key : Matches (seq (a.deriv c) b) s → Matches (seq a b) (c :: s) := by
        intro h1
        obtain ⟨u, v, rfl, hu, hv⟩ := seq_inv h1
        exact Matches.seq ((iha u).1 hu) hv
      by_cases hn : a.nullable = true
      · rw [if_pos hn] at h
        rcases alt_inv h with h1 | h2
        · exact key h1
        · exact Matches.seq ((nullable_iff a).1 hn) ((ihb s).1 h2)
      · rw [if_neg hn] at h
        exact key h
    · intro h
      obtain ⟨u, v, huv, hu, hv⟩ := seq_inv h
      cases u with
      | nil =>
        have hn : a.nullable = true := (nullable_iff a).2 hu
        rw [if_pos hn]
        simp only [List.nil_append] at huv
        subst huv
        exact Matches.altRight _ ((ihb s).2 hv)
      | cons x u' =>
        simp only [List.cons_append, List.cons.injEq] at huv
        obtain ⟨rfl, rfl⟩ := huv
        have h1 : Matches (seq (a.deriv c) b) (u' ++ v) := Matches.seq ((iha u').2 hu) hv
        by_cases hn : a.nullable = true
        · rw [if_pos hn]
          exact Matches.altLeft _ h1
        · rw [if_neg hn]
          exact h1
  | alt a b iha ihb =>
    simp only [deriv]
    constructor
    · intro h
      rcases alt_inv h with h1 | h2
      · exact Matches.altLeft b ((iha s).1 h1)
      · exact Matches.altRight a ((ihb s).1 h2)
    · intro h
      rcases alt_inv h with h1 | h2
      · exact Matches.altLeft _ ((iha s).2 h1)
      · exact Matches.altRight _ ((ihb s).2 h2)
  | star a iha =>
    simp only [deriv]
    constructor
    · intro h
      obtain ⟨u, v, rfl, hu, hv⟩ := seq_inv h
      exact Matches.starCons ((iha u).1 hu) hv
    · intro h
      obtain ⟨u, v, rfl, hu, hv⟩ := star_cons_inv h
      exact Matches.seq ((iha u).2 hu) hv

theorem matchesAll_iff (r : Rx) (s : List Char) : r.matchesAll s = true ↔ Matches r s := by
  induction s generalizing r with
  | nil => exact nullable_iff r
  | cons c cs ih =>
    simp only [matchesAll]
    rw [ih, deriv_iff]

end Rx

namespace Rx

theorem star_cls_aux {r : Rx} {w : List Char} (h : Matches r w) :
    ∀ p : Char → Bool, r = star (cls p) → ∀ c ∈ w, p c = true := by
  induction h with
  | eps => intro p hr; cases hr
  | cls p c' hc => intro p' hr; cases hr
  | seq ha hb _ _ => intro p hr; cases hr
  | altLeft b ha _ => intro p hr; cases hr
  | altRight a' hb _ => intro p hr; cases hr
  | starNil a' => intro p _ c hc; cases hc
  | @starCons a' u v ha hs _ ih =>
    intro p hr c hc
    cases hr
    rcases List.mem_append.1 hc with hu | hv
    · obtain ⟨c', hc', rfl⟩ := cls_inv ha
      rw [List.mem_singleton] at hu
      rw [hu]
      exact hc'
    · exact ih p rfl c hv

theorem matches_star_cls (p : Char → Bool) (s : List Char) :
    Matches (star (cls p)) s ↔ ∀ c ∈ s, p c = true := by
  constructor
  · intro h
    exact star_cls_aux h p rfl
  · intro h
    induction s with
    | nil => exact Matches.starNil _
    | cons c cs ih =>
      have h1 : Matches (cls p) [c] := Matches.cls p c (h c (by simp))
      have h2 : Matches (star (cls p)) cs := ih (fun x hx => h x (by simp [hx]))
      exact Matches.starCons h1 h2

theorem matches_plus_cls (p : Char → Bool) (s : List Char) :
    Matches (plus (cls p)) s ↔ s ≠ [] ∧ ∀ c ∈ s, p c = true := by
  constructor
  · intro h
    obtain ⟨u, v, rfl, hu, hv⟩ := seq_inv h
    obtain ⟨c, hc, rfl⟩ := cls_inv hu
    refine ⟨by simp, ?_⟩
    intro x hx
    rcases List.mem_append.1 hx with h1 | h2
    · rw [List.mem_singleton] at h1
      rw [h1]
      exact hc
    · exact (matches_star_cls p v).1 hv x h2
  · rintro ⟨hne, hall⟩
    cases s with
    | nil => exact absurd rfl hne
    | cons c cs =>
      have h1 : Matches (cls p) [c] := Matches.cls p c (hall c (by simp))
      have h2 : Matches (star (cls p)) cs :=
        (matches_star_cls p cs).2 (fun x hx => hall x (by simp [hx]))
      exact Matches.seq h1 h2

theorem matches_chr (c : Char) (s : List Char) : Matches (chr c) s ↔ s = [c] := by
  constructor
  · intro h
    obtain ⟨x, hx, rfl⟩ := cls_inv h
    simp only [beq_iff_eq] at hx
    rw [hx]
  · rintro rfl
    exact Matches.cls _ c (by simp)

theorem matches_seq (a b : Rx) (s : List Char) :
    Matches (seq a b) s ↔ ∃ u v, s = u ++ v ∧ Matches a u ∧ Matches b v := by
  constructor
  · exact seq_inv
  · rintro ⟨u, v, rfl, hu, hv⟩
    exact Matches.seq hu hv

theorem matches_star_any (s : List Char) : Matches (star any) s :=
  (matches_star_cls _ s).2 (fun _ _ => rfl)

theorem test_cls (p : Char → Bool) (s : String) : (cls p).test s = s.data.any p := by
  rw [Bool.eq_iff_iff, test, matchesAll_iff, List.any_eq_true]
  constructor
  · intro h
    obtain ⟨u, v, huv, -, hv⟩ := seq_inv h
    obtain ⟨w, z, rfl, hw, -⟩ := seq_inv hv
    obtain ⟨c, hc, rfl⟩ := cls_inv hw
    exact ⟨c, by simp [huv], hc⟩
  · rintro ⟨c, hmem, hc⟩
    obtain ⟨u, v, huv⟩ := List.append_of_mem hmem
    rw [huv]
    exact Matches.seq (matches_star_any u)
      (Matches.seq (Matches.cls p c hc) (matches_star_any v))

end Rx

/-! ## C17: `isValidEmail` -/

theorem isEmailChar_iff (c : Char) :
    isEmailChar c = true ↔ isJsWhitespace c = false ∧ c ≠ '@' := by
  simp [isEmailChar]

theorem emailRegex_matches (w : List Char) :
    Rx.Matches emailRegex w ↔
      ∃ l d t : List Char, w = l ++ '@' :: (d ++ '.' :: t) ∧ l ≠ [] ∧ d ≠ [] ∧ t ≠ [] ∧
        (∀ c ∈ l, isEmailChar c = true) ∧ (∀ c ∈ d, isEmailChar c = true) ∧
        (∀ c ∈ t, isEmailChar c = true) := by
  unfold emailRegex
  constructor
  · intro h
    obtain ⟨l, r1, rfl, hl, h1⟩ := Rx.seq_inv h
    obtain ⟨a, r2, rfl, ha, h2⟩ := Rx.seq_inv h1
    obtain ⟨d, r3, rfl, hd, h3⟩ := Rx.seq_inv h2
    obtain ⟨b, t, rfl, hb, ht⟩ := Rx.seq_inv h3
    rw [Rx.matches_chr] at ha hb
    subst ha hb
    rw [Rx.matches_plus_cls] at hl hd ht
    exact ⟨l, d, t, by simp, hl.1, hd.1, ht.1, hl.2, hd.2, ht.2⟩
  · rintro ⟨l, d, t, rfl, hl, hd, ht, hl', hd', ht'⟩
    have e : l ++ '@' :: (d ++ '.' :: t) = l ++ (['@'] ++ (d ++ (['.'] ++ t))) := by simp
    rw [e]
    exact Rx.Matches.seq ((Rx.matches_plus_cls _ _).2 ⟨hl, hl'⟩)
      (Rx.Matches.seq ((Rx.matches_chr _ _).2 rfl)
        (Rx.Matches.seq ((Rx.matches_plus_cls _ _).2 ⟨hd, hd'⟩)
          (Rx.Matches.seq ((Rx.matches_chr _ _).2 rfl)
            ((Rx.matches_plus_cls _ _).2 ⟨ht, ht'⟩))))

theorem isValidEmail_str (s : String) :
    isValidEmail (JsVal.str s) = true ↔
      ∃ l d t : List Char, s.data = l ++ '@' :: (d ++ '.' :: t) ∧ l ≠ [] ∧ d ≠ [] ∧ t ≠ [] ∧
        (∀ c ∈ l, isEmailChar c = true) ∧ (∀ c ∈ d, isEmailChar c = true) ∧
        (∀ c ∈ t, isEmailChar c = true) := by
  unfold isValidEmail
  by_cases hs : s = ""
  · subst hs
    simp
  · have hs' : (s == "") = false := by simpa using hs
    simp only [hs', Bool.false_eq_true, if_false]
    rw [Rx.matchesAll_iff, emailRegex_matches]

/-- C17: `isValidEmail` returns true exactly for the strings `local@domain.tld` in which `local`,
`domain` and `tld` are non-empty and contain no white space and no `@`; an accepted address
contains exactly one `@`; the empty string and every value that is not a string are rejected. -/
theorem isValidEmail_iff (email : JsVal) :
    (isValidEmail email = true ↔
      ∃ loc domain tld : String, email = JsVal.str (loc ++ "@" ++ domain ++ "." ++ tld) ∧
        loc ≠ "" ∧ domain ≠ "" ∧ tld ≠ "" ∧
        (∀ c ∈ loc.data ++ domain.data ++ tld.data, isJsWhitespace c = false ∧ c ≠ '@')) ∧
    (isValidEmail email = true → ∃ s, email = JsVal.str s ∧ s.data.count '@' = 1) ∧
    isValidEmail (JsVal.str "") = false ∧
    ((∀ s, email ≠ JsVal.str s) → isValidEmail email = false) := by
  refine ⟨?_, ?_, by decide, ?_⟩
  · constructor
    · intro h
      cases email with
      | str s =>
        obtain ⟨l, d, t, hdata, hl, hd, ht, hl', hd', ht'⟩ := (isValidEmail_str s).1 h
        refine ⟨String.mk l, String.mk d, String.mk t, ?_, ?_, ?_, ?_, ?_⟩
        · congr 1
          apply String.ext
          simp [hdata]
        · intro e; exact hl (by simpa using congrArg String.data e)
        · intro e; exact hd (by simpa using congrArg String.data e)
        · intro e; exact ht (by simpa using congrArg String.data e)
        · intro c hc
          simp only [List.mem_append] at hc
          rcases hc with (hc | hc) | hc
          · exact (isEmailChar_iff c).1 (hl' c hc)
          · exact (isEmailChar_iff c).1 (hd' c hc)
          · exact (isEmailChar_iff c).1 (ht' c hc)
      | undefined => simp [isValidEmail] at h
      | null => simp [isValidEmail] at h
      | bool b => simp [isValidEmail] at h
      | num n => simp [isValidEmail] at h
    · rintro ⟨loc, domain, tld, rfl, hl, hd, ht, hall⟩
      rw [isValidEmail_str]
      refine ⟨loc.data, domain.data, tld.data, by simp, ?_, ?_, ?_, ?_, ?_, ?_⟩
      · intro e; exact hl (String.ext e)
      · intro e; exact hd (String.ext e)
      · intro e; exact ht (String.ext e)
      · intro c hc; exact (isEmailChar_iff c).2 (hall c (by simp [hc]))
      · intro c hc; exact (isEmailChar_iff c).2 (hall c (by simp [hc]))
      · intro c hc; exact (isEmailChar_iff c).2 (hall c (by simp [hc]))
  · intro h
    cases email with
    | str s =>
      obtain ⟨l, d, t, hdata, -, -, -, hl', hd', ht'⟩ := (isValidEmail_str s).1 h
      refine ⟨s, rfl, ?_⟩
      have hz : ∀ u : List Char, (∀ c ∈ u, isEmailChar c = true) → u.count '@' = 0 := by
        intro u hu
        rw [List.count_eq_zero]
        intro hmem
        have := (isEmailChar_iff '@').1 (hu '@' hmem)
        exact this.2 rfl
      rw [hdata]
      simp [List.count_append, List.count_cons, hz l hl', hz d hd', hz t ht']
    | undefined => simp [isValidEmail] at h
    | null => simp [isValidEmail] at h
    | bool b => simp [isValidEmail] at h
    | num n => simp [isValidEmail] at h
  · intro h
    cases email with
    | str s => exact absurd rfl (h s)
    | undefined => rfl
    | null => rfl
    | bool b => rfl
    | num n => rfl

/-- Witness of C17: the address `jane@x.com`. -/
theorem isValidEmail_iff_witness :
    isValidEmail (JsVal.str "jane@x.com") = true ∧
    ∃ s, JsVal.str "jane@x.com" = JsVal.str s ∧ s.data.count '@' = 1 :=
  ⟨by decide, (isValidEmail_iff (JsVal.str "jane@x.com")).2.1 (by decide)⟩

/-! ## C18: `validatePassword` -/

theorem validatePassword_errors (s : String) (options : PasswordOptions) (hs : s ≠ "") :
    (validatePassword (JsVal.str s) options).errors = passwordErrorsSpec s options ∧
    (validatePassword (JsVal.str s) options).isValid =
      (passwordErrorsSpec s options).isEmpty := by
  have hs' : (s == "") = false := by simpa using hs
  unfold validatePassword passwordErrorsSpec
  simp only [hs', Bool.false_eq_true, if_false, Rx.test_cls, List.nil_append]
  by_cases h1 : (jsLength s : Int) < options.minLength <;>
  by_cases h2 : (options.requireUppercase && !s.data.any isUpper) = true <;>
  by_cases h3 : (options.requireLowercase && !s.data.any isLower) = true <;>
  by_cases h4 : (options.requireNumber && !s.data.any isDigit) = true <;>
  by_cases h5 : (options.requireSpecialChar && !s.data.any isSpecial) = true <;>
  simp [h1, h2, h3, h4, h5]

/-- C18: `validatePassword` answers `isValid = true` exactly when its `errors` list is empty;
with the default options this is exactly when the password is a string whose `length` is at
least 8; for a non-empty string the errors are one message per enabled requirement that the
password violates, in the order length, uppercase, lowercase, number, special character; an
empty or non-string password yields exactly `['Password is required']`. -/
theorem validatePassword_spec (password : JsVal) (options : PasswordOptions) :
    ((validatePassword password options).isValid = true ↔
      (validatePassword password options).errors = []) ∧
    ((validatePassword password {}).isValid = true ↔
      ∃ s, password = JsVal.str s ∧ 8 ≤ jsLength s) ∧
    (∀ s, password = JsVal.str s → s ≠ "" →
      (validatePassword password options).errors = passwordErrorsSpec s options) ∧
    ((password = JsVal.str "" ∨ ∀ s, password ≠ JsVal.str s) →
      validatePassword password options =
        { isValid := false, errors := ["Password is required"] }) := by
  have hreq : ∀ o : PasswordOptions, (password = JsVal.str "" ∨ ∀ s, password ≠ JsVal.str s) →
      validatePassword password o = { isValid := false, errors := ["Password is required"] } := by
    intro o h
    rcases h with rfl | h
    · rfl
    · cases password with
      | str s => exact absurd rfl (h s)
      | undefined => rfl
      | null => rfl
      | bool b => rfl
      | num n => rfl
  have hcases : (∃ s, password = JsVal.str s ∧ s ≠ "") ∨
      (password = JsVal.str "" ∨ ∀ s, password ≠ JsVal.str s) := by
    cases password with
    | str s =>
      by_cases hs : s = ""
      · right; left; rw [hs]
      · left; exact ⟨s, rfl, hs⟩
    | undefined => right; right; intro s h; cases h
    | null => right; right; intro s h; cases h
    | bool b => right; right; intro s h; cases h
    | num n => right; right; intro s h; cases h
  refine ⟨?_, ?_, ?_, hreq options⟩
  · rcases hcases with ⟨s, rfl, hs⟩ | h
    · obtain ⟨h1, h2⟩ := validatePassword_errors s options hs
      rw [h1, h2]
      simp [List.isEmpty_iff]
    · rw [hreq options h]
      simp
  · rcases hcases with ⟨s, rfl, hs⟩ | h
    · obtain ⟨-, h2⟩ := validatePassword_errors s {} hs
      rw [h2]
      have h8 : ((jsLength s : Int) < 8) ↔ ¬ 8 ≤ jsLength s := by omega
      by_cases hlen : 8 ≤ jsLength s
      · have : ¬ ((jsLength s : Int) < 8) := by omega
        simp [passwordErrorsSpec, this, hlen]
      · have : (jsLength s : Int) < 8 := by omega
        simp [passwordErrorsSpec, this, hlen]
    · rw [hreq {} h]
      simp only [Bool.false_eq_true, false_iff]
      rintro ⟨s, hs, hlen⟩
      rcases h with h | h
      · rw [h] at hs
        cases hs
        simp [jsLength] at hlen
      · exact h s hs
  · intro s hs hne
    subst hs
    exact (validatePassword_errors s options hne).1

/-- Witness of C18: a password of seven lower-case letters, with digits and upper case
required. -/
theorem validatePassword_spec_witness :
    (validatePassword (JsVal.str "abcdefg")
      { requireUppercase := true, requireNumber := true }).errors =
      ["Password must be at least 8 characters long",
       "Password must contain at least one uppercase letter",
       "Password must contain at least one number"] ∧
    validatePassword JsVal.null {} = { isValid := false, errors := ["Password is required"] } :=
  have h := validatePassword_spec (JsVal.str "abcdefg")
    { requireUppercase := true, requireNumber := true }
  have h' := validatePassword_spec JsVal.null {}
  ⟨(h.2.2.1 "abcdefg" rfl (by decide)).trans (by decide),
   h'.2.2.2 (Or.inr (fun s hs => by cases hs))⟩

/-! ## C19: `isValidPhoneNumber` -/

theorem isDigit_lt (c : Char) (h : isDigit c = true) : c.toNat < 0x10000 := by
  simp only [isDigit, Bool.and_eq_true, decide_eq_true_eq] at h
  have h2 : c.val ≤ '9'.val := h.2
  have h3 : c.val.toNat ≤ ('9' : Char).val.toNat := h2
  have h4 : ('9' : Char).val.toNat = 57 := by decide
  simp only [Char.toNat]
  omega

theorem jsLength_digits (l : List Char) (h : ∀ c ∈ l, isDigit c = true) :
    jsLength (String.mk l) = l.length := by
  induction l with
  | nil => rfl
  | cons c cs ih =>
    have hc := isDigit_lt c (h c (by simp))
    have ih' := ih (fun x hx => h x (by simp [hx]))
    simp only [jsLength] at ih' ⊢
    simp only [List.map_cons, List.sum_cons, List.length_cons, hc, if_true, ih']
    omega

theorem jsLength_removeNonDigits (s : String) :
    jsLength (removeNonDigits s) = s.data.countP isDigit := by
  unfold removeNonDigits
  rw [jsLength_digits _ (fun c hc => (List.mem_filter.1 hc).2), List.countP_eq_length_filter]

/-- C19: `isValidPhoneNumber` returns true exactly when the input is a non-empty string that
consists only of digits, white space, `-`, `+`, `(` and `)` and contains at least 10 digits; it
returns false for every value that is not a string. -/
theorem isValidPhoneNumber_iff (phoneNumber : JsVal) :
    (isValidPhoneNumber phoneNumber = true ↔
      ∃ s, phoneNumber = JsVal.str s ∧ s ≠ "" ∧
        (∀ c ∈ s.data, isDigit c = true ∨ isJsWhitespace c = true ∨
          c = '-' ∨ c = '+' ∨ c = '(' ∨ c = ')') ∧
        10 ≤ s.data.countP isDigit) ∧
    ((∀ s, phoneNumber ≠ JsVal.str s) → isValidPhoneNumber phoneNumber = false) := by
  constructor
  · cases phoneNumber with
    | str s =>
      unfold isValidPhoneNumber
      by_cases hs : s = ""
      · subst hs
        simp
      · have hs' : (s == "") = false := by simpa using hs
        have hd : s.data ≠ [] := fun e => hs (String.ext e)
        simp only [hs', Bool.false_eq_true, if_false, Bool.and_eq_true, decide_eq_true_eq,
          Rx.matchesAll_iff, phoneRegex, Rx.matches_plus_cls, jsLength_removeNonDigits]
        constructor
        · rintro ⟨⟨-, hall⟩, hten⟩
          refine ⟨s, rfl, hs, ?_, hten⟩
          intro c hc
          have := hall c hc
          simpa [isPhoneChar, or_assoc] using this
        · rintro ⟨s', hs1, -, hall, hten⟩
          cases hs1
          refine ⟨⟨hd, ?_⟩, hten⟩
          intro c hc
          have := hall c hc
          simpa [isPhoneChar, or_assoc] using this
    | undefined => simp [isValidPhoneNumber]
    | null => simp [isValidPhoneNumber]
    | bool b => simp [isValidPhoneNumber]
    | num n => simp [isValidPhoneNumber]
  · intro h
    cases phoneNumber with
    | str s => exact absurd rfl (h s)
    | undefined => rfl
    | null => rfl
    | bool b => rfl
    | num n => rfl

/-- Witness of C19: a number that is not a string is rejected, a well-formed one accepted. -/
theorem isValidPhoneNumber_iff_witness :
    isValidPhoneNumber (JsVal.num 5551234567) = false ∧
    isValidPhoneNumber (JsVal.str "+1 (555) 123-4567") = true :=
  ⟨(isValidPhoneNumber_iff (JsVal.num 5551234567)).2 (fun s hs => by cases hs), by decide⟩

/-! ## C20: `validateRegistration` -/

theorem tooShort_some (v : JsVal) (b : Bool) (h : tooShort v = some b) :
    b = !hasTwoChars v := by
  cases v with
  | str s =>
    by_cases hs : s = ""
    · subst hs
      simp [tooShort, JsVal.truthy] at h
      subst h
      decide
    · have : (JsVal.str s).truthy = true := by simpa [JsVal.truthy] using hs
      simp only [tooShort, this, Bool.not_true, Bool.false_eq_true, if_false,
        Option.some.injEq] at h
      subst h
      simp only [hasTwoChars]
      by_cases hl : 2 ≤ jsLength (jsTrim s)
      · have : ¬ jsLength (jsTrim s) < 2 := by omega
        simp [hl, this]
      · have : jsLength (jsTrim s) < 2 := by omega
        simp [hl, this]
  | undefined => simp [tooShort, JsVal.truthy] at h; subst h; rfl
  | null => simp [tooShort, JsVal.truthy] at h; subst h; rfl
  | bool x =>
    cases x <;> simp [tooShort, JsVal.truthy] at h
    subst h; rfl
  | num n =>
    by_cases hn : n = 0
    · subst hn; simp [tooShort, JsVal.truthy] at h; subst h; rfl
    · simp [tooShort, JsVal.truthy, hn] at h

theorem tooShort_isSome (v : JsVal) : (tooShort v).isSome = isTextOrFalsy v := by
  cases v with
  | str s =>
    by_cases hs : s = ""
    · subst hs; rfl
    · have : (JsVal.str s).truthy = true := by simpa [JsVal.truthy] using hs
      simp [tooShort, this, isTextOrFalsy]
  | undefined => rfl
  | null => rfl
  | bool x => cases x <;> rfl
  | num n =>
    by_cases hn : n = 0
    · subst hn; rfl
    · simp [tooShort, JsVal.truthy, hn, isTextOrFalsy]

theorem isValidEmail_truthy (v : JsVal) (h : isValidEmail v = true) : v.truthy = true := by
  cases v with
  | str s =>
    by_cases hs : s = ""
    · subst hs; simp [isValidEmail] at h
    · simpa [JsVal.truthy] using hs
  | undefined => simp [isValidEmail] at h
  | null => simp [isValidEmail] at h
  | bool b => simp [isValidEmail] at h
  | num n => simp [isValidEmail] at h

theorem isValidPhoneNumber_truthy (v : JsVal) (h : isValidPhoneNumber v = true) :
    v.truthy = true := by
  cases v with
  | str s =>
    by_cases hs : s = ""
    · subst hs; simp [isValidPhoneNumber] at h
    · simpa [JsVal.truthy] using hs
  | undefined => simp [isValidPhoneNumber] at h
  | null => simp [isValidPhoneNumber] at h
  | bool b => simp [isValidPhoneNumber] at h
  | num n => simp [isValidPhoneNumber] at h

theorem validatePassword_default (v : JsVal) :
    (validatePassword v { minLength := 8 }).isValid = isLongPassword v := by
  cases v with
  | str s =>
    by_cases hs : s = ""
    · subst hs; rfl
    · rw [(validatePassword_errors s _ hs).2]
      by_cases hlen : 8 ≤ jsLength s
      · have : ¬ ((jsLength s : Int) < 8) := by omega
        simp [passwordErrorsSpec, this, hlen, isLongPassword]
      · have : (jsLength s : Int) < 8 := by omega
        simp [passwordErrorsSpec, this, hlen, isLongPassword]
  | undefined => rfl
  | null => rfl
  | bool b => rfl
  | num n => rfl

theorem length_beq_zero (l : List (String × String)) :
    (l.length == 0) = (l.map Prod.fst).isEmpty := by
  cases l <;> rfl

theorem validateRegistration_keys (formData : RegistrationForm) (r : RegistrationResult)
    (h : validateRegistration formData = some r) :
    r.errors.map Prod.fst = violatedFields formData ∧
    r.isValid = (violatedFields formData).isEmpty := by
  unfold validateRegistration at h
  rcases h1 : tooShort formData.full_name with _ | bn
  · simp [h1] at h
  · rcases h2 : tooShort formData.role_title with _ | br
    · simp [h1, h2] at h
    · have e1 := tooShort_some _ _ h1
      have e2 := tooShort_some _ _ h2
      simp only [h1, h2, Option.bind_eq_bind, Option.some_bind, Option.pure_def,
        Option.some.injEq] at h
      subst h
      have pName : (if bn = true then [("full_name", "Full name must be at least 2 characters")]
          else []).map Prod.fst =
          (if hasTwoChars formData.full_name = true then [] else ["full_name"]) := by
        rw [e1]
        cases hasTwoChars formData.full_name <;> rfl
      have pRole : (if br = true then [("role_title", "Role/Title is required")]
          else []).map Prod.fst =
          (if hasTwoChars formData.role_title = true then [] else ["role_title"]) := by
        rw [e2]
        cases hasTwoChars formData.role_title <;> rfl
      have pEmail : (if (!formData.email.truthy) = true then [("email", "Email is required")]
          else if (!isValidEmail formData.email) = true then
            [("email", "Please enter a valid email address")]
          else []).map Prod.fst =
          (if isValidEmail formData.email = true then [] else ["email"]) := by
        by_cases hv : isValidEmail formData.email = true
        · simp [hv, isValidEmail_truthy _ hv]
        · by_cases ht : formData.email.truthy = true <;> simp [hv, ht]
      have pPhone : (if (!formData.phone_number.truthy) = true then
            [("phone_number", "Phone number is required")]
          else if (!isValidPhoneNumber formData.phone_number) = true then
            [("phone_number", "Please enter a valid phone number")]
          else []).map Prod.fst =
          (if isValidPhoneNumber formData.phone_number = true then [] else ["phone_number"]) := by
        by_cases hv : isValidPhoneNumber formData.phone_number = true
        · simp [hv, isValidPhoneNumber_truthy _ hv]
        · by_cases ht : formData.phone_number.truthy = true <;> simp [hv, ht]
      have pPassword : (if (!(validatePassword formData.password { minLength := 8 }).isValid)
            = true then
            [("password",
              (validatePassword formData.password { minLength := 8 }).errors.headD "undefined")]
          else []).map Prod.fst =
          (if isLongPassword formData.password = true then [] else ["password"]) := by
        rw [validatePassword_default]
        cases isLongPassword formData.password <;> rfl
      have pConfirm : (if formData.password ≠ formData.password_confirmation then
            [("password_confirmation", "Passwords do not match")]
          else []).map Prod.fst =
          (if formData.password = formData.password_confirmation then []
           else ["password_confirmation"]) := by
        by_cases hc : formData.password = formData.password_confirmation <;> simp [hc]
      have pZone : (if (!formData.timezone.truthy) = true then
            [("timezone", "Timezone is required")] else []).map Prod.fst =
          (if formData.timezone.truthy = true then [] else ["timezone"]) := by
        cases formData.timezone.truthy <;> rfl
      constructor
      · simp only [List.map_append, pName, pRole, pEmail, pPhone, pPassword, pConfirm, pZone]
        rfl
      · simp only [length_beq_zero]
        simp only [List.map_append, pName, pRole, pEmail, pPhone, pPassword, pConfirm, pZone]
        rfl

theorem violatedFields_isEmpty (formData : RegistrationForm) :
    (violatedFields formData).isEmpty = true ↔
      (hasTwoChars formData.full_name = true ∧ isValidEmail formData.email = true ∧
       isLongPassword formData.password = true ∧
       formData.password = formData.password_confirmation ∧
       hasTwoChars formData.role_title = true ∧
       isValidPhoneNumber formData.phone_number = true ∧ formData.timezone.truthy = true) := by
  unfold violatedFields
  by_cases c1 : hasTwoChars formData.full_name = true <;>
  by_cases c2 : isValidEmail formData.email = true <;>
  by_cases c3 : isLongPassword formData.password = true <;>
  by_cases c4 : formData.password = formData.password_confirmation <;>
  by_cases c5 : hasTwoChars formData.role_title = true <;>
  by_cases c6 : isValidPhoneNumber formData.phone_number = true <;>
  by_cases c7 : formData.timezone.truthy = true <;>
  simp [c1, c2, c3, c4, c5, c6, c7]

theorem keys_nodup (b1 b2 b3 b4 b5 b6 b7 : Bool) :
    ((if b1 = true then [] else ["full_name"]) ++ (if b2 = true then [] else ["email"]) ++
      (if b3 = true then [] else ["password"]) ++
      (if b4 = true then [] else ["password_confirmation"]) ++
      (if b5 = true then [] else ["role_title"]) ++
      (if b6 = true then [] else ["phone_number"]) ++
      (if b7 = true then [] else ["timezone"])).Nodup := by
  cases b1 <;> cases b2 <;> cases b3 <;> cases b4 <;> cases b5 <;> cases b6 <;> cases b7 <;>
    decide

theorem violatedFields_nodup (formData : RegistrationForm) :
    (violatedFields formData).Nodup := by
  have h := keys_nodup (hasTwoChars formData.full_name) (isValidEmail formData.email)
    (isLongPassword formData.password)
    (decide (formData.password = formData.password_confirmation))
    (hasTwoChars formData.role_title) (isValidPhoneNumber formData.phone_number)
    formData.timezone.truthy
  simpa [violatedFields] using h

theorem validateRegistration_isSome (formData : RegistrationForm) :
    (validateRegistration formData).isSome =
      (isTextOrFalsy formData.full_name && isTextOrFalsy formData.role_title) := by
  rw [← tooShort_isSome, ← tooShort_isSome]
  unfold validateRegistration
  rcases h1 : tooShort formData.full_name with _ | bn
  · simp
  · rcases h2 : tooShort formData.role_title with _ | br
    · simp
    · simp

theorem hasTwoChars_text (v : JsVal) (h : hasTwoChars v = true) : isTextOrFalsy v = true := by
  cases v with
  | str s => rfl
  | undefined => simp [hasTwoChars] at h
  | null => simp [hasTwoChars] at h
  | bool b => simp [hasTwoChars] at h
  | num n => simp [hasTwoChars] at h

/-- C20: `validateRegistration` returns `isValid = true` exactly when the trimmed `full_name`
has at least 2 characters, `email` is valid by `isValidEmail`, `password` is a string of length
at least 8, `password` equals `password_confirmation`, the trimmed `role_title` has at least 2
characters, `phone_number` is valid by `isValidPhoneNumber` and `timezone` is non-empty; whenever
it returns, the keys of `errors` are exactly the violated fields, one key each, and `isValid`
says that there is none; it returns whenever `full_name` and `role_title` are strings or
falsy. -/
theorem validateRegistration_spec (formData : RegistrationForm) :
    ((∃ r, validateRegistration formData = some r ∧ r.isValid = true) ↔
      (hasTwoChars formData.full_name = true ∧ isValidEmail formData.email = true ∧
       isLongPassword formData.password = true ∧
       formData.password = formData.password_confirmation ∧
       hasTwoChars formData.role_title = true ∧
       isValidPhoneNumber formData.phone_number = true ∧ formData.timezone.truthy = true)) ∧
    (∀ r, validateRegistration formData = some r →
      r.errors.map Prod.fst = violatedFields formData ∧ (violatedFields formData).Nodup ∧
      (r.isValid = true ↔ r.errors = [])) ∧
    (isTextOrFalsy formData.full_name = true → isTextOrFalsy formData.role_title = true →
      ∃ r, validateRegistration formData = some r) := by
  have hsome : isTextOrFalsy formData.full_name = true →
      isTextOrFalsy formData.role_title = true → ∃ r, validateRegistration formData = some r := by
    intro h1 h2
    have h := validateRegistration_isSome formData
    rw [h1, h2] at h
    exact Option.isSome_iff_exists.1 h
  refine ⟨?_, ?_, hsome⟩
  · constructor
    · rintro ⟨r, hr, hv⟩
      have hk := (validateRegistration_keys formData r hr).2
      rw [hv] at hk
      exact (violatedFields_isEmpty formData).1 hk.symm
    · intro h
      obtain ⟨r, hr⟩ := hsome (hasTwoChars_text _ h.1) (hasTwoChars_text _ h.2.2.2.2.1)
      refine ⟨r, hr, ?_⟩
      rw [(validateRegistration_keys formData r hr).2]
      exact (violatedFields_isEmpty formData).2 h
  · intro r hr
    obtain ⟨hk, hv⟩ := validateRegistration_keys formData r hr
    refine ⟨hk, ?_, ?_⟩
    · exact violatedFields_nodup formData
    · rw [hv, ← hk]
      cases r.errors <;> simp

/-- Witness of C20: a form that passes, and one with a short password, a different confirmation
and no time zone. -/
theorem validateRegistration_spec_witness :
    (∃ r, validateRegistration goodForm = some r ∧ r.isValid = true) ∧
    (∃ r, validateRegistration badForm = some r ∧
      r.errors.map Prod.fst = ["password", "password_confirmation", "timezone"]) :=
  have hbad := (validateRegistration_spec badForm).2.2 (by decide) (by decide)
  ⟨(validateRegistration_spec goodForm).1.2 (by decide),
   hbad.elim (fun r hr =>
     ⟨r, hr, (((validateRegistration_spec badForm).2.1 r hr).1).trans (by decide)⟩)⟩

/-! ## The branches of `formatAuthError` -/

/-- The branches of `formatAuthError` in which a value is found: the generic message for a
falsy input (the empty string included) and for a truthy primitive that is not a string, and a
string that is not empty itself; for an object the message when that is truthy, else, when the
`error` field is truthy, that field if it is a string and `An error occurred` if it is not,
else, when `errors` is an object whose first value is an array with a first element, that
element, and when the first value is not an array, that value, else, when `errors` is not an
object, the generic message.  The answer to a primitive is a string, and so is the answer to an
object with a falsy message that has a truthy `error` field or whose `errors` is not an
object. -/
theorem formatAuthError_cases :
    (∀ v : JsVal, v.truthy = false →
      formatAuthError (AuthError.prim v) = JsAny.prim (JsVal.str "An unexpected error occurred")) ∧
    (∀ s : String, s ≠ "" →
      formatAuthError (AuthError.prim (JsVal.str s)) = JsAny.prim (JsVal.str s)) ∧
    (∀ v : JsVal, v.truthy = true → (JsAny.prim v).isString = false →
      formatAuthError (AuthError.prim v) = JsAny.prim (JsVal.str "An unexpected error occurred")) ∧
    (∀ o : ErrorObject, o.message.truthy = true →
      formatAuthError (AuthError.object o) = o.message) ∧
    (∀ o : ErrorObject, o.message.truthy = false → o.error.truthy = true →
      formatAuthError (AuthError.object o) =
        if o.error.isString then o.error else JsAny.prim (JsVal.str "An error occurred")) ∧
    (∀ (o : ErrorObject) (m : JsAny) (rest : List JsAny) (more : List ValidationEntry),
      o.message.truthy = false → o.error.truthy = false →
      o.errors = ErrorsField.object (ValidationEntry.array (m :: rest) :: more) →
      formatAuthError (AuthError.object o) = m) ∧
    (∀ (o : ErrorObject) (v : JsAny) (more : List ValidationEntry),
      o.message.truthy = false → o.error.truthy = false →
      o.errors = ErrorsField.object (ValidationEntry.other v :: more) →
      formatAuthError (AuthError.object o) = v) ∧
    (∀ o : ErrorObject, o.message.truthy = false → o.error.truthy = false →
      (∀ values, o.errors ≠ ErrorsField.object values) →
      formatAuthError (AuthError.object o) =
        JsAny.prim (JsVal.str "An unexpected error occurred")) ∧
    (∀ v : JsVal, (formatAuthError (AuthError.prim v)).isString = true) ∧
    (∀ o : ErrorObject, o.message.truthy = false →
      (o.error.truthy = true ∨ ∀ values, o.errors ≠ ErrorsField.object values) →
      (formatAuthError (AuthError.object o)).isString = true) := by
  have hnot : ∀ o : ErrorObject, o.message.truthy = false → o.error.truthy = false →
      (∀ values, o.errors ≠ ErrorsField.object values) →
      formatAuthError (AuthError.object o) =
        JsAny.prim (JsVal.str "An unexpected error occurred") := by
    intro o h1 h2 h3
    rcases he : o.errors with v | _ | values
    · simp [formatAuthError, h1, h2, he]
    · simp [formatAuthError, h1, h2, he]
    · exact absurd he (h3 values)
  have herr : ∀ o : ErrorObject, o.message.truthy = false → o.error.truthy = true →
      formatAuthError (AuthError.object o) =
        if o.error.isString then o.error else JsAny.prim (JsVal.str "An error occurred") := by
    intro o h1 h2
    have h2' := h2
    rcases he : o.error with v | _
    · rw [he] at h2'
      cases v <;> simp [formatAuthError, h1, he, h2', JsAny.isString]
    · have ht : JsAny.object.truthy = true := rfl
      simp [formatAuthError, h1, he, JsAny.isString, ht]
  refine ⟨?_, ?_, ?_, ?_, herr, ?_, ?_, hnot, ?_, ?_⟩
  · intro v hv
    simp [formatAuthError, hv]
  · intro s hs
    simp [formatAuthError, JsVal.truthy, hs]
  · intro v hv hs
    cases v <;> simp_all [formatAuthError, JsAny.isString]
  · intro o h
    simp [formatAuthError, h]
  · intro o m rest more h1 h2 h3
    simp [formatAuthError, h1, h2, h3]
  · intro o v more h1 h2 h3
    simp [formatAuthError, h1, h2, h3]
  · intro v
    by_cases hv : v.truthy = true
    · cases v <;> simp_all [formatAuthError, JsAny.isString]
    · cases v <;> simp_all [formatAuthError, JsAny.isString]
  · intro o h1 h2
    by_cases he : o.error.truthy = true
    · rw [herr o h1 he]
      by_cases hs : o.error.isString = true
      · simp [hs]
      · rw [if_neg hs]; rfl
    · rcases h2 with h2 | h2
      · exact absurd h2 he
      · rw [hnot o h1 (by simpa using he) h2]; rfl

/-- The branches of `formatAuthError` at concrete errors: the empty string, a message, an
`error` code, a validation message, and an object without any of the three fields. -/
theorem formatAuthError_cases_examples :
    formatAuthError (AuthError.prim (JsVal.str "")) =
      JsAny.prim (JsVal.str "An unexpected error occurred") ∧
    formatAuthError (AuthError.prim (JsVal.str "Invalid credentials")) =
      JsAny.prim (JsVal.str "Invalid credentials") ∧
    formatAuthError (AuthError.prim (JsVal.bool true)) =
      JsAny.prim (JsVal.str "An unexpected error occurred") ∧
    formatAuthError (AuthError.object networkError) = JsAny.prim (JsVal.str "Failed to fetch") ∧
    formatAuthError (AuthError.object codedError) = JsAny.prim (JsVal.str "An error occurred") ∧
    formatAuthError (AuthError.object emailTaken) =
      JsAny.prim (JsVal.str "The email has already been taken.") ∧
    formatAuthError (AuthError.object tooManyAttempts) =
      JsAny.prim (JsVal.str "Too many attempts") ∧
    formatAuthError (AuthError.object { }) =
      JsAny.prim (JsVal.str "An unexpected error occurred") ∧
    (formatAuthError (AuthError.object codedError)).isString = true :=
  ⟨formatAuthError_cases.1 (JsVal.str "") rfl,
   formatAuthError_cases.2.1 "Invalid credentials" (by decide),
   formatAuthError_cases.2.2.1 (JsVal.bool true) rfl rfl,
   formatAuthError_cases.2.2.2.1 networkError rfl,
   formatAuthError_cases.2.2.2.2.1 codedError rfl rfl,
   formatAuthError_cases.2.2.2.2.2.1 emailTaken _ [] [] rfl rfl rfl,
   formatAuthError_cases.2.2.2.2.2.2.1 tooManyAttempts _ [] rfl rfl rfl,
   formatAuthError_cases.2.2.2.2.2.2.2.1 { } rfl rfl (fun values h => by cases h),
   formatAuthError_cases.2.2.2.2.2.2.2.2.2 codedError rfl (Or.inl rfl)⟩

/-! ## C21: the formatted error -/

/-- C21 fails on the code: for an error whose `errors` object has no entry, and for one whose
first entry is an empty array, `formatAuthError` answers `undefined`, which is not a string and
not the generic message that the last line of the function returns. -/
theorem formatAuthError_undefined :
    formatAuthError noValidationEntry = JsAny.prim JsVal.undefined ∧
    formatAuthError emptyValidationEntry = JsAny.prim JsVal.undefined ∧
    (formatAuthError noValidationEntry).isString = false ∧
    (formatAuthError emptyValidationEntry).isString = false ∧
    formatAuthError noValidationEntry ≠ JsAny.prim (JsVal.str "An unexpected error occurred") ∧
    formatAuthError emptyValidationEntry ≠
      JsAny.prim (JsVal.str "An unexpected error occurred") := by
  decide

/-! ## The words of a name -/

/-- The scan of `split` never answers the empty list. -/
theorem splitSpacesFrom_ne_nil (l : List Nat) :
    ∀ (cur : List Nat) (b : Bool), splitSpacesFrom cur b l ≠ [] := by
  induction l with
  | nil => intro cur b; simp [splitSpacesFrom]
  | cons x xs ih =>
    intro cur b
    by_cases hx : isSpaceUnit x = true
    · cases b <;> simp [splitSpacesFrom, hx, ih]
    · simp [splitSpacesFrom, hx, ih]

/-- The parts of `split` that are not empty are the words. -/
theorem filter_splitSpacesFrom (l : List Nat) :
    (∀ cur, (splitSpacesFrom cur false l).filter (fun w => !w.isEmpty) =
      ((l.splitOnP isSpaceUnit).modifyHead (cur ++ ·)).filter (fun w => !w.isEmpty)) ∧
    (splitSpacesFrom [] true l).filter (fun w => !w.isEmpty) =
      (l.splitOnP isSpaceUnit).filter (fun w => !w.isEmpty) := by
  induction l with
  | nil => simp [splitSpacesFrom, List.modifyHead]
  | cons x xs ih =>
    obtain ⟨ih1, ih2⟩ := ih
    by_cases hx : isSpaceUnit x = true
    · constructor
      · intro cur
        simp [splitSpacesFrom, hx, ih2, List.filter_cons, List.modifyHead]
      · simp [splitSpacesFrom, hx, ih2, List.filter_cons]
    · constructor
      · intro cur
        simp only [splitSpacesFrom, hx, List.splitOnP_cons, if_false, Bool.false_eq_true]
        rw [ih1]
        rcases h : xs.splitOnP isSpaceUnit with _ | ⟨a, t⟩
        · exact absurd h (List.splitOnP_ne_nil _ _)
        · simp [List.modifyHead]
      · simp only [splitSpacesFrom, hx, List.splitOnP_cons, if_false, Bool.false_eq_true]
        rw [ih1]
        rcases h : xs.splitOnP isSpaceUnit with _ | ⟨a, t⟩
        · exact absurd h (List.splitOnP_ne_nil _ _)
        · simp [List.modifyHead]

/-- A text that neither starts nor ends with white space splits into parts none of which is
empty. -/
theorem splitSpacesFrom_parts (l : List Nat) :
    (∀ cur, (cur ≠ [] ∨ ∃ x, l.head? = some x ∧ isSpaceUnit x = false) →
        (∀ y, l.getLast? = some y → isSpaceUnit y = false) →
        ∀ w ∈ splitSpacesFrom cur false l, w ≠ []) ∧
    (l ≠ [] → (∀ y, l.getLast? = some y → isSpaceUnit y = false) →
        ∀ w ∈ splitSpacesFrom [] true l, w ≠ []) := by
  induction l with
  | nil =>
    constructor
    · intro cur h _ w hw
      simp [splitSpacesFrom] at hw
      subst hw
      rcases h with h | ⟨x, hx, _⟩
      · exact h
      · simp at hx
    · intro h; exact absurd rfl h
  | cons x xs ih =>
    obtain ⟨ih1, ih2⟩ := ih
    have hlast : (∀ y, (x :: xs).getLast? = some y → isSpaceUnit y = false) → xs ≠ [] →
        ∀ y, xs.getLast? = some y → isSpaceUnit y = false := by
      intro h hne y hy
      apply h
      rcases xs with _ | ⟨z, zs⟩
      · exact absurd rfl hne
      · rw [List.getLast?_cons_cons]; exact hy
    by_cases hx : isSpaceUnit x = true
    · have hne : (∀ y, (x :: xs).getLast? = some y → isSpaceUnit y = false) → xs ≠ [] := by
        intro h he
        subst he
        have := h x rfl
        simp [hx] at this
      constructor
      · intro cur h hl w hw
        simp only [splitSpacesFrom, hx, if_true, Bool.false_eq_true, if_false,
          List.mem_cons] at hw
        rcases hw with hw | hw
        · subst hw
          rcases h with h | ⟨y, hy, hy'⟩
          · exact h
          · simp at hy; subst hy; simp [hx] at hy'
        · exact ih2 (hne hl) (hlast hl (hne hl)) w hw
      · intro _ hl w hw
        simp only [splitSpacesFrom, hx, if_true] at hw
        exact ih2 (hne hl) (hlast hl (hne hl)) w hw
    · have key : (∀ y, (x :: xs).getLast? = some y → isSpaceUnit y = false) →
          ∀ cur, ∀ w ∈ splitSpacesFrom (cur ++ [x]) false xs, w ≠ [] := by
        intro hl cur w hw
        refine ih1 (cur ++ [x]) (Or.inl (by simp)) ?_ w hw
        intro y hy
        apply hlast hl ?_ y hy
        intro he; subst he; simp at hy
      constructor
      · intro cur _ hl w hw
        simp only [splitSpacesFrom, hx, if_false, Bool.false_eq_true] at hw
        exact key hl cur w hw
      · intro _ hl w hw
        simp only [splitSpacesFrom, hx, if_false, Bool.false_eq_true] at hw
        exact key hl [] w hw

/-- White space in front of a text adds no word. -/
theorem wordsOf_dropWhile (l : List Nat) : wordsOf (l.dropWhile isSpaceUnit) = wordsOf l := by
  induction l with
  | nil => rfl
  | cons x xs ih =>
    by_cases hx : isSpaceUnit x = true
    · rw [List.dropWhile_cons_of_pos hx, ih]
      simp [wordsOf, hx, List.filter_cons]
    · rw [List.dropWhile_cons_of_neg hx]

/-- Splitting a text that ends with a white space. -/
theorem splitOnP_concat (l : List Nat) (x : Nat) (hx : isSpaceUnit x = true) :
    (l ++ [x]).splitOnP isSpaceUnit = l.splitOnP isSpaceUnit ++ [[]] := by
  induction l with
  | nil => simp [hx]
  | cons y ys ih =>
    rw [List.cons_append, List.splitOnP_cons, List.splitOnP_cons, ih]
    by_cases hy : isSpaceUnit y = true
    · simp [hy]
    · rcases h : ys.splitOnP isSpaceUnit with _ | ⟨a, t⟩
      · exact absurd h (List.splitOnP_ne_nil _ _)
      · simp [hy, List.modifyHead]

/-- White space at the end of a text adds no word. -/
theorem wordsOf_rdropWhile (l : List Nat) : wordsOf (l.rdropWhile isSpaceUnit) = wordsOf l := by
  induction l using List.reverseRecOn with
  | nil => rfl
  | append_singleton xs x ih =>
    by_cases hx : isSpaceUnit x = true
    · rw [List.rdropWhile_concat_pos _ _ _ hx, ih]
      simp [wordsOf, splitOnP_concat xs x hx]
    · rw [List.rdropWhile_concat_neg _ _ _ hx]

/-- The words of a trimmed text are the words of the text. -/
theorem wordsOf_trimUnits (u : List Nat) : wordsOf (trimUnits u) = wordsOf u := by
  have h : trimUnits u = (u.dropWhile isSpaceUnit).rdropWhile isSpaceUnit := rfl
  rw [h, wordsOf_rdropWhile, wordsOf_dropWhile]

/-- A trimmed text that is not empty neither starts nor ends with white space. -/
theorem trimUnits_clean (u : List Nat) (hne : trimUnits u ≠ []) :
    (∃ x, (trimUnits u).head? = some x ∧ isSpaceUnit x = false) ∧
    (∀ y, (trimUnits u).getLast? = some y → isSpaceUnit y = false) := by
  have h : trimUnits u = (u.dropWhile isSpaceUnit).rdropWhile isSpaceUnit := rfl
  rw [h] at hne ⊢
  constructor
  · obtain ⟨t, ht⟩ := List.rdropWhile_prefix isSpaceUnit (l := u.dropWhile isSpaceUnit)
    rcases hr : (u.dropWhile isSpaceUnit).rdropWhile isSpaceUnit with _ | ⟨x, xs⟩
    · exact absurd hr hne
    · refine ⟨x, rfl, ?_⟩
      have h2 := List.head?_dropWhile_not isSpaceUnit u
      rw [← ht, hr] at h2
      simpa using h2
  · intro y hy
    have h2 := List.rdropWhile_last_not isSpaceUnit (l := u.dropWhile isSpaceUnit) hne
    rw [List.getLast?_eq_getLast _ hne] at hy
    simp only [Option.some.injEq] at hy
    rw [hy] at h2
    simpa using h2

/-- The parts `getUserInitials` works with are the words of the name, and one empty part when
the name has no word. -/
theorem splitSpaces_trimUnits (u : List Nat) :
    splitSpaces (trimUnits u) = if wordsOf u = [] then [[]] else wordsOf u := by
  by_cases hne : trimUnits u = []
  · have hw : wordsOf u = [] := by rw [← wordsOf_trimUnits, hne]; rfl
    rw [hne, hw]; rfl
  · obtain ⟨hhead, hlast⟩ := trimUnits_clean u hne
    have hparts := (splitSpacesFrom_parts (trimUnits u)).1 [] (Or.inr hhead) hlast
    have hfilter := (filter_splitSpacesFrom (trimUnits u)).1 []
    have hmod : List.modifyHead (fun x => [] ++ x) (List.splitOnP isSpaceUnit (trimUnits u)) =
        List.splitOnP isSpaceUnit (trimUnits u) := by
      rcases List.splitOnP isSpaceUnit (trimUnits u) with _ | ⟨a, t⟩ <;> simp [List.modifyHead]
    have hself : (splitSpacesFrom [] false (trimUnits u)).filter (fun w => !w.isEmpty) =
        splitSpacesFrom [] false (trimUnits u) := by
      rw [List.filter_eq_self]
      intro w hw
      have := hparts w hw
      cases w <;> simp_all
    have hsplit : splitSpaces (trimUnits u) = wordsOf u := by
      rw [← wordsOf_trimUnits, wordsOf, ← hmod, ← hfilter, hself]; rfl
    have hw : wordsOf u ≠ [] := by
      rw [← hsplit]; exact splitSpacesFrom_ne_nil _ _ _
    rw [hsplit, if_neg hw]

/-- The members of `wordsOf` are not empty. -/
theorem wordsOf_ne_nil (u w : List Nat) (h : w ∈ wordsOf u) : w ≠ [] := by
  simp only [wordsOf, List.mem_filter] at h
  intro he
  rw [he] at h
  simp at h

/-- The value `a || b` of two values that are strings or falsy is a string or falsy. -/
theorem isTextOrFalsy_or (a b : JsVal) (ha : isTextOrFalsy a = true)
    (hb : isTextOrFalsy b = true) : isTextOrFalsy (a.or b) = true := by
  unfold JsVal.or
  split <;> assumption

/-- A string or falsy value, with the empty string as its default, is a string. -/
theorem isTextOrFalsy_or_empty (a : JsVal) (ha : isTextOrFalsy a = true) :
    ∃ name, a.or (JsVal.str "") = JsVal.str name := by
  cases a with
  | str s => by_cases hs : s = "" <;> simp [JsVal.or, JsVal.truthy, hs]
  | _ => simp_all [isTextOrFalsy, JsVal.or, JsVal.truthy]

/-- A string that is the name is the value `getUserInitials` trims. -/
theorem name_or_empty (v : JsVal) (name : String) (h : v = JsVal.str name) :
    v.or (JsVal.str "") = JsVal.str name := by
  subst h
  by_cases hn : name = "" <;> simp [JsVal.or, JsVal.truthy, hn]

/-- The code units of a string that is not empty. -/
theorem toUnits_ne_nil (s : String) (h : s ≠ "") : toUnits s ≠ [] := by
  rcases s with ⟨data⟩
  rcases data with _ | ⟨c, cs⟩
  · exact absurd rfl h
  · simp only [toUnits, List.flatMap_cons]
    split <;> simp

/-- The last resort of `getUserInitials`: two units of the email address, or the question
mark. -/
theorem initials_of_email (toUpperCase : List Nat → List Nat)
    (hup : ∀ u, u ≠ [] → toUpperCase u ≠ []) (email : JsVal)
    (h : isTextOrFalsy email = true) :
    ∃ r, (if email.truthy then
        match email with
        | JsVal.str email => some (toUpperCase ((toUnits email).take 2))
        | _ => none
      else some (toUnits "?")) = some r ∧ r ≠ [] := by
  by_cases ht : email.truthy = true
  · rw [if_pos ht]
    cases email <;> simp_all [isTextOrFalsy]
    rename_i s
    apply hup
    have hs : s ≠ "" := by simpa [JsVal.truthy] using ht
    have := toUnits_ne_nil s hs
    rcases hu : toUnits s with _ | ⟨c, cs⟩
    · exact absurd hu this
    · simp
  · rw [if_neg ht]
    exact ⟨_, rfl, by decide⟩

/-! ## C22: the initials of a user -/

/-- C22: `getUserInitials` answers `?` for a missing user; for a user whose name (`full_name`,
else `username`, else `email`) has at least two white-space separated words it answers the upper
case of the first unit of the first word followed by the first unit of the last word; for a
name of one word of at least two units it answers the upper case of the first two units of the
word; and for every user whose three fields are strings or falsy it answers, and its answer is
not empty (the upper case of a text that is not empty being not empty). -/
theorem getUserInitials_spec (toUpperCase : List Nat → List Nat) :
    getUserInitials toUpperCase none = some (toUnits "?") ∧
    (∀ (user : User) (name : String) (a b : Nat) (first last : List Nat)
        (middle : List (List Nat)),
      user.name = JsVal.str name →
      wordsOf (toUnits name) = (a :: first) :: (middle ++ [b :: last]) →
      getUserInitials toUpperCase (some user) = some (toUpperCase [a, b])) ∧
    (∀ (user : User) (name : String) (word : List Nat),
      user.name = JsVal.str name → wordsOf (toUnits name) = [word] → 2 ≤ word.length →
      getUserInitials toUpperCase (some user) = some (toUpperCase (word.take 2))) ∧
    ((∀ u, u ≠ [] → toUpperCase u ≠ []) →
      ∀ user : User, isTextOrFalsy user.full_name = true → isTextOrFalsy user.username = true →
        isTextOrFalsy user.email = true →
        ∃ r, getUserInitials toUpperCase (some user) = some r ∧ r ≠ []) := by
  refine ⟨rfl, ?_, ?_, ?_⟩
  · intro user name a b first last middle hname hwords
    have hv := name_or_empty _ name hname
    simp only [User.name] at hv
    have hl : ((a :: first) :: (middle ++ [b :: last])).getLast? = some (b :: last) := by
      rw [← List.cons_append, List.getLast?_concat]
    simp only [getUserInitials, hv, splitSpaces_trimUnits, hwords]
    simp [hl, firstUnitText]
  · intro user name word hname hwords hlen
    have hv := name_or_empty _ name hname
    simp only [User.name] at hv
    simp only [getUserInitials, hv, splitSpaces_trimUnits, hwords]
    simp [hlen]
  · intro hup user h1 h2 h3
    obtain ⟨name, hv⟩ := isTextOrFalsy_or_empty _
      (isTextOrFalsy_or _ _ (isTextOrFalsy_or _ _ h1 h2) h3)
    simp only [getUserInitials, hv, splitSpaces_trimUnits]
    have hmail := initials_of_email toUpperCase hup user.email h3
    rcases hw : wordsOf (toUnits name) with _ | ⟨w, rest⟩
    · simpa using hmail
    · have hwne : w ≠ [] := wordsOf_ne_nil (toUnits name) w (by rw [hw]; simp)
      rcases rest with _ | ⟨w2, rest2⟩
      · by_cases hlen : 2 ≤ w.length
        · refine ⟨toUpperCase (w.take 2), by simp [hlen], ?_⟩
          apply hup
          rcases w with _ | ⟨c, cs⟩
          · exact absurd rfl hwne
          · simp
        · simpa [hlen] using hmail
      · have hlast : ∃ l, (w :: w2 :: rest2).getLast? = some l ∧ l ≠ [] := by
          refine ⟨(w :: w2 :: rest2).getLast (by simp), List.getLast?_eq_getLast _ _, ?_⟩
          apply wordsOf_ne_nil (toUnits name)
          rw [hw]
          exact List.getLast_mem _
        obtain ⟨l, hl, hlne⟩ := hlast
        rcases w with _ | ⟨c, cs⟩
        · exact absurd rfl hwne
        · rcases l with _ | ⟨d, ds⟩
          · exact absurd rfl hlne
          · refine ⟨toUpperCase [c, d], ?_, hup _ (by simp)⟩
            simp only [if_neg (List.cons_ne_nil _ _), hl]
            simp [firstUnitText]

/-- The theorem `getUserInitials_spec` with the ASCII upper case: the initials of `John Doe`
are `JD`, those of `alice` are `AL`, and the answer for `John Doe` is not empty. -/
theorem getUserInitials_spec_witness :
    getUserInitials asciiUpper (some johnDoe) = some (toUnits "JD") ∧
    getUserInitials asciiUpper (some alice) = some (toUnits "AL") ∧
    (∃ r, getUserInitials asciiUpper (some johnDoe) = some r ∧ r ≠ []) :=
  ⟨((getUserInitials_spec asciiUpper).2.1 johnDoe "John Doe" 74 68 (toUnits "ohn")
      (toUnits "oe") [] (by decide) (by decide)).trans (by decide),
   ((getUserInitials_spec asciiUpper).2.2.1 alice "alice" (toUnits "alice") (by decide)
      (by decide) (by decide)).trans (by decide),
   (getUserInitials_spec asciiUpper).2.2.2 (fun u hu => by simpa [asciiUpper] using hu)
      johnDoe (by decide) (by decide) (by decide)⟩

/-! ## C23: the token store -/

/-- C23: over a storage `ls`: while the storage works, `setToken(t)` with a non-empty string `t`
returns `true`, and afterwards `getToken()` returns `t` and `hasToken()` is `true`; `setToken`
with a falsy token (empty, `undefined`, `null`) returns `false` and leaves the storage as it
was; while the storage works, `removeToken()` returns `true` and afterwards `getToken()` returns
`null` and `hasToken()` is `false`, and `clearAuthData()` is `removeToken()`; when the storage
operation throws, each function still returns a value (`null` for `getToken`, `false` for the
others) and the storage is as it was. -/
theorem token_store (ls : LocalStorage) :
    (∀ t : String, t ≠ "" → ls.throws = false → ls.quotaExceeded = false →
      (setToken ls (JsVal.str t)).1 = true ∧
      getToken (setToken ls (JsVal.str t)).2 = some t ∧
      hasToken (setToken ls (JsVal.str t)).2 = true) ∧
    (∀ token : JsVal, token.truthy = false → setToken ls token = (false, ls)) ∧
    (ls.throws = false →
      (removeToken ls).1 = true ∧
      getToken (removeToken ls).2 = none ∧
      hasToken (removeToken ls).2 = false) ∧
    clearAuthData ls = removeToken ls ∧
    (ls.throws = true →
      getToken ls = none ∧ hasToken ls = false ∧
      (∀ token : JsVal, setToken ls token = (false, ls)) ∧
      removeToken ls = (false, ls)) ∧
    (ls.quotaExceeded = true → ∀ token : JsVal, setToken ls token = (false, ls)) := by
  refine ⟨?_, ?_, ?_, rfl, ?_, ?_⟩
  · intro t ht h1 h2
    have hs : getToken (setToken ls (JsVal.str t)).2 = some t := by
      simp [setToken, getToken, JsVal.truthy, JsVal.toStr, ht, h1, h2, getItem_setItem]
    refine ⟨by simp [setToken, JsVal.truthy, ht, h1, h2], hs, ?_⟩
    simp [hasToken, hs, itemVal, JsVal.truthy, ht]
  · intro token ht
    simp [setToken, ht]
  · intro h1
    have hs : getToken (removeToken ls).2 = none := by
      simp [removeToken, getToken, h1, getItem_removeItem]
    refine ⟨by simp [removeToken, h1], hs, ?_⟩
    simp [hasToken, hs, itemVal, JsVal.truthy]
  · intro h1
    refine ⟨by simp [getToken, h1], by simp [hasToken, getToken, h1, itemVal, JsVal.truthy],
      ?_, by simp [removeToken, h1]⟩
    intro token
    by_cases ht : token.truthy <;> simp [setToken, ht, h1]
  · intro h2 token
    by_cases ht : token.truthy <;> simp [setToken, ht, h2]

/-- The theorem `token_store` at concrete storages: a token set in a working storage is read
back, and a disabled storage makes every function answer without throwing. -/
theorem token_store_witness :
    ((setToken loggedOut (JsVal.str "t0k")).1 = true ∧
      getToken (setToken loggedOut (JsVal.str "t0k")).2 = some "t0k" ∧
      hasToken (setToken loggedOut (JsVal.str "t0k")).2 = true) ∧
    setToken loggedIn JsVal.undefined = (false, loggedIn) ∧
    getToken (removeToken loggedIn).2 = none ∧
    (getToken disabledStorage = none ∧ removeToken disabledStorage = (false, disabledStorage)) ∧
    setToken fullStorage (JsVal.str "t0k") = (false, fullStorage) :=
  ⟨(token_store loggedOut).1 "t0k" (by decide) rfl rfl,
   (token_store loggedIn).2.1 JsVal.undefined rfl,
   ((token_store loggedIn).2.2.1 rfl).2.1,
   ⟨((token_store disabledStorage).2.2.2.2.1 rfl).1,
    ((token_store disabledStorage).2.2.2.2.1 rfl).2.2.2⟩,
   (token_store fullStorage).2.2.2.2.2 rfl (JsVal.str "t0k")⟩

/-! ## C24: a 401 answer -/

/-- Every answer with status 401 makes `apiRequest` fail with an error; the stored token is
removed when the answer is declared as JSON and its body parses, and the storage is left as it
was otherwise. -/
theorem apiRequest_401 (ls : LocalStorage) (msg : String) (response : Response)
    (h : response.status = 401) :
    (∃ m, (apiRequestResult ls msg (Outcome.resolved response)).result = Outcome.rejected m) ∧
    (apiRequestResult ls msg (Outcome.resolved response)).storage =
      (if response.notJson then ls
       else match response.json with
         | Outcome.rejected _ => ls
         | Outcome.resolved _ => (removeToken ls).2) := by
  have hok : response.ok = false := by simp [Response.ok, h]
  unfold apiRequestResult
  by_cases hj : response.notJson = true
  · simp [hj, hok]
  · rcases hr : response.json with m | data <;> simp [hj, hr, h]

/-- C24 fails on the code: for a 401 answer that is an HTML page, and for a 401 answer declared
as JSON whose body does not parse, `apiRequest` fails with an error but leaves the stored token
in place and does not go to the login page; the token is removed for a 401 answer with a JSON
body. -/
theorem apiRequest_401_keeps_token :
    apiRequestResult loggedIn "" (Outcome.resolved htmlUnauthorized) =
      { result := Outcome.rejected "HTTP error! status: 401", storage := loggedIn,
        location := none } ∧
    apiRequestResult loggedIn "" (Outcome.resolved brokenUnauthorized) =
      { result := Outcome.rejected "Unexpected end of JSON input", storage := loggedIn,
        location := none } ∧
    getToken loggedIn = some "abc" ∧
    apiRequestResult loggedIn "" (Outcome.resolved jsonUnauthorized) =
      { result := Outcome.rejected "Unauthorized", storage := loggedOut,
        location := some "/login" } := by
  decide

/-! ## The dashboard: filter and statistics -/

/-- With an empty search term the filter shows the tasks that are not archived and match the
filter option. -/
theorem filteredTasks_empty_term (dates : DateEngine) (toLowerCase : String → String)
    (now : Int) (tasks : List Task) (filterPriority : String) (h : toLowerCase "" = "") :
    filteredTasks dates toLowerCase now tasks "" filterPriority =
      (liveTasks tasks).filter (matchesFilter dates now filterPriority) := by
  have ht : toLowerCase (jsTrim "") = "" := by
    have : jsTrim "" = "" := by decide
    rw [this, h]
  simp only [filteredTasks, liveTasks, ht, List.filter_filter]
  apply List.filter_congr
  intro task _
  by_cases ha : (task.status == JsVal.str "archived") = true
  · simp [ha]
  · by_cases hm : matchesFilter dates now filterPriority task = true <;> simp [ha, hm]

/-- The length of a filtered list, as a sum. -/
theorem length_filter_sum (p : Task → Bool) (l : List Task) :
    (l.filter p).length = (l.map (fun t => if p t then 1 else 0)).sum := by
  induction l with
  | nil => rfl
  | cons a l ih =>
    by_cases ha : p a = true
    · simp [List.filter_cons, ha, ih]; omega
    · simp [List.filter_cons, ha, ih]

/-- One more task adds to every counter what it adds to the counters at zero. -/
theorem countTask_add (dates : DateEngine) (now : Int) (c : Counts) (task : Task) :
    (countTask dates now c task).dueToday =
      c.dueToday + (countTask dates now noCounts task).dueToday ∧
    (countTask dates now c task).late = c.late + (countTask dates now noCounts task).late ∧
    (countTask dates now c task).upcoming =
      c.upcoming + (countTask dates now noCounts task).upcoming ∧
    (countTask dates now c task).highPriority =
      c.highPriority + (countTask dates now noCounts task).highPriority := by
  unfold countTask noCounts
  rcases hp : task.parsed dates with _ | t
  · by_cases h1 : task.isHighPriority = true <;> by_cases h2 : task.hasFollowUp = true <;>
      simp [h1, h2]
  · by_cases h1 : task.isHighPriority = true <;> by_cases h2 : task.hasFollowUp = true <;>
      by_cases h3 : (dates.isoDay t == dates.isoDay now) = true <;>
      by_cases h4 : t < now <;> by_cases h5 : t > now <;> simp [h1, h2, h3, h4, h5]

/-- The counters after the loop over a task list. -/
theorem foldl_countTask (dates : DateEngine) (now : Int) (tasks : List Task) :
    ∀ c : Counts,
    (tasks.foldl (countTask dates now) c).dueToday =
      c.dueToday + (tasks.map (fun t => (countTask dates now noCounts t).dueToday)).sum ∧
    (tasks.foldl (countTask dates now) c).late =
      c.late + (tasks.map (fun t => (countTask dates now noCounts t).late)).sum ∧
    (tasks.foldl (countTask dates now) c).upcoming =
      c.upcoming + (tasks.map (fun t => (countTask dates now noCounts t).upcoming)).sum ∧
    (tasks.foldl (countTask dates now) c).highPriority =
      c.highPriority +
        (tasks.map (fun t => (countTask dates now noCounts t).highPriority)).sum := by
  induction tasks with
  | nil => intro c; simp
  | cons a l ih =>
    intro c
    obtain ⟨h1, h2, h3, h4⟩ := ih (countTask dates now c a)
    obtain ⟨a1, a2, a3, a4⟩ := countTask_add dates now c a
    simp only [List.foldl_cons, List.map_cons, List.sum_cons]
    rw [h1, h2, h3, h4, a1, a2, a3, a4]
    refine ⟨?_, ?_, ?_, ?_⟩ <;> omega

/-- The statistics of a task list, counter by counter. -/
theorem counts_sum (dates : DateEngine) (now : Int) (tasks : List Task) :
    (counts dates now tasks).dueToday =
      (tasks.map (fun t => (countTask dates now noCounts t).dueToday)).sum ∧
    (counts dates now tasks).late =
      (tasks.map (fun t => (countTask dates now noCounts t).late)).sum ∧
    (counts dates now tasks).upcoming =
      (tasks.map (fun t => (countTask dates now noCounts t).upcoming)).sum ∧
    (counts dates now tasks).highPriority =
      (tasks.map (fun t => (countTask dates now noCounts t).highPriority)).sum := by
  rcases tasks with _ | ⟨a, l⟩
  · simp [counts, noCounts]
  · obtain ⟨h1, h2, h3, h4⟩ := foldl_countTask dates now (a :: l) noCounts
    simp only [counts, List.length_cons, Nat.succ_ne_zero, beq_iff_eq, if_false]
    refine ⟨?_, ?_, ?_, ?_⟩
    · rw [h1]; simp [noCounts]
    · rw [h2]; simp [noCounts]
    · rw [h3]; simp [noCounts]
    · rw [h4]; simp [noCounts]

/-- What one task adds to the counters `dueToday` and `highPriority` is whether it matches the
filter options `due-today` and `high-priority`. -/
theorem countTask_matches (dates : DateEngine) (now : Int) (task : Task) :
    (countTask dates now noCounts task).dueToday =
      (if matchesFilter dates now "due-today" task then 1 else 0) ∧
    (countTask dates now noCounts task).highPriority =
      (if matchesFilter dates now "high-priority" task then 1 else 0) := by
  unfold countTask noCounts matchesFilter
  rcases hp : task.parsed dates with _ | t
  · by_cases h1 : task.isHighPriority = true <;> by_cases h2 : task.hasFollowUp = true <;>
      simp [h1, h2]
  · by_cases h1 : task.isHighPriority = true <;> by_cases h2 : task.hasFollowUp = true <;>
      by_cases h3 : (dates.isoDay t == dates.isoDay now) = true <;>
      by_cases h4 : t < now <;> by_cases h5 : t > now <;> simp [h1, h2, h3, h4, h5]

/-- What a task that is not dated today adds to the counters `late` and `upcoming` is whether
it matches the filter options `late` and `upcoming`. -/
theorem countTask_matches_dated (dates : DateEngine) (now : Int) (task : Task)
    (h : ∀ t, task.parsed dates = some t → dates.isoDay t ≠ dates.isoDay now) :
    (countTask dates now noCounts task).late =
      (if matchesFilter dates now "late" task then 1 else 0) ∧
    (countTask dates now noCounts task).upcoming =
      (if matchesFilter dates now "upcoming" task then 1 else 0) := by
  unfold countTask noCounts matchesFilter
  rcases hp : task.parsed dates with _ | t
  · by_cases h1 : task.isHighPriority = true <;> by_cases h2 : task.hasFollowUp = true <;>
      simp [h1, h2]
  · have h3 : ¬ (dates.isoDay t == dates.isoDay now) = true := by
      simpa using h t hp
    by_cases h1 : task.isHighPriority = true <;> by_cases h2 : task.hasFollowUp = true <;>
      by_cases h4 : t < now <;> by_cases h5 : t > now <;> simp [h1, h2, h3, h4, h5] <;> omega

/-! ## Where the filter and the statistics agree -/

/-- Where the filter and the statistics agree, for one reading of the clock and an empty search
term: the number of tasks shown under `due-today` and under `high-priority` is the counter
`dueToday` and `highPriority` of the statistics of the tasks that are not archived; when no task
that is not archived has a date of today that the statistics look at, the numbers under `late`
and `upcoming` are the counters `late` and `upcoming` of those statistics; and a task list
without an archived task is the list of its tasks that are not archived. -/
theorem filter_counts_live (dates : DateEngine) (toLowerCase : String → String) (now : Int)
    (tasks : List Task) (h : toLowerCase "" = "") :
    (filteredTasks dates toLowerCase now tasks "" "due-today").length =
      (counts dates now (liveTasks tasks)).dueToday ∧
    (filteredTasks dates toLowerCase now tasks "" "high-priority").length =
      (counts dates now (liveTasks tasks)).highPriority ∧
    ((∀ task ∈ liveTasks tasks, ∀ t, task.parsed dates = some t →
        dates.isoDay t ≠ dates.isoDay now) →
      (filteredTasks dates toLowerCase now tasks "" "late").length =
        (counts dates now (liveTasks tasks)).late ∧
      (filteredTasks dates toLowerCase now tasks "" "upcoming").length =
        (counts dates now (liveTasks tasks)).upcoming) ∧
    ((∀ task ∈ tasks, task.status ≠ JsVal.str "archived") → liveTasks tasks = tasks) := by
  obtain ⟨c1, c2, c3, c4⟩ := counts_sum dates now (liveTasks tasks)
  refine ⟨?_, ?_, ?_, ?_⟩
  · rw [filteredTasks_empty_term _ _ _ _ _ h, length_filter_sum, c1]
    congr 1
    apply List.map_congr_left
    intro task _
    exact (countTask_matches dates now task).1.symm
  · rw [filteredTasks_empty_term _ _ _ _ _ h, length_filter_sum, c4]
    congr 1
    apply List.map_congr_left
    intro task _
    exact (countTask_matches dates now task).2.symm
  · intro hday
    constructor
    · rw [filteredTasks_empty_term _ _ _ _ _ h, length_filter_sum, c2]
      congr 1
      apply List.map_congr_left
      intro task hm
      exact (countTask_matches_dated dates now task (hday task hm)).1.symm
    · rw [filteredTasks_empty_term _ _ _ _ _ h, length_filter_sum, c3]
      congr 1
      apply List.map_congr_left
      intro task hm
      exact (countTask_matches_dated dates now task (hday task hm)).2.symm
  · intro hall
    unfold liveTasks
    rw [List.filter_eq_self]
    intro task hm
    simpa using hall task hm

/-- The agreement of filter and statistics at a list of an archived task and a task of the day
before: one task is shown under `late` and under `high-priority`, as the statistics of the task
that is not archived say, and the list of the second task alone has no archived task. -/
theorem filter_counts_live_examples :
    (filteredTasks sampleDates asciiLower noon [archivedUrgent, yesterdayTask] ""
        "high-priority").length =
      (counts sampleDates noon (liveTasks [archivedUrgent, yesterdayTask])).highPriority ∧
    ((filteredTasks sampleDates asciiLower noon [archivedUrgent, yesterdayTask] ""
        "late").length =
      (counts sampleDates noon (liveTasks [archivedUrgent, yesterdayTask])).late ∧
     (filteredTasks sampleDates asciiLower noon [archivedUrgent, yesterdayTask] ""
        "upcoming").length =
      (counts sampleDates noon (liveTasks [archivedUrgent, yesterdayTask])).upcoming) ∧
    (counts sampleDates noon (liveTasks [archivedUrgent, yesterdayTask])).late = 1 ∧
    liveTasks [yesterdayTask] = [yesterdayTask] :=
  ⟨(filter_counts_live sampleDates asciiLower noon [archivedUrgent, yesterdayTask] rfl).2.1,
   (filter_counts_live sampleDates asciiLower noon [archivedUrgent, yesterdayTask] rfl).2.2.1
     (by
       intro task hm t hp
       have hl : liveTasks [archivedUrgent, yesterdayTask] = [yesterdayTask] := by decide
       rw [hl, List.mem_singleton] at hm
       subst hm
       have hy : yesterdayTask.parsed sampleDates = some 1741521600000 := by decide
       rw [hy] at hp
       cases hp
       decide),
   by decide,
   (filter_counts_live sampleDates asciiLower noon [yesterdayTask] rfl).2.2.2
     (by decide)⟩

/-- An archived task is counted by the statistics and never shown by the filter. -/
theorem archived_counted_not_shown :
    (filteredTasks sampleDates asciiLower noon [archivedUrgent] "" "high-priority").length = 0 ∧
    (counts sampleDates noon [archivedUrgent]).highPriority = 1 := by
  decide

/-! ## C25: the filter and the statistics -/

/-- C25 fails on the code: at noon an open task due in the morning of the same day is shown
under `late` while `counts.late` is 0 (it is counted in `counts.dueToday` alone), and an open
task due in the evening is shown under `upcoming` while `counts.upcoming` is 0; on a list with
these two tasks, an archived task and a task of the day before, `late` shows two tasks and
`upcoming` one, and the counters are 1 and 0. -/
theorem filter_counts_differ :
    ((filteredTasks sampleDates asciiLower noon [morningTask] "" "late").length = 1 ∧
      (counts sampleDates noon [morningTask]).late = 0 ∧
      (counts sampleDates noon [morningTask]).dueToday = 1) ∧
    ((filteredTasks sampleDates asciiLower noon [eveningTask] "" "upcoming").length = 1 ∧
      (counts sampleDates noon [eveningTask]).upcoming = 0) ∧
    (filteredTasks sampleDates asciiLower noon sampleTasks "" "late" =
        [morningTask, yesterdayTask] ∧
      (counts sampleDates noon sampleTasks).late = 1 ∧
      (filteredTasks sampleDates asciiLower noon sampleTasks "" "upcoming").length = 1 ∧
      (counts sampleDates noon sampleTasks).upcoming = 0) := by
  decide

/-! ## C26: what the filter shows -/

/-- C26: for every task list, search term and filter option, `filteredTasks` holds no task
whose status is `archived`, and it is a sub-sequence of the task list, in the order of the
list. -/
theorem filteredTasks_sublist (dates : DateEngine) (toLowerCase : String → String) (now : Int)
    (tasks : List Task) (searchTerm filterPriority : String) :
    (∀ task ∈ filteredTasks dates toLowerCase now tasks searchTerm filterPriority,
      task.status ≠ JsVal.str "archived") ∧
    List.Sublist (filteredTasks dates toLowerCase now tasks searchTerm filterPriority)
      tasks := by
  constructor
  · intro task hm ha
    simp only [filteredTasks, List.mem_filter] at hm
    simp [ha] at hm
  · exact List.filter_sublist _

/-- The theorem `filteredTasks_sublist` at a search for `supplier` under a filter option that
does not exist: the one task shown is not archived. -/
theorem filteredTasks_sublist_witness :
    filteredTasks sampleDates asciiLower noon sampleTasks " SUPPLIER " "no-such-filter" =
      [morningTask] ∧
    morningTask.status ≠ JsVal.str "archived" ∧
    List.Sublist
      (filteredTasks sampleDates asciiLower noon sampleTasks " SUPPLIER " "no-such-filter")
      sampleTasks :=
  ⟨by decide,
   (filteredTasks_sublist sampleDates asciiLower noon sampleTasks " SUPPLIER "
      "no-such-filter").1 morningTask (by decide),
   (filteredTasks_sublist sampleDates asciiLower noon sampleTasks " SUPPLIER "
      "no-such-filter").2⟩

end DontForget
